import Mathlib

/-! # Site complaint management (SSY): ticket lifecycle, access control and sessions

A shallow embedding of `src/backend/index.js`, and of `escapeHtml` of the pages in
`src/assets/js`.

* JavaScript values are modelled by `JVal` (what a JSON body can carry) and `JNum`
  (the result of `Number(..)`: `NaN` or an integer). Numbers are exact integers there:
  fractions, exponents, radix prefixes, `Infinity` and the rounding of literals beyond 2^53
  are outside that model. The rating handler stores `Number(stars)` as it is sent, so it is
  embedded a second time over every number (`JDouble`, `rateTicketWide`), with the built-in
  conversions between strings and numbers as arguments.
* Timestamps are milliseconds since the epoch (`Nat`); `toISOString` is a bijection between
  them and the ISO strings the code stores, and it preserves the order.
* The clock is a function `clk : Nat → Nat` from the number of readings taken so far to the
  time read; every `nowISO()` / `Date.now()` consumes one reading.
* SQLite tables are lists of rows in insertion order, `AUTOINCREMENT` keys come from a
  per-table sequence, and a `NaN` bound to a statement is stored as `NULL`.
* Strings are lists of code points and `length` counts UTF-16 code units. The built-in case
  conversions `toLowerCase` and `toUpperCase`, the token `crypto.randomBytes` draws and the
  hash `bcrypt.hash` returns are arguments of the functions that use them.
-/

set_option autoImplicit false

namespace SSY

/-! ## JavaScript values -/

/-- Result of `Number(v)`: `NaN` or an integer. -/
inductive JNum where
  | nan
  | int (n : Int)
  deriving DecidableEq, Repr

/-- Value carried by a parsed JSON body or query string. An array or a plain object is
represented by the string `String(v)` gives for it (its `Number(v)` is the number read from
that string). -/
inductive JVal where
  | null
  | bool (b : Bool)
  | num (n : Int)
  | str (s : String)
  | compound (asString : String)
  deriving DecidableEq, Repr

/-- JavaScript `WhiteSpace` and `LineTerminator` code points, as removed by `trim()` and
skipped by `Number(string)`. -/
def isJsSpace (c : Char) : Bool :=
  let n := c.toNat
  n == 9 || n == 10 || n == 11 || n == 12 || n == 13 || n == 32 || n == 160 ||
  n == 0x1680 || (0x2000 ≤ n && n ≤ 0x200A) || n == 0x2028 || n == 0x2029 ||
  n == 0x202F || n == 0x205F || n == 0x3000 || n == 0xFEFF

/-- Drop leading JavaScript white space. -/
def dropSpaces : List Char → List Char
  | [] => []
  | c :: cs => if isJsSpace c then dropSpaces cs else c :: cs

/-- JavaScript `String.prototype.trim` on a list of characters. -/
def trimChars (cs : List Char) : List Char :=
  (dropSpaces (dropSpaces cs).reverse).reverse

/-- JavaScript `s.trim()`. -/
def jsTrim (s : String) : String := String.mk (trimChars s.data)

/-- Value of a run of decimal digits, `none` when a character is not a digit. -/
def digitsValue : List Char → Nat → Option Nat
  | [], acc => some acc
  | c :: cs, acc =>
    if c.isDigit then digitsValue cs (acc * 10 + (c.toNat - 48)) else none

/-- JavaScript `Number(s)` for a string: white space is trimmed, the empty string is `0`, an
optionally signed run of decimal digits is its value, anything else is `NaN`. -/
def stringToNumber (s : String) : JNum :=
  match trimChars s.data with
  | [] => .int 0
  | '-' :: ds =>
    if ds.isEmpty then .nan else
      match digitsValue ds 0 with
      | some n => .int (-(n : Int))
      | none => .nan
  | '+' :: ds =>
    if ds.isEmpty then .nan else
      match digitsValue ds 0 with
      | some n => .int n
      | none => .nan
  | ds =>
    match digitsValue ds 0 with
    | some n => .int n
    | none => .nan

/-- Truthiness of a number: `NaN` and `0` are falsy. -/
def JNum.truthy : JNum → Bool
  | .nan => false
  | .int n => n != 0

/-- JavaScript `String(n)` for a number. -/
def JNum.toStr : JNum → String
  | .nan => "NaN"
  | .int n => toString n

/-- Truthiness of a body value. -/
def JVal.truthy : JVal → Bool
  | .null => false
  | .bool b => b
  | .num n => n != 0
  | .str s => s != ""
  | .compound _ => true

/-- JavaScript `String(v)`. -/
def jsString : JVal → String
  | .null => "null"
  | .bool true => "true"
  | .bool false => "false"
  | .num n => toString n
  | .str s => s
  | .compound s => s

/-- JavaScript `Number(v)`. -/
def jsNumber : JVal → JNum
  | .null => .int 0
  | .bool true => .int 1
  | .bool false => .int 0
  | .num n => .int n
  | .str s => stringToNumber s
  | .compound s => stringToNumber s

/-- Truthiness of a possibly absent (`undefined`) property. -/
def optTruthy : Option JVal → Bool
  | none => false
  | some v => v.truthy

/-- JavaScript `String(v || d)` for a possibly absent property `v` and a string default `d`. -/
def stringOr (v : Option JVal) (d : String) : String :=
  match v with
  | some x => if x.truthy then jsString x else d
  | none => d

/-! ## Rows of the SQLite schema (`initDb`) -/

/-- Row of `users`. -/
structure UserRow where
  id : Int
  full_name : String
  email : String
  password_hash : String
  role : String
  is_active : Int
  created_at : Nat
  deriving DecidableEq, Repr

/-- Row of `sessions`. -/
structure SessionRow where
  id : Int
  sid : String
  user_id : Int
  created_at : Nat
  expires_at : Nat
  deriving DecidableEq, Repr

/-- Row of `tickets`. -/
structure TicketRow where
  id : Int
  ticket_no : Option String
  created_by : Int
  category : String
  title : String
  description : String
  priority : String
  status : String
  assigned_to : Option Int
  created_at : Nat
  updated_at : Nat
  resolved_at : Option Nat
  resolved_note : Option String
  deriving DecidableEq, Repr

/-- Row of `events`. -/
structure EventRow where
  id : Int
  ticket_id : Int
  actor_id : Option Int
  type : String
  message : String
  created_at : Nat
  deriving DecidableEq, Repr

/-- Row of `announcements`. -/
structure AnnouncementRow where
  id : Int
  title : String
  body : String
  created_by : Int
  created_at : Nat
  is_published : Int
  expires_at : Option Nat
  image_path : Option String
  deriving DecidableEq, Repr

/-- Row of `ratings`. -/
structure RatingRow where
  id : Int
  ticket_id : Int
  user_id : Int
  stars : Int
  note : Option String
  created_at : Nat
  deriving DecidableEq, Repr

/-- Row of `attachments`. -/
structure AttachmentRow where
  id : Int
  ticket_id : Int
  uploaded_by : Int
  original_name : String
  file_name : String
  mime : String
  size : Int
  created_at : Nat
  deriving DecidableEq, Repr

/-- Row of `audit_log`; `meta` is the `JSON.stringify` text. -/
structure AuditRow where
  id : Int
  action : String
  actor_id : Option Int
  meta : Option String
  created_at : Nat
  deriving DecidableEq, Repr

/-- The database: one list per table, in insertion order, and the `AUTOINCREMENT`
sequence of each table (the largest key ever handed out). -/
structure Store where
  users : List UserRow := []
  sessions : List SessionRow := []
  tickets : List TicketRow := []
  events : List EventRow := []
  announcements : List AnnouncementRow := []
  ratings : List RatingRow := []
  attachments : List AttachmentRow := []
  audit_log : List AuditRow := []
  userSeq : Int := 0
  sessionSeq : Int := 0
  ticketSeq : Int := 0
  eventSeq : Int := 0
  announcementSeq : Int := 0
  ratingSeq : Int := 0
  attachmentSeq : Int := 0
  auditSeq : Int := 0
  deriving DecidableEq, Repr

/-- One observable effect of a request, in the order it happens: a write statement run on a
table, or a socket broadcast. -/
inductive Effect where
  | write (table : String)
  | emit (name : String)
  deriving DecidableEq, Repr

/-- State of the server between two steps of a handler: the database, the number of clock
readings taken so far and the effects produced so far. -/
structure World where
  db : Store := {}
  tick : Nat := 0
  trace : List Effect := []
  deriving DecidableEq, Repr

/-- Key given by `AUTOINCREMENT`: one more than the largest key in the table or ever used. -/
def nextRowId (ids : List Int) (seq : Int) : Int :=
  max (ids.foldl max 0) seq + 1

/-- Function `nowISO()` (also `Date.now()`): the next reading of the clock. -/
def nowISO (clk : Nat → Nat) (w : World) : Nat × World :=
  (clk w.tick, { w with tick := w.tick + 1 })

/-- Expression `io.emit(name, ..)`. -/
def ioEmit (w : World) (name : String) : World :=
  { w with trace := w.trace ++ [Effect.emit name] }

/-! ## Users, sessions and the access gate -/

/-- The user object `mapUser` builds from a row. -/
structure User where
  id : Int
  full_name : String
  email : String
  role : String
  is_active : Int
  created_at : Nat
  deriving DecidableEq, Repr

/-- Function `mapUser(row)` for a present row. -/
def mapUser (row : UserRow) : User :=
  { id := row.id, full_name := row.full_name, email := row.email, role := row.role,
    is_active := row.is_active, created_at := row.created_at }

/-- Function `canAccessTicket(user, ticket)`; `none` is an absent (`null`) argument. -/
def canAccessTicket (user : Option User) (ticket : Option TicketRow) : Bool :=
  match user, ticket with
  | some u, some t =>
    if u.role = "YONETICI" then true
    else if u.role = "PERSONEL" then decide (t.assigned_to = some u.id)
    else decide (t.created_by = u.id)
  | _, _ => false

/-- The rows of `sessions s JOIN users u ON u.id = s.user_id WHERE s.sid = ?`. -/
def sessionJoin (db : Store) (sid : String) : List (SessionRow × UserRow) :=
  (db.sessions.filter (fun s => s.sid = sid)).flatMap
    (fun s => (db.users.filter (fun u => u.id = s.user_id)).map (fun u => (s, u)))

/-- Function `deleteSession(sid)` for a truthy `sid`: `DELETE FROM sessions WHERE sid = ?`. -/
def deleteSession (w : World) (sid : String) : World :=
  { w with
    db := { w.db with sessions := w.db.sessions.filter (fun s => ¬ s.sid = sid) },
    trace := w.trace ++ [Effect.write "sessions"] }

/-- Function `getUserBySession(sid)`; the cookie value is absent (`none`) or a string. -/
def getUserBySession (clk : Nat → Nat) (w : World) (sid : Option String) :
    Option User × World :=
  match sid with
  | none => (none, w)
  | some sid =>
    if sid = "" then (none, w) else
    match (sessionJoin w.db sid).head? with
    | none => (none, w)
    | some (s, u) =>
      let (now, w1) := nowISO clk w
      if s.expires_at < now then (none, deleteSession w1 sid)
      else (some (mapUser u), w1)

/-! ## Responses -/

/-- The ticket object `mapTicket` builds from a row. -/
structure Ticket where
  id : Int
  ticketNo : Option String
  createdBy : Int
  category : String
  title : String
  description : String
  priority : String
  status : String
  assignedTo : Option Int
  createdAt : Nat
  updatedAt : Nat
  resolvedAt : Option Nat
  resolvedNote : Option String
  deriving DecidableEq, Repr

/-- Function `mapTicket(row)` for a present row. -/
def mapTicket (row : TicketRow) : Ticket :=
  { id := row.id, ticketNo := row.ticket_no, createdBy := row.created_by,
    category := row.category, title := row.title, description := row.description,
    priority := row.priority, status := row.status, assignedTo := row.assigned_to,
    createdAt := row.created_at, updatedAt := row.updated_at,
    resolvedAt := row.resolved_at, resolvedNote := row.resolved_note }

/-- The event object `mapEvent` builds from a row. -/
structure Event where
  id : Int
  ticketId : Int
  actorId : Option Int
  type : String
  message : String
  createdAt : Nat
  deriving DecidableEq, Repr

/-- Function `mapEvent(row)` for a present row. -/
def mapEvent (row : EventRow) : Event :=
  { id := row.id, ticketId := row.ticket_id, actorId := row.actor_id, type := row.type,
    message := row.message, createdAt := row.created_at }

/-- The rating object `mapRating` builds from a row. -/
structure Rating where
  id : Int
  ticketId : Int
  userId : Int
  stars : Int
  note : Option String
  createdAt : Nat
  deriving DecidableEq, Repr

/-- Function `mapRating(row)` for a present row. -/
def mapRating (row : RatingRow) : Rating :=
  { id := row.id, ticketId := row.ticket_id, userId := row.user_id, stars := row.stars,
    note := row.note, createdAt := row.created_at }

/-- The attachment object `mapAttachment` builds from a row. -/
structure Attachment where
  id : Int
  ticketId : Int
  uploadedBy : Int
  originalName : String
  fileName : String
  mime : String
  size : Int
  createdAt : Nat
  deriving DecidableEq, Repr

/-- Function `mapAttachment(row)` for a present row. -/
def mapAttachment (row : AttachmentRow) : Attachment :=
  { id := row.id, ticketId := row.ticket_id, uploadedBy := row.uploaded_by,
    originalName := row.original_name, fileName := row.file_name, mime := row.mime,
    size := row.size, createdAt := row.created_at }

/-- JSON body of a response. -/
inductive Payload where
  | error (code : String)
  | ok
  | user (u : User)
  | ticket (t : Option Ticket)
  | tickets (ts : List Ticket)
  | events (es : List Event)
  | rating (r : Option Rating)
  | attachment (a : Option Attachment)
  | attachments (as : List Attachment)
  | updatedUser (u : Option User)
  deriving DecidableEq, Repr

/-- HTTP response: status code and JSON body (`res.json` answers 200). -/
structure Response where
  status : Nat
  payload : Payload
  deriving DecidableEq, Repr

/-- Expression `res.status(code).json(\x7b error \x7d)`. -/
def errorResponse (status : Nat) (code : String) : Response :=
  { status := status, payload := Payload.error code }

/-- Function `authRequired`: resolves the cookie to a user and hands over to the next handler. -/
def authRequired (clk : Nat → Nat) (w : World) (sid : Option String)
    (next : World → User → Response × World) : Response × World :=
  match getUserBySession clk w sid with
  | (none, w1) => (errorResponse 401 "UNAUTHORIZED", w1)
  | (some user, w1) =>
    if user.is_active = 0 then (errorResponse 403 "ACCOUNT_DISABLED", w1)
    else next w1 user

/-- Function `requireRole(roles)` after `authRequired`: is the user's role in the list. -/
def requireRole (roles : List String) (user : User) : Bool :=
  decide (user.role ∈ roles)

/-! ## Events and audit log -/

/-- Expression `actorId || null`. -/
def actorOrNull (actorId : Int) : Option Int :=
  if actorId = 0 then none else some actorId

/-- Function `addEvent(ticketId, actorId, type, message)`: returns the event and the new state. -/
def addEvent (clk : Nat → Nat) (w : World) (ticketId actorId : Int) (type message : String) :
    EventRow × World :=
  let (createdAt, w1) := nowISO clk w
  let id := nextRowId (w1.db.events.map (fun e => e.id)) w1.db.eventSeq
  let ev : EventRow :=
    { id := id, ticket_id := ticketId, actor_id := actorOrNull actorId, type := type,
      message := message, created_at := createdAt }
  (ev, { w1 with
         db := { w1.db with events := w1.db.events ++ [ev], eventSeq := id },
         trace := w1.trace ++ [Effect.write "events"] })

/-- Function `addAudit(action, actorId, meta)`; `meta` is the stringified object or `none`. -/
def addAudit (clk : Nat → Nat) (w : World) (action : String) (actorId : Int)
    (meta : Option String) : World :=
  let (createdAt, w1) := nowISO clk w
  let id := nextRowId (w1.db.audit_log.map (fun a => a.id)) w1.db.auditSeq
  let row : AuditRow :=
    { id := id, action := action, actor_id := actorOrNull actorId, meta := meta,
      created_at := createdAt }
  { w1 with
    db := { w1.db with audit_log := w1.db.audit_log ++ [row], auditSeq := id },
    trace := w1.trace ++ [Effect.write "audit_log"] }

/-- Expression `JSON.stringify(\x7b ticketId \x7d)`. -/
def ticketIdMeta (ticketId : Int) : String :=
  "\x7b\"ticketId\":" ++ toString ticketId ++ "\x7d"

/-- Expression `get("SELECT * FROM tickets WHERE id = ?", [ticketId])`. -/
def getTicket (db : Store) (ticketId : Int) : Option TicketRow :=
  db.tickets.find? (fun t => t.id = ticketId)

/-! ## PATCH /api/tickets/:id -/

/-- Body of a PATCH request: each of the three keys is absent (`none`, `hasOwnProperty`
is false) or carries a value. A missing body is the empty object. -/
structure PatchBody where
  assignedTo : Option JVal := none
  status : Option JVal := none
  resolvedNote : Option JVal := none
  deriving DecidableEq, Repr

/-- The object `next` of the PATCH handler. `assigned_to` is `null` or a number. -/
structure Next where
  assigned_to : Option JNum
  status : String
  resolved_at : Option Nat
  resolved_note : Option String
  deriving DecidableEq, Repr

/-- Initial value of `next`: the four columns of the stored row. -/
def nextOfRow (row : TicketRow) : Next :=
  { assigned_to := row.assigned_to.map JNum.int, status := row.status,
    resolved_at := row.resolved_at, resolved_note := row.resolved_note }

/-- The block run when the role is YONETICI. -/
def adminFields (row : TicketRow) (patch : PatchBody) (next : Next) : Next :=
  let n1 : Next :=
    match patch.assignedTo with
    | some v => { next with assigned_to := if v.truthy then some (jsNumber v) else none }
    | none => next
  let n2 : Next :=
    match patch.status with
    | some v => { n1 with status := stringOr (some v) row.status }
    | none => n1
  match patch.resolvedNote with
  | some v => { n2 with resolved_note := some (stringOr (some v) "") }
  | none => n2

/-- The block run when the role is PERSONEL; `none` is the early INVALID_STATUS return. -/
def staffFields (row : TicketRow) (patch : PatchBody) (next : Next) : Option Next :=
  let n1 : Option Next :=
    match patch.status with
    | some v =>
      let desired := stringOr (some v) row.status
      if desired ∈ ["INCELEMEDE", "COZULDU"] then some { next with status := desired }
      else none
    | none => some next
  match n1 with
  | none => none
  | some n1 =>
    match patch.resolvedNote with
    | some v => some { n1 with resolved_note := some (stringOr (some v) "") }
    | none => some n1

/-- The role blocks of the PATCH handler applied to the stored row. -/
def computeNext (user : User) (row : TicketRow) (patch : PatchBody) : Option Next :=
  let n0 := nextOfRow row
  let n1 := if user.role = "YONETICI" then adminFields row patch n0 else n0
  if user.role = "PERSONEL" then staffFields row patch n1 else some n1

/-- Strict inequality `a !== b` of two values that are `null` or a number. -/
def strictNe (a b : Option JNum) : Bool :=
  match a, b with
  | none, none => false
  | some (JNum.int x), some (JNum.int y) => x != y
  | _, _ => true

/-- Truthiness of a value that is `null` or a number. -/
def numTruthy : Option JNum → Bool
  | none => false
  | some n => n.truthy

/-- Value SQLite stores for a bound `null` or number: `NaN` becomes `NULL`. -/
def bindNumber : Option JNum → Option Int
  | some (JNum.int n) => some n
  | _ => none

/-- The row left by `SET assigned_to = ?, status = ?, resolved_at = ?, resolved_note = ?,
updated_at = ?` on the row `t`. -/
def updatedRow (t : TicketRow) (next : Next) (updatedAt : Nat) : TicketRow :=
  { t with assigned_to := bindNumber next.assigned_to, status := next.status,
           resolved_at := next.resolved_at, resolved_note := next.resolved_note,
           updated_at := updatedAt }

/-- The statement `UPDATE tickets SET .. WHERE id = ticketId` of the PATCH handler. -/
def updateTicket (w : World) (ticketId : Int) (next : Next) (updatedAt : Nat) : World :=
  { w with
    db := { w.db with
      tickets := w.db.tickets.map (fun t =>
        if t.id = ticketId then updatedRow t next updatedAt else t) },
    trace := w.trace ++ [Effect.write "tickets"] }

/-- Message of the ASSIGN event. -/
def assignMessage (assigned : Option JNum) : String :=
  match assigned with
  | some n => if n.truthy then "Personel atandı (ID: " ++ n.toStr ++ ")" else "Atama kaldırıldı"
  | none => "Atama kaldırıldı"

/-- First conditional of the PATCH handler: an ASSIGN event when `row.assigned_to !==
next.assigned_to`, followed by its broadcast. -/
def assignEvent (clk : Nat → Nat) (w : World) (user : User) (ticketId : Int)
    (row : TicketRow) (next : Next) : World :=
  if strictNe (row.assigned_to.map JNum.int) next.assigned_to then
    ioEmit (addEvent clk w ticketId user.id "ASSIGN" (assignMessage next.assigned_to)).2
      "event:created"
  else w

/-- Second conditional: a STATUS event when `row.status !== next.status`. -/
def statusEvent (clk : Nat → Nat) (w : World) (user : User) (ticketId : Int)
    (row : TicketRow) (next : Next) : World :=
  if row.status ≠ next.status then
    ioEmit (addEvent clk w ticketId user.id "STATUS" ("Durum: " ++ next.status)).2
      "event:created"
  else w

/-- Whether `next.resolved_note && next.resolved_note !== row.resolved_note` holds. -/
def noteChanged (row : TicketRow) (next : Next) : Bool :=
  match next.resolved_note with
  | some note => decide (note ≠ "" ∧ some note ≠ row.resolved_note)
  | none => false

/-- Third conditional: a COMMENT event when the note is truthy and differs from the stored
one. -/
def commentEvent (clk : Nat → Nat) (w : World) (user : User) (ticketId : Int)
    (row : TicketRow) (next : Next) : World :=
  if noteChanged row next then
    ioEmit (addEvent clk w ticketId user.id "COMMENT"
      ("Çözüm Notu: " ++ next.resolved_note.getD "")).2 "event:created"
  else w

/-- The three conditional `addEvent` calls of the PATCH handler, in the order of the source. -/
def patchEvents (clk : Nat → Nat) (w : World) (user : User) (ticketId : Int)
    (row : TicketRow) (next : Next) : World :=
  commentEvent clk (statusEvent clk (assignEvent clk w user ticketId row next)
    user ticketId row next) user ticketId row next

/-- Stamp `resolved_at` with the clock when the next status is COZULDU or KAPANDI. -/
def stampResolved (clk : Nat → Nat) (w : World) (next : Next) : Next × World :=
  if next.status ∈ ["COZULDU", "KAPANDI"] then
    ({ next with resolved_at := some (nowISO clk w).1 }, (nowISO clk w).2)
  else (next, w)

/-- The part of the PATCH handler after the role blocks: stamp `resolved_at`, read
`updatedAt`, run the UPDATE, read the row back, record the events, broadcast, audit. -/
def patchCommit (clk : Nat → Nat) (w : World) (user : User) (ticketId : Int)
    (row : TicketRow) (next0 : Next) : Response × World :=
  let next := (stampResolved clk w next0).1
  let w1 := (stampResolved clk w next0).2
  let updatedAt := (nowISO clk w1).1
  let w2 := (nowISO clk w1).2
  let w3 := updateTicket w2 ticketId next updatedAt
  let ticket := (getTicket w3.db ticketId).map mapTicket
  let w4 := patchEvents clk w3 user ticketId row next
  let w5 := ioEmit w4 "ticket:updated"
  let w6 := addAudit clk w5 "TICKET_UPDATE" user.id (some (ticketIdMeta ticketId))
  ({ status := 200, payload := Payload.ticket ticket }, w6)

/-- Handler of `PATCH /api/tickets/:id` after `authRequired`. -/
def patchTicket (clk : Nat → Nat) (w : World) (user : User) (idParam : String)
    (patch : PatchBody) : Response × World :=
  match stringToNumber idParam with
  | JNum.nan => (errorResponse 400 "INVALID_ID", w)
  | JNum.int ticketId =>
    if ticketId = 0 then (errorResponse 400 "INVALID_ID", w) else
    match getTicket w.db ticketId with
    | none => (errorResponse 404 "NOT_FOUND", w)
    | some row =>
      if user.role = "PERSONEL" ∧ row.assigned_to ≠ some user.id then
        (errorResponse 403 "FORBIDDEN", w)
      else if user.role = "SAKIN" then (errorResponse 403 "FORBIDDEN", w)
      else
        match computeNext user row patch with
        | none => (errorResponse 400 "INVALID_STATUS", w)
        | some next => patchCommit clk w user ticketId row next

/-! ## PATCH /api/tickets/:id when a statement is rejected

The handler awaits its statements one after the other through `run` and `get`, with no
`BEGIN` or `COMMIT` around them, so each one is committed when it returns. A rejected
statement changes nothing and throws; the `catch` of the handler passes the error to the
last middleware, which answers 500 SERVER_ERROR. -/

/-- The store statements of one PATCH request, named by their place in the handler. -/
inductive PatchOp where
  | selectRow
  | updateRow
  | selectUpdated
  | insertAssign
  | insertStatus
  | insertComment
  | insertAudit
  deriving DecidableEq, Repr

/-- Outcome of a part of the handler: the state it ends in, or the state in which one of its
statements was rejected. -/
inductive Step where
  | done (w : World)
  | failed (w : World)
  deriving DecidableEq, Repr

/-- Sequencing of two parts of the handler: the second runs only if the first ended. -/
def Step.andThen : Step → (World → Step) → Step
  | Step.done w, f => f w
  | Step.failed w, _ => Step.failed w

/-- One of the three conditional blocks `const event = await addEvent(..);
io.emit("event:created", event)` when the INSERT of `addEvent` is rejected for the
statements `fails` marks: `nowISO()` has been read, nothing is stored or broadcast. -/
def eventStep (fails : PatchOp → Bool) (op : PatchOp) (clk : Nat → Nat) (w : World)
    (user : User) (ticketId : Int) (due : Bool) (type message : String) : Step :=
  if due then
    if fails op then Step.failed (nowISO clk w).2
    else Step.done (ioEmit (addEvent clk w ticketId user.id type message).2 "event:created")
  else Step.done w

/-- The three conditional `addEvent` calls of the PATCH handler with rejected statements. -/
def patchEventsFaulty (fails : PatchOp → Bool) (clk : Nat → Nat) (w : World) (user : User)
    (ticketId : Int) (row : TicketRow) (next : Next) : Step :=
  ((eventStep fails PatchOp.insertAssign clk w user ticketId
      (strictNe (row.assigned_to.map JNum.int) next.assigned_to) "ASSIGN"
      (assignMessage next.assigned_to)).andThen
    (fun w1 => eventStep fails PatchOp.insertStatus clk w1 user ticketId
      (decide (row.status ≠ next.status)) "STATUS" ("Durum: " ++ next.status))).andThen
    (fun w2 => eventStep fails PatchOp.insertComment clk w2 user ticketId
      (noteChanged row next) "COMMENT" ("Çözüm Notu: " ++ next.resolved_note.getD ""))

/-- The part of the PATCH handler after the role blocks, with rejected statements. -/
def patchCommitFaulty (fails : PatchOp → Bool) (clk : Nat → Nat) (w : World) (user : User)
    (ticketId : Int) (row : TicketRow) (next0 : Next) : Response × World :=
  let next := (stampResolved clk w next0).1
  let w1 := (stampResolved clk w next0).2
  let updatedAt := (nowISO clk w1).1
  let w2 := (nowISO clk w1).2
  if fails PatchOp.updateRow then (errorResponse 500 "SERVER_ERROR", w2) else
  let w3 := updateTicket w2 ticketId next updatedAt
  if fails PatchOp.selectUpdated then (errorResponse 500 "SERVER_ERROR", w3) else
  match patchEventsFaulty fails clk w3 user ticketId row next with
  | Step.failed w4 => (errorResponse 500 "SERVER_ERROR", w4)
  | Step.done w4 =>
    if fails PatchOp.insertAudit then
      (errorResponse 500 "SERVER_ERROR", (nowISO clk (ioEmit w4 "ticket:updated")).2)
    else
      ({ status := 200, payload := Payload.ticket ((getTicket w3.db ticketId).map mapTicket) },
        addAudit clk (ioEmit w4 "ticket:updated") "TICKET_UPDATE" user.id
          (some (ticketIdMeta ticketId)))

/-- Handler of `PATCH /api/tickets/:id` after `authRequired`, with rejected statements. -/
def patchTicketFaulty (fails : PatchOp → Bool) (clk : Nat → Nat) (w : World) (user : User)
    (idParam : String) (patch : PatchBody) : Response × World :=
  match stringToNumber idParam with
  | JNum.nan => (errorResponse 400 "INVALID_ID", w)
  | JNum.int ticketId =>
    if ticketId = 0 then (errorResponse 400 "INVALID_ID", w) else
    if fails PatchOp.selectRow then (errorResponse 500 "SERVER_ERROR", w) else
    match getTicket w.db ticketId with
    | none => (errorResponse 404 "NOT_FOUND", w)
    | some row =>
      if user.role = "PERSONEL" ∧ row.assigned_to ≠ some user.id then
        (errorResponse 403 "FORBIDDEN", w)
      else if user.role = "SAKIN" then (errorResponse 403 "FORBIDDEN", w)
      else
        match computeNext user row patch with
        | none => (errorResponse 400 "INVALID_STATUS", w)
        | some next => patchCommitFaulty fails clk w user ticketId row next

/-- The event type a statement of the PATCH inserts, when it is one of the three INSERTs
of `addEvent`. -/
def PatchOp.eventType : PatchOp → Option String
  | PatchOp.insertAssign => some "ASSIGN"
  | PatchOp.insertStatus => some "STATUS"
  | PatchOp.insertComment => some "COMMENT"
  | _ => none

/-- The statements a PATCH that passed its gates runs, in the order of the source: the two
SELECTs around the UPDATE, the INSERT of each event that is due, the audit INSERT. -/
def patchStatements (row : TicketRow) (next : Next) : List PatchOp :=
  [PatchOp.selectRow, PatchOp.updateRow, PatchOp.selectUpdated] ++
    (if strictNe (row.assigned_to.map JNum.int) next.assigned_to then
      [PatchOp.insertAssign] else []) ++
    (if row.status ≠ next.status then [PatchOp.insertStatus] else []) ++
    (if noteChanged row next then [PatchOp.insertComment] else []) ++
    [PatchOp.insertAudit]

/-- Only the statement `op` is rejected. -/
def failAt (op : PatchOp) : PatchOp → Bool :=
  fun o => decide (o = op)

/-! ## POST /api/tickets -/

/-- Civil date (year, month, day) of a day count since 1970-01-01. -/
def civilFromDays (days : Nat) : Nat × Nat × Nat :=
  let z := days + 719468
  let era := z / 146097
  let doe := z % 146097
  let yoe := (doe - doe / 1460 + doe / 36524 - doe / 146096) / 365
  let doy := doe - (365 * yoe + yoe / 4 - yoe / 100)
  let mp := (5 * doy + 2) / 153
  let d := doy - (153 * mp + 2) / 5 + 1
  let m := if mp < 10 then mp + 3 else mp - 9
  let y := yoe + era * 400
  (if m ≤ 2 then y + 1 else y, m, d)

/-- JavaScript `s.padStart(n, "0")`. -/
def padStart (n : Nat) (s : String) : String :=
  String.mk (List.replicate (n - s.length) '0') ++ s

/-- Function `ticketNoFromId(id)` at the time `now` read by `new Date()`; the calendar fields
are those of UTC (a server whose local time zone is UTC). -/
def ticketNoFromId (now : Nat) (id : Int) : String :=
  let (y, m, day) := civilFromDays (now / 86400000)
  "SSY-" ++ toString y ++ padStart 2 (toString m) ++ padStart 2 (toString day) ++ "-" ++
    padStart 6 (toString id)

/-- Body of a ticket creation; an absent key is `none`. -/
structure CreateBody where
  category : Option JVal := none
  title : Option JVal := none
  description : Option JVal := none
  priority : Option JVal := none
  deriving DecidableEq, Repr

/-- Text stored in a TEXT column for a bound truthy value: a string as it is, a number as
its decimal text, `true` as the text of the integer 1, an array or object as the text the
driver binds for any object. -/
def bindText : Option JVal → String
  | some (JVal.str s) => s
  | some (JVal.num n) => toString n
  | some (JVal.bool true) => "1"
  | some (JVal.bool false) => "0"
  | some (JVal.compound _) => "[object Object]"
  | some JVal.null => ""
  | none => ""

/-- The INSERT of the creation handler: the new row has status ACIK, no ticket number, no
assignee and both timestamps equal to `createdAt`. Returns `lastID` and the new state. -/
def insertTicket (w : World) (user : User) (body : CreateBody) (createdAt : Nat) :
    Int × World :=
  let id := nextRowId (w.db.tickets.map (fun t => t.id)) w.db.ticketSeq
  let row : TicketRow :=
    { id := id, ticket_no := none, created_by := user.id, category := bindText body.category,
      title := bindText body.title, description := bindText body.description,
      priority := bindText body.priority, status := "ACIK", assigned_to := none,
      created_at := createdAt, updated_at := createdAt, resolved_at := none,
      resolved_note := none }
  (id, { w with db := { w.db with tickets := w.db.tickets ++ [row], ticketSeq := id },
                trace := w.trace ++ [Effect.write "tickets"] })

/-- The statement `UPDATE tickets SET ticket_no = ? WHERE id = ?`. -/
def setTicketNo (w : World) (id : Int) (ticketNo : String) : World :=
  { w with
    db := { w.db with
      tickets := w.db.tickets.map (fun t =>
        if t.id = id then { t with ticket_no := some ticketNo } else t) },
    trace := w.trace ++ [Effect.write "tickets"] }

/-- The creation handler after its two gates. -/
def createCommit (clk : Nat → Nat) (w : World) (user : User) (body : CreateBody) :
    Response × World :=
  let createdAt := (nowISO clk w).1
  let w1 := (nowISO clk w).2
  let id := (insertTicket w1 user body createdAt).1
  let w2 := (insertTicket w1 user body createdAt).2
  let ticketNo := ticketNoFromId (nowISO clk w2).1 id
  let w3 := (nowISO clk w2).2
  let w4 := setTicketNo w3 id ticketNo
  let ticket := (getTicket w4.db id).map mapTicket
  let w5 := (addEvent clk w4 id user.id "STATUS" "Durum: Açık").2
  let w6 := ioEmit (ioEmit w5 "event:created") "ticket:created"
  let w7 := addAudit clk w6 "TICKET_CREATE" user.id (some (ticketIdMeta id))
  ({ status := 200, payload := Payload.ticket ticket }, w7)

/-- Handler of `POST /api/tickets` after `authRequired`, with its `requireRole("SAKIN")`. -/
def createTicket (clk : Nat → Nat) (w : World) (user : User) (body : CreateBody) :
    Response × World :=
  if ¬ requireRole ["SAKIN"] user then (errorResponse 403 "FORBIDDEN", w)
  else if ¬ optTruthy body.category ∨ ¬ optTruthy body.title ∨
      ¬ optTruthy body.description ∨ ¬ optTruthy body.priority then
    (errorResponse 400 "MISSING_FIELDS", w)
  else createCommit clk w user body

/-! ## DELETE /api/tickets/:id -/

/-- The deletion handler after its gates: the DELETE, the broadcast and the audit entry. -/
def deleteCommit (clk : Nat → Nat) (w : World) (user : User) (ticketId : Int) :
    Response × World :=
  let w1 : World :=
    { w with
      db := { w.db with tickets := w.db.tickets.filter (fun t => ¬ t.id = ticketId) },
      trace := w.trace ++ [Effect.write "tickets"] }
  let w2 := ioEmit w1 "ticket:deleted"
  let w3 := addAudit clk w2 "TICKET_DELETE" user.id (some (ticketIdMeta ticketId))
  ({ status := 200, payload := Payload.ok }, w3)

/-- Handler of `DELETE /api/tickets/:id` after `authRequired`, with its
`requireRole("SAKIN")`. -/
def deleteTicket (clk : Nat → Nat) (w : World) (user : User) (idParam : String) :
    Response × World :=
  if ¬ requireRole ["SAKIN"] user then (errorResponse 403 "FORBIDDEN", w) else
  match stringToNumber idParam with
  | JNum.nan => (errorResponse 400 "INVALID_ID", w)
  | JNum.int ticketId =>
    if ticketId = 0 then (errorResponse 400 "INVALID_ID", w) else
    match getTicket w.db ticketId with
    | none => (errorResponse 404 "NOT_FOUND", w)
    | some row =>
      if row.created_by ≠ user.id then (errorResponse 403 "FORBIDDEN", w)
      else if row.status ∈ ["COZULDU", "KAPANDI"] then (errorResponse 400 "CANNOT_DELETE", w)
      else deleteCommit clk w user ticketId

/-! ## GET /api/tickets and GET /api/search/tickets -/

/-- Rows in `ORDER BY created_at DESC`: a stable sort of the rows in table order. -/
def orderByCreatedDesc (rows : List TicketRow) : List TicketRow :=
  rows.insertionSort (fun a b => b.created_at ≤ a.created_at)

/-- The `WHERE` clause of the list query for the role of the user. -/
def roleScope (user : User) (t : TicketRow) : Bool :=
  if user.role = "YONETICI" then true
  else if user.role = "PERSONEL" then decide (t.assigned_to = some user.id)
  else decide (t.created_by = user.id)

/-- Rows selected by `GET /api/tickets`. -/
def listRows (db : Store) (user : User) : List TicketRow :=
  orderByCreatedDesc (db.tickets.filter (roleScope user))

/-- Handler of `GET /api/tickets` after `authRequired`. -/
def listTickets (w : World) (user : User) : Response × World :=
  ({ status := 200, payload := Payload.tickets ((listRows w.db user).map mapTicket) }, w)

/-- SQLite `text LIKE pattern` on characters: `%` matches any run, `_` one character, other
characters match themselves up to ASCII case. The first argument is the pattern. -/
def likeMatch : List Char → List Char → Bool
  | [], [] => true
  | [], _ :: _ => false
  | p :: ps, s =>
    if p = '%' then s.tails.any (fun t => likeMatch ps t)
    else
      match s with
      | [] => false
      | c :: cs => (p = '_' || p.toLower = c.toLower) && likeMatch ps cs

/-- Column `LIKE ?` for a column that may be `NULL` (then the test is not true). -/
def sqlLike (pattern : String) : Option String → Bool
  | none => false
  | some text => likeMatch pattern.data text.data

/-- The four-column `LIKE` disjunction of the search query. -/
def matchesLike (like : String) (t : TicketRow) : Bool :=
  sqlLike like t.ticket_no || sqlLike like (some t.title) ||
    sqlLike like (some t.description) || sqlLike like (some t.category)

/-- Rows selected by `GET /api/search/tickets` for the raw query value `q`. -/
def searchRows (db : Store) (user : User) (q : Option JVal) : List TicketRow :=
  let q := jsTrim (stringOr q "")
  if q = "" then []
  else
    let like := "%" ++ q ++ "%"
    orderByCreatedDesc (db.tickets.filter (fun t => roleScope user t && matchesLike like t))

/-- Handler of `GET /api/search/tickets` after `authRequired`. -/
def searchTickets (w : World) (user : User) (q : Option JVal) : Response × World :=
  ({ status := 200, payload := Payload.tickets ((searchRows w.db user q).map mapTicket) }, w)

/-! ## GET /api/events -/

/-- Value of `Number(v)` for a possibly absent property: `Number(undefined)` is `NaN`. -/
def optNumber : Option JVal → JNum
  | none => JNum.nan
  | some v => jsNumber v

/-- Rows in `ORDER BY created_at ASC`: a stable sort of the rows in table order. -/
def orderByCreatedAsc (rows : List EventRow) : List EventRow :=
  rows.insertionSort (fun a b => a.created_at ≤ b.created_at)

/-- Rows of `SELECT * FROM events WHERE ticket_id = ? ORDER BY created_at ASC`. -/
def eventRows (db : Store) (ticketId : Int) : List EventRow :=
  orderByCreatedAsc (db.events.filter (fun e => e.ticket_id = ticketId))

/-- Handler of `GET /api/events` after `authRequired`; `ticketIdQuery` is
`req.query.ticketId`. -/
def listEvents (w : World) (user : User) (ticketIdQuery : Option JVal) : Response × World :=
  match optNumber ticketIdQuery with
  | JNum.nan => (errorResponse 400 "INVALID_ID", w)
  | JNum.int ticketId =>
    if ticketId = 0 then (errorResponse 400 "INVALID_ID", w) else
    match getTicket w.db ticketId with
    | none => (errorResponse 404 "NOT_FOUND", w)
    | some ticket =>
      if user.role = "PERSONEL" ∧ ticket.assigned_to ≠ some user.id then
        (errorResponse 403 "FORBIDDEN", w)
      else if user.role = "SAKIN" ∧ ticket.created_by ≠ user.id then
        (errorResponse 403 "FORBIDDEN", w)
      else
        ({ status := 200,
           payload := Payload.events ((eventRows w.db ticketId).map mapEvent) }, w)

/-! ## POST /api/ratings -/

/-- Body of a rating submission; an absent key is `none`. -/
structure RatingBody where
  ticketId : Option JVal := none
  stars : Option JVal := none
  note : Option JVal := none
  deriving DecidableEq, Repr

/-- Comparison `a < b` of a number with an integer: false for `NaN`. -/
def JNum.ltInt : JNum → Int → Bool
  | JNum.nan, _ => false
  | JNum.int a, b => decide (a < b)

/-- Comparison `a > b` of a number with an integer: false for `NaN`. -/
def JNum.gtInt : JNum → Int → Bool
  | JNum.nan, _ => false
  | JNum.int a, b => decide (a > b)

/-- The statement `INSERT INTO ratings .. ON CONFLICT(ticket_id, user_id) DO UPDATE SET
stars, note, created_at`: a stored row of the pair is overwritten in place, otherwise a new
row is appended. -/
def upsertRating (w : World) (ticketId userId stars : Int) (note : String)
    (createdAt : Nat) : World :=
  if w.db.ratings.any (fun r => r.ticket_id = ticketId ∧ r.user_id = userId) then
    { w with
      db := { w.db with
        ratings := w.db.ratings.map (fun r =>
          if r.ticket_id = ticketId ∧ r.user_id = userId then
            { r with stars := stars, note := some note, created_at := createdAt }
          else r) },
      trace := w.trace ++ [Effect.write "ratings"] }
  else
    { w with
      db := { w.db with
        ratings := w.db.ratings ++
          [{ id := nextRowId (w.db.ratings.map (fun r => r.id)) w.db.ratingSeq,
             ticket_id := ticketId, user_id := userId, stars := stars, note := some note,
             created_at := createdAt }],
        ratingSeq := nextRowId (w.db.ratings.map (fun r => r.id)) w.db.ratingSeq },
      trace := w.trace ++ [Effect.write "ratings"] }

/-- Expression `get("SELECT * FROM ratings WHERE ticket_id = ? AND user_id = ?")`. -/
def getRating (db : Store) (ticketId userId : Int) : Option RatingRow :=
  db.ratings.find? (fun r => r.ticket_id = ticketId ∧ r.user_id = userId)

/-- Expression `JSON.stringify(\x7b ticketId: id, stars: Number(stars) \x7d)`. -/
def ratingMeta (ticketId stars : Int) : String :=
  "\x7b\"ticketId\":" ++ toString ticketId ++ ",\"stars\":" ++ toString stars ++ "\x7d"

/-- The rating handler after its gates. `Number(stars)` is bound to a NOT NULL column: a
`NaN` is bound as NULL, the statement is rejected and the error middleware answers 500. -/
def rateCommit (clk : Nat → Nat) (w : World) (user : User) (ticketId : Int)
    (stars : JNum) (note : String) : Response × World :=
  match stars with
  | JNum.nan => (errorResponse 500 "SERVER_ERROR", (nowISO clk w).2)
  | JNum.int n =>
    ({ status := 200,
       payload := Payload.rating
         ((getRating (upsertRating (nowISO clk w).2 ticketId user.id n note
           (nowISO clk w).1).db ticketId user.id).map mapRating) },
     addAudit clk (upsertRating (nowISO clk w).2 ticketId user.id n note (nowISO clk w).1)
       "RATING_SAVE" user.id (some (ratingMeta ticketId n)))

/-- Handler of `POST /api/ratings` after `authRequired`, with its `requireRole("SAKIN")`. -/
def rateTicket (clk : Nat → Nat) (w : World) (user : User) (body : RatingBody) :
    Response × World :=
  if ¬ requireRole ["SAKIN"] user then (errorResponse 403 "FORBIDDEN", w) else
  if ¬ (optNumber body.ticketId).truthy ∨ ¬ optTruthy body.stars then
    (errorResponse 400 "MISSING_FIELDS", w)
  else if (optNumber body.stars).ltInt 1 ∨ (optNumber body.stars).gtInt 5 then
    (errorResponse 400 "INVALID_STARS", w)
  else
    match optNumber body.ticketId with
    | JNum.nan => (errorResponse 400 "MISSING_FIELDS", w)
    | JNum.int id =>
      match getTicket w.db id with
      | none => (errorResponse 404 "NOT_FOUND", w)
      | some ticket =>
        if ticket.created_by ≠ user.id then (errorResponse 403 "FORBIDDEN", w)
        else if ticket.status ∉ ["COZULDU", "KAPANDI"] then
          (errorResponse 400 "NOT_RESOLVED", w)
        else rateCommit clk w user id (optNumber body.stars) (stringOr body.note "")

/-! ## POST /api/ratings over all numbers

`Number(stars)` is compared, bound and stored as it is, so a fraction such as 4.5 reaches the
`ratings` table, and a body may carry a number of any size. This section embeds the rating
handler once more with the numbers of JavaScript (`JDouble`) in the place of the integers of
`JNum`. The two conversions between strings and numbers are built-ins of the engine and are
arguments of the handler (`Builtins`). -/

/-- A JavaScript number: `NaN`, an infinity, or a finite double given by its value. The two
zeros are one value: they are equal, both falsy, and compare alike. -/
inductive JDouble where
  | nan
  | negInf
  | posInf
  | fin (q : ℚ)
  deriving DecidableEq, Repr

/-- Value carried by a parsed JSON body, its numbers being doubles. An array or a plain
object is represented by the string `String(v)` gives for it. -/
inductive JJson where
  | null
  | bool (b : Bool)
  | num (d : JDouble)
  | str (s : String)
  | compound (asString : String)
  deriving DecidableEq, Repr

/-- The built-in conversions of the engine: `Number(s)` for a string `s`, and `String(x)`
for a finite number `x` (also the text `JSON.stringify` gives for it). -/
structure Builtins where
  parse : String → JDouble
  render : ℚ → String

/-- Truthiness of a number: `NaN` and zero are falsy. -/
def JDouble.truthy : JDouble → Bool
  | JDouble.nan => false
  | JDouble.fin q => q != 0
  | _ => true

/-- JavaScript `String(x)` for a number. -/
def JDouble.toStr (B : Builtins) : JDouble → String
  | JDouble.nan => "NaN"
  | JDouble.negInf => "-Infinity"
  | JDouble.posInf => "Infinity"
  | JDouble.fin q => B.render q

/-- Text of a number inside `JSON.stringify`: `null` when it is not finite. -/
def JDouble.toJson (B : Builtins) : JDouble → String
  | JDouble.fin q => B.render q
  | _ => "null"

/-- Comparison `a < b` of a number with a finite one: false for `NaN`. -/
def JDouble.ltRat : JDouble → ℚ → Bool
  | JDouble.nan, _ => false
  | JDouble.negInf, _ => true
  | JDouble.posInf, _ => false
  | JDouble.fin a, b => decide (a < b)

/-- Comparison `a > b` of a number with a finite one: false for `NaN`. -/
def JDouble.gtRat : JDouble → ℚ → Bool
  | JDouble.nan, _ => false
  | JDouble.negInf, _ => false
  | JDouble.posInf, _ => true
  | JDouble.fin a, b => decide (a > b)

/-- Truthiness of a body value. -/
def JJson.truthy : JJson → Bool
  | JJson.null => false
  | JJson.bool b => b
  | JJson.num d => d.truthy
  | JJson.str s => s != ""
  | JJson.compound _ => true

/-- JavaScript `String(v)`. -/
def JJson.toStr (B : Builtins) : JJson → String
  | JJson.null => "null"
  | JJson.bool true => "true"
  | JJson.bool false => "false"
  | JJson.num d => d.toStr B
  | JJson.str s => s
  | JJson.compound s => s

/-- JavaScript `Number(v)`. -/
def JJson.toNumber (B : Builtins) : JJson → JDouble
  | JJson.null => JDouble.fin 0
  | JJson.bool true => JDouble.fin 1
  | JJson.bool false => JDouble.fin 0
  | JJson.num d => d
  | JJson.str s => B.parse s
  | JJson.compound s => B.parse s

/-- Truthiness of a possibly absent (`undefined`) property. -/
def optTruthyWide : Option JJson → Bool
  | none => false
  | some v => v.truthy

/-- Value of `Number(v)` for a possibly absent property: `Number(undefined)` is `NaN`. -/
def optNumberWide (B : Builtins) : Option JJson → JDouble
  | none => JDouble.nan
  | some v => v.toNumber B

/-- JavaScript `String(v || d)` for a possibly absent property `v` and a string default `d`. -/
def stringOrWide (B : Builtins) (v : Option JJson) (d : String) : String :=
  match v with
  | some x => if x.truthy then x.toStr B else d
  | none => d

/-- Body of a rating submission; an absent key is `none`. -/
structure WideRatingBody where
  ticketId : Option JJson := none
  stars : Option JJson := none
  note : Option JJson := none
  deriving DecidableEq, Repr

/-- Row of `ratings` with the number its `stars` column holds. The column is NOT NULL, so it
never holds `NaN`, which SQLite stores as NULL. -/
structure WideRatingRow where
  id : Int
  ticket_id : Int
  user_id : Int
  stars : JDouble
  note : Option String
  created_at : Nat
  deriving DecidableEq, Repr

/-- The rating object `mapRating` builds from a row. -/
structure WideRating where
  id : Int
  ticketId : Int
  userId : Int
  stars : JDouble
  note : Option String
  createdAt : Nat
  deriving DecidableEq, Repr

/-- Function `mapRating(row)` for a present row. -/
def mapRatingWide (row : WideRatingRow) : WideRating :=
  { id := row.id, ticketId := row.ticket_id, userId := row.user_id, stars := row.stars,
    note := row.note, createdAt := row.created_at }

/-- State of the server for the rating handler over all numbers: `ratings` is the ratings
table and takes the place of `base.db.ratings`; every other table, the sequences, the clock
readings and the effects are those of `base`. -/
structure WideWorld where
  base : World := {}
  ratings : List WideRatingRow := []
  deriving DecidableEq, Repr

/-- Answer of the rating handler: an error answer, or 200 with the saved rating. -/
inductive WideResponse where
  | error (r : Response)
  | rating (r : Option WideRating)
  deriving DecidableEq, Repr

/-- Expression `get("SELECT * FROM tickets WHERE id = ?", [id])` for a number `id`: the row
whose key equals the number, none for a fraction, an infinity or `NaN`. -/
def getTicketWide (db : Store) (id : JDouble) : Option TicketRow :=
  match id with
  | JDouble.fin q => db.tickets.find? (fun t => ((t.id : Int) : ℚ) = q)
  | _ => none

/-- The statement `INSERT INTO ratings .. ON CONFLICT(ticket_id, user_id) DO UPDATE SET
stars, note, created_at` with a number for `stars`. -/
def upsertRatingWide (W : WideWorld) (ticketId userId : Int) (stars : JDouble)
    (note : String) (createdAt : Nat) : WideWorld :=
  if W.ratings.any (fun r => r.ticket_id = ticketId ∧ r.user_id = userId) then
    { base := { W.base with trace := W.base.trace ++ [Effect.write "ratings"] },
      ratings := W.ratings.map (fun r =>
        if r.ticket_id = ticketId ∧ r.user_id = userId then
          { r with stars := stars, note := some note, created_at := createdAt }
        else r) }
  else
    { base := { W.base with
        db := { W.base.db with
          ratingSeq := nextRowId (W.ratings.map (fun r => r.id)) W.base.db.ratingSeq },
        trace := W.base.trace ++ [Effect.write "ratings"] },
      ratings := W.ratings ++
        [{ id := nextRowId (W.ratings.map (fun r => r.id)) W.base.db.ratingSeq,
           ticket_id := ticketId, user_id := userId, stars := stars, note := some note,
           created_at := createdAt }] }

/-- Expression `get("SELECT * FROM ratings WHERE ticket_id = ? AND user_id = ?")`. -/
def getRatingWide (W : WideWorld) (ticketId userId : Int) : Option WideRatingRow :=
  W.ratings.find? (fun r => r.ticket_id = ticketId ∧ r.user_id = userId)

/-- Expression `JSON.stringify(\x7b ticketId: id, stars: Number(stars) \x7d)`. -/
def ratingMetaWide (B : Builtins) (ticketId : Int) (stars : JDouble) : String :=
  "\x7b\"ticketId\":" ++ B.render ticketId ++ ",\"stars\":" ++ stars.toJson B ++ "\x7d"

/-- The rating handler after its gates, for the ticket row the lookup found: its key is the
number `id` the statements bind. `Number(stars)` is bound to a NOT NULL column: a `NaN` is
bound as NULL, the statement is rejected and the error middleware answers 500. -/
def rateCommitWide (B : Builtins) (clk : Nat → Nat) (W : WideWorld) (user : User)
    (ticketId : Int) (stars : JDouble) (note : String) : WideResponse × WideWorld :=
  match stars with
  | JDouble.nan =>
    (WideResponse.error (errorResponse 500 "SERVER_ERROR"),
      { W with base := (nowISO clk W.base).2 })
  | stars =>
    (WideResponse.rating
      ((getRatingWide (upsertRatingWide { W with base := (nowISO clk W.base).2 } ticketId
        user.id stars note (nowISO clk W.base).1) ticketId user.id).map mapRatingWide),
     { upsertRatingWide { W with base := (nowISO clk W.base).2 } ticketId user.id stars note
         (nowISO clk W.base).1 with
       base := addAudit clk
         (upsertRatingWide { W with base := (nowISO clk W.base).2 } ticketId user.id stars
           note (nowISO clk W.base).1).base
         "RATING_SAVE" user.id (some (ratingMetaWide B ticketId stars)) })

/-- Handler of `POST /api/ratings` after `authRequired`, with its `requireRole("SAKIN")`,
over all numbers. -/
def rateTicketWide (B : Builtins) (clk : Nat → Nat) (W : WideWorld) (user : User)
    (body : WideRatingBody) : WideResponse × WideWorld :=
  if ¬ requireRole ["SAKIN"] user then
    (WideResponse.error (errorResponse 403 "FORBIDDEN"), W) else
  if ¬ (optNumberWide B body.ticketId).truthy ∨ ¬ optTruthyWide body.stars then
    (WideResponse.error (errorResponse 400 "MISSING_FIELDS"), W)
  else if (optNumberWide B body.stars).ltRat 1 ∨ (optNumberWide B body.stars).gtRat 5 then
    (WideResponse.error (errorResponse 400 "INVALID_STARS"), W)
  else
    match getTicketWide W.base.db (optNumberWide B body.ticketId) with
    | none => (WideResponse.error (errorResponse 404 "NOT_FOUND"), W)
    | some ticket =>
      if ticket.created_by ≠ user.id then
        (WideResponse.error (errorResponse 403 "FORBIDDEN"), W)
      else if ticket.status ∉ ["COZULDU", "KAPANDI"] then
        (WideResponse.error (errorResponse 400 "NOT_RESOLVED"), W)
      else
        rateCommitWide B clk W user ticket.id (optNumberWide B body.stars)
          (stringOrWide B body.note "")

/-! ## POST /api/tickets/:id/attachments -/

/-- The file object multer leaves in `req.file`. -/
structure UploadedFile where
  originalname : String
  filename : String
  mimetype : String
  size : Int
  deriving DecidableEq, Repr

/-- Expression `JSON.stringify(\x7b ticketId, attachmentId \x7d)`. -/
def attachmentMeta (ticketId attachmentId : Int) : String :=
  "\x7b\"ticketId\":" ++ toString ticketId ++ ",\"attachmentId\":" ++
    toString attachmentId ++ "\x7d"

/-- The upload handler after its gates: the INSERT, the read of the new row, the audit
entry and the broadcast. -/
def attachCommit (clk : Nat → Nat) (w : World) (user : User) (ticketId : Int)
    (file : UploadedFile) : Response × World :=
  let createdAt := (nowISO clk w).1
  let w1 := (nowISO clk w).2
  let id := nextRowId (w1.db.attachments.map (fun a => a.id)) w1.db.attachmentSeq
  let row : AttachmentRow :=
    { id := id, ticket_id := ticketId, uploaded_by := user.id,
      original_name := file.originalname, file_name := file.filename, mime := file.mimetype,
      size := file.size, created_at := createdAt }
  let w2 : World :=
    { w1 with
      db := { w1.db with attachments := w1.db.attachments ++ [row], attachmentSeq := id },
      trace := w1.trace ++ [Effect.write "attachments"] }
  let stored := (w2.db.attachments.find? (fun a => a.id = id)).map mapAttachment
  let w3 := addAudit clk w2 "ATTACHMENT_UPLOAD" user.id (some (attachmentMeta ticketId id))
  let w4 := ioEmit w3 "attachment:created"
  ({ status := 200, payload := Payload.attachment stored }, w4)

/-- Handler of `POST /api/tickets/:id/attachments` after `authRequired` and
`upload.single("file")`; `file` is `req.file`. -/
def uploadAttachment (clk : Nat → Nat) (w : World) (user : User) (idParam : String)
    (file : Option UploadedFile) : Response × World :=
  match stringToNumber idParam with
  | JNum.nan => (errorResponse 400 "INVALID_ID", w)
  | JNum.int ticketId =>
    if ticketId = 0 then (errorResponse 400 "INVALID_ID", w) else
    match file with
    | none => (errorResponse 400 "NO_FILE", w)
    | some file =>
      match getTicket w.db ticketId with
      | none => (errorResponse 404 "NOT_FOUND", w)
      | some ticket =>
        if ¬ canAccessTicket (some user) (some ticket) then
          (errorResponse 403 "FORBIDDEN", w)
        else attachCommit clk w user ticketId file

/-! ## PATCH /api/users/:id -/

/-- Body of a user update; an absent key is `none`. -/
structure UserPatchBody where
  is_active : Option JVal := none
  deriving DecidableEq, Repr

/-- Expression `JSON.stringify(\x7b targetId: userId, is_active: nextActive \x7d)`. -/
def userUpdateMeta (userId nextActive : Int) : String :=
  "\x7b\"targetId\":" ++ toString userId ++ ",\"is_active\":" ++ toString nextActive ++
    "\x7d"

/-- The user update after its gates: the UPDATE of `is_active`, the read of the row, the
audit entry and the broadcast. -/
def patchUserCommit (clk : Nat → Nat) (w : World) (user : User) (userId : Int)
    (row : UserRow) (body : UserPatchBody) : Response × World :=
  let nextActive : Int :=
    match body.is_active with
    | some v => if (jsNumber v).truthy then 1 else 0
    | none => row.is_active
  let w1 : World :=
    { w with
      db := { w.db with
        users := w.db.users.map (fun u =>
          if u.id = userId then { u with is_active := nextActive } else u) },
      trace := w.trace ++ [Effect.write "users"] }
  let updated := (w1.db.users.find? (fun u => u.id = userId)).map mapUser
  let w2 := addAudit clk w1 "USER_UPDATE" user.id (some (userUpdateMeta userId nextActive))
  let w3 := ioEmit w2 "user:updated"
  ({ status := 200, payload := Payload.updatedUser updated }, w3)

/-- Handler of `PATCH /api/users/:id` after `authRequired`, with its
`requireRole("YONETICI")`. -/
def patchUser (clk : Nat → Nat) (w : World) (user : User) (idParam : String)
    (body : UserPatchBody) : Response × World :=
  if ¬ requireRole ["YONETICI"] user then (errorResponse 403 "FORBIDDEN", w) else
  match stringToNumber idParam with
  | JNum.nan => (errorResponse 400 "INVALID_ID", w)
  | JNum.int userId =>
    if userId = 0 then (errorResponse 400 "INVALID_ID", w)
    else if userId = user.id then (errorResponse 400 "CANNOT_EDIT_SELF", w)
    else
      match w.db.users.find? (fun u => u.id = userId) with
      | none => (errorResponse 404 "NOT_FOUND", w)
      | some row => patchUserCommit clk w user userId row body

/-! ## GET /api/tickets/:id/attachments -/

/-- Rows of `SELECT * FROM attachments WHERE ticket_id = ? ORDER BY created_at ASC`. -/
def attachmentRows (db : Store) (ticketId : Int) : List AttachmentRow :=
  (db.attachments.filter (fun a => a.ticket_id = ticketId)).insertionSort
    (fun a b => a.created_at ≤ b.created_at)

/-- Handler of `GET /api/tickets/:id/attachments` after `authRequired`. -/
def listAttachments (w : World) (user : User) (idParam : String) : Response × World :=
  match stringToNumber idParam with
  | JNum.nan => (errorResponse 400 "INVALID_ID", w)
  | JNum.int ticketId =>
    if ticketId = 0 then (errorResponse 400 "INVALID_ID", w) else
    match getTicket w.db ticketId with
    | none => (errorResponse 404 "NOT_FOUND", w)
    | some ticket =>
      if ¬ canAccessTicket (some user) (some ticket) then
        (errorResponse 403 "FORBIDDEN", w)
      else
        ({ status := 200,
           payload := Payload.attachments ((attachmentRows w.db ticketId).map mapAttachment) },
          w)

/-! ## Sessions and registration -/

/-- Constant `SESSION_TTL_MS`. -/
def SESSION_TTL_MS : Nat := 7 * 24 * 60 * 60 * 1000

/-- Function `createSession(userId)`; `sid` is the token `crypto.randomBytes(24)` draws.
The clock is read twice: `nowISO()` for `created_at`, then `Date.now()` for the expiry. The
result is `none` when the INSERT is rejected because the token is already stored (`sid` is
UNIQUE); otherwise it is the token and `expiresAt`. -/
def createSession (clk : Nat → Nat) (w : World) (sid : String) (userId : Int) :
    Option (String × Nat) × World :=
  let createdAt := (nowISO clk w).1
  let w1 := (nowISO clk w).2
  let expiresAt := (nowISO clk w1).1 + SESSION_TTL_MS
  let w2 := (nowISO clk w1).2
  if w2.db.sessions.any (fun s => s.sid = sid) then (none, w2)
  else
    (some (sid, expiresAt),
      { w2 with
        db := { w2.db with
          sessions := w2.db.sessions ++
            [{ id := nextRowId (w2.db.sessions.map (fun s => s.id)) w2.db.sessionSeq,
               sid := sid, user_id := userId, created_at := createdAt,
               expires_at := expiresAt }],
          sessionSeq := nextRowId (w2.db.sessions.map (fun s => s.id)) w2.db.sessionSeq },
        trace := w2.trace ++ [Effect.write "sessions"] })

/-- JavaScript `s.length`: the number of UTF-16 code units of the string. -/
def jsLength (s : String) : Nat :=
  (s.data.map (fun c => if c.toNat < 65536 then 1 else 2)).sum

/-- Body of a registration; an absent key is `none`. -/
structure RegisterBody where
  full_name : Option JVal := none
  email : Option JVal := none
  password : Option JVal := none
  role : Option JVal := none
  deriving DecidableEq, Repr

/-- Expression `String(email || "").trim().toLowerCase()`. The built-in
`String.prototype.toLowerCase` is the argument `toLowerCase`. -/
def normalizedEmail (toLowerCase : String → String) (body : RegisterBody) : String :=
  toLowerCase (jsTrim (stringOr body.email ""))

/-- Expression `String(role || "SAKIN").trim().toUpperCase()`. The built-in
`String.prototype.toUpperCase` is the argument `toUpperCase`. -/
def normalizedRole (toUpperCase : String → String) (body : RegisterBody) : String :=
  toUpperCase (jsTrim (stringOr body.role "SAKIN"))

/-- Lower-case hexadecimal digit. -/
def hexDigit (n : Nat) : Char :=
  if n < 10 then Char.ofNat (48 + n) else Char.ofNat (87 + n)

/-- Text `JSON.stringify` writes for one character of a string. -/
def jsonEscape (c : Char) : List Char :=
  if c.toNat = 34 then [Char.ofNat 92, Char.ofNat 34]
  else if c.toNat = 92 then [Char.ofNat 92, Char.ofNat 92]
  else if c.toNat = 8 then [Char.ofNat 92, 'b']
  else if c.toNat = 9 then [Char.ofNat 92, 't']
  else if c.toNat = 10 then [Char.ofNat 92, 'n']
  else if c.toNat = 12 then [Char.ofNat 92, 'f']
  else if c.toNat = 13 then [Char.ofNat 92, 'r']
  else if c.toNat < 32 then
    [Char.ofNat 92, 'u', '0', '0', hexDigit (c.toNat / 16), hexDigit (c.toNat % 16)]
  else [c]

/-- Text `JSON.stringify(s)` writes for a string. -/
def jsonQuote (s : String) : String :=
  String.mk ([Char.ofNat 34] ++ s.data.flatMap jsonEscape ++ [Char.ofNat 34])

/-- Expression `JSON.stringify(\x7b email: user.email, role: user.role \x7d)`. -/
def registerMeta (email role : String) : String :=
  "\x7b\"email\":" ++ jsonQuote email ++ ",\"role\":" ++ jsonQuote role ++ "\x7d"

/-- The INSERT of the registration handler; `is_active` takes its default 1. Returns
`lastID` and the new state. -/
def insertUser (w : World) (fullName email passwordHash role : String) (createdAt : Nat) :
    Int × World :=
  (nextRowId (w.db.users.map (fun u => u.id)) w.db.userSeq,
    { w with
      db := { w.db with
        users := w.db.users ++
          [{ id := nextRowId (w.db.users.map (fun u => u.id)) w.db.userSeq,
             full_name := fullName, email := email, password_hash := passwordHash,
             role := role, is_active := 1, created_at := createdAt }],
        userSeq := nextRowId (w.db.users.map (fun u => u.id)) w.db.userSeq },
      trace := w.trace ++ [Effect.write "users"] })

/-- The registration handler after its gates: INSERT of the user, `createSession`, read of
the user row, audit entry. `passwordHash` is the result of `bcrypt.hash` and `sid` the token
`createSession` draws. A rejected session INSERT is answered 500 by the last middleware. -/
def registerCommit (toLowerCase toUpperCase : String → String) (clk : Nat → Nat) (w : World)
    (body : RegisterBody) (passwordHash sid : String) : Response × World :=
  let createdAt := (nowISO clk w).1
  let w1 := (nowISO clk w).2
  let lastID := (insertUser w1 (bindText body.full_name) (normalizedEmail toLowerCase body)
    passwordHash (normalizedRole toUpperCase body) createdAt).1
  let w2 := (insertUser w1 (bindText body.full_name) (normalizedEmail toLowerCase body)
    passwordHash (normalizedRole toUpperCase body) createdAt).2
  match (createSession clk w2 sid lastID).1 with
  | none => (errorResponse 500 "SERVER_ERROR", (createSession clk w2 sid lastID).2)
  | some _ =>
    match (createSession clk w2 sid lastID).2.db.users.find? (fun u => u.id = lastID) with
    | none => (errorResponse 500 "SERVER_ERROR", (createSession clk w2 sid lastID).2)
    | some user =>
      ({ status := 200, payload := Payload.user (mapUser user) },
        addAudit clk (createSession clk w2 sid lastID).2 "USER_REGISTER" user.id
          (some (registerMeta user.email user.role)))

/-- Handler of `POST /api/auth/register`; the two built-in case conversions are the
arguments `toLowerCase` and `toUpperCase`. -/
def register (toLowerCase toUpperCase : String → String) (clk : Nat → Nat) (w : World)
    (body : RegisterBody) (passwordHash sid : String) : Response × World :=
  if ¬ optTruthy body.full_name ∨ normalizedEmail toLowerCase body = "" ∨
      ¬ optTruthy body.password then
    (errorResponse 400 "MISSING_FIELDS", w)
  else if jsLength (stringOr body.password "") < 6 then
    (errorResponse 400 "WEAK_PASSWORD", w)
  else if normalizedRole toUpperCase body ∉ ["SAKIN", "PERSONEL", "YONETICI"] then
    (errorResponse 400 "INVALID_ROLE", w)
  else
    match w.db.users.find? (fun u => u.email = normalizedEmail toLowerCase body) with
    | some _ => (errorResponse 409 "EMAIL_EXISTS", w)
    | none => registerCommit toLowerCase toUpperCase clk w body passwordHash sid

/-! ## Function `escapeHtml` of the pages (`src/assets/js`) -/

/-- JavaScript `s.replaceAll(c, r)` for a pattern of one character. -/
def replaceAll (s : String) (c : Char) (r : String) : String :=
  String.mk (s.data.flatMap (fun x => if x = c then r.data else [x]))

/-- Expression `String(s ?? "")`; `none` is `undefined`. -/
def stringOrEmpty : Option JVal → String
  | none => ""
  | some JVal.null => ""
  | some v => jsString v

/-- Function `escapeHtml(s)`: five `replaceAll` calls in the order of the source. -/
def escapeHtml (s : Option JVal) : String :=
  replaceAll
    (replaceAll
      (replaceAll
        (replaceAll (replaceAll (stringOrEmpty s) '&' "&amp;") '<' "&lt;")
        '>' "&gt;")
      (Char.ofNat 34) "&quot;")
    (Char.ofNat 39) "&#039;"

/-! ## Reachable states -/

/-- A request that reaches a handler that writes, or another reading of the clock. -/
inductive Request where
  | create (user : User) (body : CreateBody)
  | patch (user : User) (idParam : String) (patch : PatchBody)
  | delete (user : User) (idParam : String)
  | readClock
  | rate (user : User) (body : RatingBody)
  | attach (user : User) (idParam : String) (file : Option UploadedFile)
  | updateUser (user : User) (idParam : String) (body : UserPatchBody)
  deriving DecidableEq, Repr

/-- State after serving one request. -/
def serve (clk : Nat → Nat) (w : World) : Request → World
  | Request.create user body => (createTicket clk w user body).2
  | Request.patch user idParam patch => (patchTicket clk w user idParam patch).2
  | Request.delete user idParam => (deleteTicket clk w user idParam).2
  | Request.readClock => (nowISO clk w).2
  | Request.rate user body => (rateTicket clk w user body).2
  | Request.attach user idParam file => (uploadAttachment clk w user idParam file).2
  | Request.updateUser user idParam body => (patchUser clk w user idParam body).2

/-- State after serving a sequence of requests in order. -/
def serveAll (clk : Nat → Nat) (w : World) : List Request → World
  | [] => w
  | r :: rs => serveAll clk (serve clk w r) rs

/-! ## The assign action of the admin dashboard (`src/assets/js/admin.js`) -/

/-- Body the dashboard sends for the value of the staff selector: with a truthy staff id the
assignee and the status ATANDI, otherwise an unassignment. -/
def assignPatch (selValue : String) : PatchBody :=
  match (if selValue = "" then JNum.int 0 else stringToNumber selValue) with
  | JNum.int n =>
    if n = 0 then { assignedTo := some JVal.null }
    else { assignedTo := some (JVal.num n), status := some (JVal.str "ATANDI") }
  | JNum.nan => { assignedTo := some JVal.null }

/-! ## Derived descriptions used in the statements -/

/-- Types of the events one PATCH records, in the order it records them. -/
def patchEventTypes (row : TicketRow) (next : Next) : List String :=
  (if strictNe (row.assigned_to.map JNum.int) next.assigned_to then ["ASSIGN"] else []) ++
  (if row.status ≠ next.status then ["STATUS"] else []) ++
  (if noteChanged row next then ["COMMENT"] else [])

/-- The row a creation that passes the gates leaves in `tickets`: the inserted row with
the ticket number written by the second statement. -/
def createdRow (clk : Nat → Nat) (w : World) (user : User) (body : CreateBody) : TicketRow :=
  { id := nextRowId (w.db.tickets.map (fun t => t.id)) w.db.ticketSeq,
    ticket_no := some (ticketNoFromId (clk (w.tick + 1))
      (nextRowId (w.db.tickets.map (fun t => t.id)) w.db.ticketSeq)),
    created_by := user.id, category := bindText body.category,
    title := bindText body.title, description := bindText body.description,
    priority := bindText body.priority, status := "ACIK", assigned_to := none,
    created_at := clk w.tick, updated_at := clk w.tick, resolved_at := none,
    resolved_note := none }

/-- Two rows agree on the columns no handler writes after creation. -/
def sameIdentity (a b : TicketRow) : Prop :=
  a.id = b.id ∧ a.ticket_no = b.ticket_no ∧ a.created_by = b.created_by ∧
  a.category = b.category ∧ a.title = b.title ∧ a.description = b.description ∧
  a.priority = b.priority ∧ a.created_at = b.created_at

/-- The events a response carries (empty for a body that is not an event list). -/
def Payload.eventList : Payload → List Event
  | Payload.events es => es
  | _ => []

/-- Whether a store write follows a broadcast somewhere in a trace of effects. -/
def writeAfterEmit : List Effect → Bool
  | [] => false
  | Effect.emit _ :: rest =>
    rest.any (fun e => match e with | Effect.write _ => true | Effect.emit _ => false) ||
      writeAfterEmit rest
  | Effect.write _ :: rest => writeAfterEmit rest

/-- State after a resident has sent the rating submissions of a list one after the other. -/
def rateAll (clk : Nat → Nat) (w : World) (user : User) : List RatingBody → World
  | [] => w
  | b :: bs => rateAll clk (rateTicket clk w user b).2 user bs

/-- A submission for ticket `tid` that passes the field checks with stars that are a
number: `ticketId` reads as `tid`, `stars` is truthy and reads as a number from 1 to 5. -/
def validRating (tid : Int) (b : RatingBody) : Prop :=
  optNumber b.ticketId = JNum.int tid ∧ optTruthy b.stars = true ∧
  ∃ n : Int, optNumber b.stars = JNum.int n ∧ 1 ≤ n ∧ n ≤ 5

/-- The tickets a response carries (empty for a body that is not a ticket list). -/
def Payload.ticketList : Payload → List Ticket
  | Payload.tickets ts => ts
  | _ => []

/-- The server just started on an empty database. -/
def emptyWorld : World := { db := {}, tick := 0, trace := [] }

/-- The six statuses of the data model. -/
def ticketStatuses : List String :=
  ["ACIK", "INCELEMEDE", "ATANDI", "COZULDU", "KAPANDI", "IPTAL"]

/-- The four priorities of the data model. -/
def ticketPriorities : List String := ["DUSUK", "NORMAL", "YUKSEK", "ACIL"]

/-- Whether the values a request hands to the store unchecked are of the data model: the
priority of a creation, and a truthy status an administrator supplies in a PATCH. -/
def Request.modelValues : Request → Bool
  | Request.create _ b => decide (bindText b.priority ∈ ticketPriorities)
  | Request.patch u _ p =>
    match p.status with
    | some v =>
      !decide (u.role = "YONETICI") || !v.truthy || decide (jsString v ∈ ticketStatuses)
    | none => true
  | _ => true

/-- State after resolving a list of cookie values with `getUserBySession`, in order. -/
def resolveAll (clk : Nat → Nat) (w : World) : List (Option String) → World
  | [] => w
  | sid :: rest => resolveAll clk (getUserBySession clk w sid).2 rest

/-- One registration request: its body, the hash `bcrypt.hash` returns and the token
`createSession` draws. -/
structure Registration where
  body : RegisterBody
  passwordHash : String
  sid : String
  deriving DecidableEq, Repr

/-- State after serving a list of registration requests in order. -/
def registerAll (toLowerCase toUpperCase : String → String) (clk : Nat → Nat) (w : World) :
    List Registration → World
  | [] => w
  | r :: rest =>
    registerAll toLowerCase toUpperCase clk
      (register toLowerCase toUpperCase clk w r.body r.passwordHash r.sid).2 rest

/-- An email text after trimming and lower-casing. -/
def normalizeEmail (toLowerCase : String → String) (s : String) : String :=
  toLowerCase (jsTrim s)

/-- The lower-casing of the letters A to Z: what `toLowerCase` does to a text whose cased
letters are all in ASCII. -/
def asciiLower (s : String) : String := String.mk (s.data.map Char.toLower)

/-- The upper-casing of the letters a to z: what `toUpperCase` does to a text whose cased
letters are all in ASCII. -/
def asciiUpper (s : String) : String := String.mk (s.data.map Char.toUpper)

/-- Whether the request `r`, served in the state `w`, is an accepted PATCH of ticket `tid`
that leaves it stored with status COZULDU or KAPANDI. -/
def leavesResolved (clk : Nat → Nat) (w : World) (r : Request) (tid : Int) : Prop :=
  match r with
  | Request.patch user idParam patch =>
    stringToNumber idParam = JNum.int tid ∧
    (patchTicket clk w user idParam patch).1.status = 200 ∧
    ∃ t ∈ (patchTicket clk w user idParam patch).2.db.tickets,
      t.id = tid ∧ t.status ∈ ["COZULDU", "KAPANDI"]
  | _ => False

/-- Whether some request of the list, served in order from the state `w`, is a PATCH that
leaves ticket `tid` with status COZULDU or KAPANDI. -/
def everResolved (clk : Nat → Nat) (w : World) : List Request → Int → Prop
  | [], _ => False
  | r :: rs, tid => leavesResolved clk w r tid ∨ everResolved clk (serve clk w r) rs tid

/-- The five entities `escapeHtml` writes. -/
def htmlEntities : List String := ["&amp;", "&lt;", "&gt;", "&quot;", "&#039;"]

/-- The five characters `escapeHtml` replaces. -/
def htmlSpecial : List Char := ['&', '<', '>', Char.ofNat 34, Char.ofNat 39]

/-- Whether every `&` of a text starts one of the five entities. -/
def ampersandsEscaped : List Char → Bool
  | [] => true
  | c :: cs =>
    (c != '&' || htmlEntities.any (fun e => e.data.isPrefixOf (c :: cs))) &&
      ampersandsEscaped cs

/-! ## Sample data -/

/-- A clock that advances by one millisecond per reading. -/
def sampleClock : Nat → Nat := fun n => 1000 + n

/-- An administrator. -/
def sampleAdmin : User :=
  { id := 2, full_name := "Ada", email := "ada@site", role := "YONETICI", is_active := 1,
    created_at := 0 }

/-- A staff member. -/
def sampleStaff : User :=
  { id := 3, full_name := "Sam", email := "sam@site", role := "PERSONEL", is_active := 1,
    created_at := 0 }

/-- A resident. -/
def sampleResident : User :=
  { id := 1, full_name := "Rey", email := "rey@site", role := "SAKIN", is_active := 1,
    created_at := 0 }

/-- An open, unassigned ticket of the resident. -/
def sampleOpenTicket : TicketRow :=
  { id := 7, ticket_no := some "SSY-19700101-000007", created_by := 1, category := "Su",
    title := "Leak", description := "Kitchen leak", priority := "NORMAL", status := "ACIK",
    assigned_to := none, created_at := 100, updated_at := 100, resolved_at := none,
    resolved_note := none }

/-- The same ticket assigned to the staff member. -/
def sampleAssignedTicket : TicketRow :=
  { sampleOpenTicket with status := "ATANDI", assigned_to := some 3, updated_at := 200 }

/-- The same ticket resolved by the staff member at time 500. -/
def sampleResolvedTicket : TicketRow :=
  { sampleOpenTicket with status := "COZULDU", assigned_to := some 3, updated_at := 500,
                          resolved_at := some 500, resolved_note := some "Fixed valve" }

/-- A state whose only ticket is `t`, five clock readings after the start. -/
def sampleWorld (t : TicketRow) : World :=
  { db := { tickets := [t], ticketSeq := 7 }, tick := 5 }

/-- A resident files a ticket and an administrator assigns it from the dashboard. -/
def sampleHistory : List Request :=
  [Request.create sampleResident
    { category := some (JVal.str "Su"), title := some (JVal.str "Leak"),
      description := some (JVal.str "Kitchen leak"), priority := some (JVal.str "NORMAL") },
   Request.patch sampleAdmin "1" (assignPatch "3")]

/-- The ticket of `sampleHistory` after the staff member has resolved it. -/
def sampleHistoryResolved : TicketRow :=
  { id := 1, ticket_no := some "SSY-19700101-000001", created_by := 1, category := "Su",
    title := "Leak", description := "Kitchen leak", priority := "NORMAL",
    status := "COZULDU", assigned_to := some 3, created_at := 1000, updated_at := 1009,
    resolved_at := some 1008, resolved_note := none }

/-- The row of the staff member in `users`. -/
def sampleStaffRow : UserRow :=
  { id := 3, full_name := "Sam", email := "sam@site", password_hash := "hash",
    role := "PERSONEL", is_active := 1, created_at := 0 }

/-- A session of the staff member that expired at time 900. -/
def sampleExpiredSession : SessionRow :=
  { id := 1, sid := "5f2a", user_id := 3, created_at := 100, expires_at := 900 }

/-- A state holding the staff member and their expired session. -/
def sampleSessionWorld : World :=
  { db := { users := [sampleStaffRow], sessions := [sampleExpiredSession], userSeq := 3,
            sessionSeq := 1 },
    tick := 5 }

/-- The row of a resident whose account was disabled. -/
def sampleDisabledRow : UserRow :=
  { id := 4, full_name := "Dee", email := "dee@site", password_hash := "hash",
    role := "SAKIN", is_active := 0, created_at := 0 }

/-- A session of the disabled resident that expires at time 5000. -/
def sampleLiveSession : SessionRow :=
  { id := 2, sid := "9c1e", user_id := 4, created_at := 100, expires_at := 5000 }

/-- A state holding the disabled resident and their session, not yet expired. -/
def sampleDisabledWorld : World :=
  { db := { users := [sampleDisabledRow], sessions := [sampleLiveSession], userSeq := 4,
            sessionSeq := 2 },
    tick := 5 }

/-- A complete creation body. -/
def sampleCreateBody : CreateBody :=
  { category := some (JVal.str "Plumbing"), title := some (JVal.str "Leak"),
    description := some (JVal.str "Kitchen leak"), priority := some (JVal.str "NORMAL") }

/-- Requests that follow a creation: an assignment, a rejected rating, a user update and a
staff PATCH that resolves the ticket. -/
def sampleFollowUp : List Request :=
  [Request.patch sampleAdmin "1" (assignPatch "3"),
   Request.rate sampleResident { ticketId := some (JVal.num 1), stars := some (JVal.num 5) },
   Request.updateUser sampleAdmin "4" { is_active := some (JVal.num 0) },
   Request.patch sampleStaff "1"
     { status := some (JVal.str "COZULDU"), resolvedNote := some (JVal.str "Fixed valve") }]

/-- A rating of four stars for ticket 7. -/
def sampleRating : RatingBody :=
  { ticketId := some (JVal.num 7), stars := some (JVal.num 4), note := some (JVal.str "ok") }

/-- Conversions that read and write integers only, for the examples. -/
def sampleBuiltins : Builtins :=
  { parse := fun s =>
      match stringToNumber s with
      | JNum.nan => JDouble.nan
      | JNum.int n => JDouble.fin n,
    render := fun q => toString q.num }

/-- The state whose only ticket is the resolved sample ticket, with no rating. -/
def sampleWideWorld : WideWorld :=
  { base := sampleWorld sampleResolvedTicket }
/-! # Theorems -/

/-! ## Frame lemmas -/

theorem stampResolved_db (clk : Nat → Nat) (w : World) (n : Next) :
    (stampResolved clk w n).2.db = w.db := by
  unfold stampResolved nowISO; split <;> rfl

theorem stampResolved_tick_le (clk : Nat → Nat) (w : World) (n : Next) :
    w.tick ≤ (stampResolved clk w n).2.tick := by
  unfold stampResolved nowISO; split <;> simp

theorem stampResolved_status (clk : Nat → Nat) (w : World) (n : Next) :
    (stampResolved clk w n).1.status = n.status := by
  unfold stampResolved; split <;> rfl

theorem stampResolved_assigned (clk : Nat → Nat) (w : World) (n : Next) :
    (stampResolved clk w n).1.assigned_to = n.assigned_to := by
  unfold stampResolved; split <;> rfl

theorem stampResolved_note (clk : Nat → Nat) (w : World) (n : Next) :
    (stampResolved clk w n).1.resolved_note = n.resolved_note := by
  unfold stampResolved; split <;> rfl

theorem stampResolved_at (clk : Nat → Nat) (w : World) (n : Next) :
    (stampResolved clk w n).1.resolved_at =
      if n.status ∈ ["COZULDU", "KAPANDI"] then some (clk w.tick) else n.resolved_at := by
  unfold stampResolved nowISO; split <;> rfl

theorem assignEvent_frame (clk : Nat → Nat) (w : World) (u : User) (t : Int)
    (row : TicketRow) (n : Next) :
    (assignEvent clk w u t row n).db.tickets = w.db.tickets ∧
    ∃ evs, (assignEvent clk w u t row n).db.events = w.db.events ++ evs ∧
      evs.map (fun e => e.type) =
        (if strictNe (row.assigned_to.map JNum.int) n.assigned_to then ["ASSIGN"] else []) ∧
      ∀ e ∈ evs, e.ticket_id = t := by
  unfold assignEvent
  split
  · exact ⟨rfl, [_], rfl, rfl, by simp [addEvent, nowISO]⟩
  · exact ⟨rfl, [], by simp, rfl, by simp⟩

theorem statusEvent_frame (clk : Nat → Nat) (w : World) (u : User) (t : Int)
    (row : TicketRow) (n : Next) :
    (statusEvent clk w u t row n).db.tickets = w.db.tickets ∧
    ∃ evs, (statusEvent clk w u t row n).db.events = w.db.events ++ evs ∧
      evs.map (fun e => e.type) = (if row.status ≠ n.status then ["STATUS"] else []) ∧
      ∀ e ∈ evs, e.ticket_id = t := by
  unfold statusEvent
  split
  · exact ⟨rfl, [_], rfl, rfl, by simp [addEvent, nowISO]⟩
  · exact ⟨rfl, [], by simp, rfl, by simp⟩

theorem commentEvent_frame (clk : Nat → Nat) (w : World) (u : User) (t : Int)
    (row : TicketRow) (n : Next) :
    (commentEvent clk w u t row n).db.tickets = w.db.tickets ∧
    ∃ evs, (commentEvent clk w u t row n).db.events = w.db.events ++ evs ∧
      evs.map (fun e => e.type) = (if noteChanged row n then ["COMMENT"] else []) ∧
      ∀ e ∈ evs, e.ticket_id = t := by
  unfold commentEvent
  split
  · exact ⟨rfl, [_], rfl, rfl, by simp [addEvent, nowISO]⟩
  · exact ⟨rfl, [], by simp, rfl, by simp⟩

theorem patchEvents_frame (clk : Nat → Nat) (w : World) (u : User) (t : Int)
    (row : TicketRow) (n : Next) :
    (patchEvents clk w u t row n).db.tickets = w.db.tickets ∧
    ∃ evs, (patchEvents clk w u t row n).db.events = w.db.events ++ evs ∧
      evs.map (fun e => e.type) = patchEventTypes row n ∧
      ∀ e ∈ evs, e.ticket_id = t := by
  unfold patchEvents
  obtain ⟨ha, ea, hea, hta, hia⟩ := assignEvent_frame clk w u t row n
  obtain ⟨hs, es, hes, hts, his⟩ :=
    statusEvent_frame clk (assignEvent clk w u t row n) u t row n
  obtain ⟨hc, ec, hec, htc, hic⟩ :=
    commentEvent_frame clk (statusEvent clk (assignEvent clk w u t row n) u t row n) u t row n
  refine ⟨by rw [hc, hs, ha], ea ++ es ++ ec, ?_, ?_, ?_⟩
  · rw [hec, hes, hea]; simp
  · simp [patchEventTypes, hta, hts, htc]
  · intro e he
    simp only [List.mem_append] at he
    rcases he with (he | he) | he
    · exact hia e he
    · exact his e he
    · exact hic e he


theorem find_map_update (l : List TicketRow) (f : TicketRow → TicketRow) (tid : Int)
    (hf : ∀ t, (f t).id = t.id) :
    (l.map (fun t => if t.id = tid then f t else t)).find? (fun t => t.id = tid) =
      (l.find? (fun t => t.id = tid)).map f := by
  induction l with
  | nil => rfl
  | cons a l ih =>
    by_cases h : a.id = tid
    · simp [List.find?, h, hf]
    · simp [List.find?, h, ih]

theorem updatedRow_id (t : TicketRow) (n : Next) (u : Nat) : (updatedRow t n u).id = t.id := rfl

theorem getTicket_updateTicket (w : World) (tid : Int) (n : Next) (u : Nat) :
    getTicket (updateTicket w tid n u).db tid = (getTicket w.db tid).map (fun t => updatedRow t n u) := by
  unfold getTicket updateTicket
  exact find_map_update w.db.tickets (fun t => updatedRow t n u) tid (fun _ => rfl)

theorem addAudit_frame (clk : Nat → Nat) (w : World) (a : String) (u : Int) (m : Option String) :
    (addAudit clk w a u m).db.tickets = w.db.tickets ∧
    (addAudit clk w a u m).db.events = w.db.events ∧
    (addAudit clk w a u m).db.sessions = w.db.sessions := ⟨rfl, rfl, rfl⟩

/-- What a PATCH that passed the gates leaves behind. -/
theorem patchCommit_spec (clk : Nat → Nat) (w : World) (u : User) (tid : Int)
    (row : TicketRow) (n0 : Next) :
    (patchCommit clk w u tid row n0).1.status = 200 ∧
    (patchCommit clk w u tid row n0).2.db.tickets =
      w.db.tickets.map (fun t =>
        if t.id = tid then
          updatedRow t (stampResolved clk w n0).1 (clk (stampResolved clk w n0).2.tick)
        else t) ∧
    getTicket (patchCommit clk w u tid row n0).2.db tid =
      (getTicket w.db tid).map (fun t =>
        updatedRow t (stampResolved clk w n0).1 (clk (stampResolved clk w n0).2.tick)) ∧
    ∃ evs, (patchCommit clk w u tid row n0).2.db.events = w.db.events ++ evs ∧
      evs.map (fun e => e.type) = patchEventTypes row (stampResolved clk w n0).1 ∧
      ∀ e ∈ evs, e.ticket_id = tid := by
  obtain ⟨ht, evs, he, hty, hid⟩ :=
    patchEvents_frame clk
      (updateTicket (nowISO clk (stampResolved clk w n0).2).2 tid (stampResolved clk w n0).1
        (nowISO clk (stampResolved clk w n0).2).1) u tid row (stampResolved clk w n0).1
  have hdb := stampResolved_db clk w n0
  have htk : (patchCommit clk w u tid row n0).2.db.tickets =
      w.db.tickets.map (fun t =>
        if t.id = tid then
          updatedRow t (stampResolved clk w n0).1 (clk (stampResolved clk w n0).2.tick)
        else t) := by
    show (patchEvents clk _ u tid row _).db.tickets = _
    rw [ht]
    show List.map _ (stampResolved clk w n0).2.db.tickets = _
    rw [hdb]
    rfl
  refine ⟨rfl, htk, ?_, evs, ?_, hty, hid⟩
  · unfold getTicket
    rw [htk]
    exact find_map_update w.db.tickets _ tid (fun _ => rfl)
  · show (patchEvents clk _ u tid row _).db.events = _
    rw [he]
    show (stampResolved clk w n0).2.db.events ++ evs = _
    rw [hdb]

theorem patchTicket_pass {clk : Nat → Nat} {w : World} {u : User} {idParam : String}
    {patch : PatchBody} {tid : Int} {row : TicketRow} {n0 : Next}
    (hid : stringToNumber idParam = JNum.int tid) (h0 : tid ≠ 0)
    (hrow : getTicket w.db tid = some row)
    (hstaff : ¬ (u.role = "PERSONEL" ∧ row.assigned_to ≠ some u.id))
    (hres : u.role ≠ "SAKIN") (hnext : computeNext u row patch = some n0) :
    patchTicket clk w u idParam patch = patchCommit clk w u tid row n0 := by
  unfold patchTicket
  simp only [hid, h0, hrow, hnext, if_neg hstaff, if_neg hres, if_false]

/-- Every PATCH either is rejected, leaving the state as it was, or passes the gates and
commits. -/
theorem patchTicket_cases (clk : Nat → Nat) (w : World) (u : User) (idParam : String)
    (patch : PatchBody) :
    (∃ c code, c ≠ 200 ∧ patchTicket clk w u idParam patch = (errorResponse c code, w)) ∨
    (∃ tid row n0, stringToNumber idParam = JNum.int tid ∧ tid ≠ 0 ∧
      getTicket w.db tid = some row ∧
      ¬ (u.role = "PERSONEL" ∧ row.assigned_to ≠ some u.id) ∧ u.role ≠ "SAKIN" ∧
      computeNext u row patch = some n0 ∧
      patchTicket clk w u idParam patch = patchCommit clk w u tid row n0) := by
  cases hid : stringToNumber idParam with
  | nan => left; exact ⟨400, "INVALID_ID", by decide, by unfold patchTicket; simp only [hid]⟩
  | int tid =>
    by_cases h0 : tid = 0
    · left
      exact ⟨400, "INVALID_ID", by decide, by unfold patchTicket; simp only [hid, h0, if_true]⟩
    · cases hrow : getTicket w.db tid with
      | none =>
        left
        exact ⟨404, "NOT_FOUND", by decide, by
          unfold patchTicket; simp only [hid, h0, hrow, if_false]⟩
      | some row =>
        by_cases hstaff : u.role = "PERSONEL" ∧ row.assigned_to ≠ some u.id
        · left
          exact ⟨403, "FORBIDDEN", by decide, by
            unfold patchTicket; simp only [hid, h0, hrow, if_pos hstaff, if_false]⟩
        · by_cases hres : u.role = "SAKIN"
          · left
            exact ⟨403, "FORBIDDEN", by decide, by
              unfold patchTicket
              simp only [hid, h0, hrow, if_neg hstaff, if_pos hres, if_false]⟩
          · cases hnext : computeNext u row patch with
            | none =>
              left
              exact ⟨400, "INVALID_STATUS", by decide, by
                unfold patchTicket
                simp only [hid, h0, hrow, hnext, if_neg hstaff, if_neg hres, if_false]⟩
            | some n0 =>
              right
              exact ⟨tid, row, n0, rfl, h0, hrow, hstaff, hres, hnext,
                patchTicket_pass hid h0 hrow hstaff hres hnext⟩

theorem patchTicket_rejected (clk : Nat → Nat) (w : World) (u : User) (idParam : String)
    (patch : PatchBody) (h : (patchTicket clk w u idParam patch).1.status ≠ 200) :
    (patchTicket clk w u idParam patch).2 = w := by
  rcases patchTicket_cases clk w u idParam patch with ⟨c, code, -, he⟩ | ⟨tid, row, n0, -, -, -, -, -, -, he⟩
  · rw [he]
  · rw [he] at h
    exact absurd (patchCommit_spec clk w u tid row n0).1 h

theorem computeNext_staff (u : User) (row : TicketRow) (patch : PatchBody)
    (hrole : u.role = "PERSONEL") :
    computeNext u row patch = staffFields row patch (nextOfRow row) := by
  unfold computeNext
  have : u.role ≠ "YONETICI" := by rw [hrole]; decide
  simp [hrole]

/-! ## The role blocks -/

theorem computeNext_admin (u : User) (row : TicketRow) (patch : PatchBody)
    (hrole : u.role = "YONETICI") :
    computeNext u row patch = some (adminFields row patch (nextOfRow row)) := by
  unfold computeNext
  have : u.role ≠ "PERSONEL" := by rw [hrole]; decide
  simp [hrole]

theorem adminFields_assigned (row : TicketRow) (patch : PatchBody) (n : Next) :
    (adminFields row patch n).assigned_to =
      match patch.assignedTo with
      | some v => if v.truthy then some (jsNumber v) else none
      | none => n.assigned_to := by
  unfold adminFields
  cases patch.assignedTo <;> cases patch.status <;> cases patch.resolvedNote <;> rfl

theorem adminFields_status (row : TicketRow) (patch : PatchBody) (n : Next) :
    (adminFields row patch n).status =
      match patch.status with
      | some v => stringOr (some v) row.status
      | none => n.status := by
  unfold adminFields
  cases patch.assignedTo <;> cases patch.status <;> cases patch.resolvedNote <;> rfl

theorem strictNe_int (a : Option Int) (X : Int) :
    strictNe (a.map JNum.int) (some (JNum.int X)) = decide (a ≠ some X) := by
  cases a with
  | none => simp [strictNe]
  | some y => by_cases h : y = X <;> simp [strictNe, h]

theorem count_types (a s c : Prop) [Decidable a] [Decidable s] [Decidable c] :
    (((if a then ["ASSIGN"] else []) ++ (if s then ["STATUS"] else []) ++
        (if c then ["COMMENT"] else [])).count "ASSIGN" = if a then 1 else 0) ∧
    (((if a then ["ASSIGN"] else []) ++ (if s then ["STATUS"] else []) ++
        (if c then ["COMMENT"] else [])).count "STATUS" = if s then 1 else 0) ∧
    (((if a then ["ASSIGN"] else []) ++ (if s then ["STATUS"] else []) ++
        (if c then ["COMMENT"] else [])).count "COMMENT" = if c then 1 else 0) := by
  by_cases ha : a <;> by_cases hs : s <;> by_cases hc : c <;>
    simp only [if_pos, if_neg, ha, hs, hc, not_false_eq_true] <;> decide

theorem count_patchEventTypes_assign (row : TicketRow) (n : Next) :
    (patchEventTypes row n).count "ASSIGN" =
      if strictNe (row.assigned_to.map JNum.int) n.assigned_to then 1 else 0 :=
  (count_types _ _ _).1

theorem count_patchEventTypes_status (row : TicketRow) (n : Next) :
    (patchEventTypes row n).count "STATUS" = if row.status ≠ n.status then 1 else 0 :=
  (count_types _ _ _).2.1

theorem count_patchEventTypes_comment (row : TicketRow) (n : Next) :
    (patchEventTypes row n).count "COMMENT" = if noteChanged row n then 1 else 0 :=
  (count_types _ _ _).2.2

theorem adminFields_resolved_at (row : TicketRow) (patch : PatchBody) (n : Next) :
    (adminFields row patch n).resolved_at = n.resolved_at := by
  unfold adminFields
  cases patch.assignedTo <;> cases patch.status <;> cases patch.resolvedNote <;> rfl

theorem staffFields_resolved_at (row : TicketRow) (patch : PatchBody) (n n0 : Next)
    (h : staffFields row patch n = some n0) : n0.resolved_at = n.resolved_at := by
  unfold staffFields at h
  cases h2 : patch.status with
  | none =>
    cases h3 : patch.resolvedNote <;> simp only [h2, h3] at h <;>
      (injection h with h; rw [← h])
  | some v =>
    by_cases hd : stringOr (some v) row.status ∈ ["INCELEMEDE", "COZULDU"]
    · cases h3 : patch.resolvedNote <;> simp only [h2, h3, if_pos hd] at h <;>
        (injection h with h; rw [← h])
    · simp only [h2, if_neg hd] at h
      exact absurd h (by simp)

theorem computeNext_resolved_at (u : User) (row : TicketRow) (patch : PatchBody) (n0 : Next)
    (h : computeNext u row patch = some n0) : n0.resolved_at = row.resolved_at := by
  unfold computeNext at h
  have hbase : (if u.role = "YONETICI" then adminFields row patch (nextOfRow row)
      else nextOfRow row).resolved_at = row.resolved_at := by
    split
    · rw [adminFields_resolved_at]; rfl
    · rfl
  by_cases hp : u.role = "PERSONEL"
  · simp only [hp, if_true] at h hbase
    rw [staffFields_resolved_at row patch _ n0 h]
    simpa [hp] using hbase
  · simp only [hp, if_false] at h
    injection h with h
    rw [← h]; exact hbase

/-! ## Clock readings -/

theorem addEvent_tick (clk : Nat → Nat) (w : World) (t a : Int) (ty m : String) :
    (addEvent clk w t a ty m).2.tick = w.tick + 1 := rfl

theorem addAudit_tick (clk : Nat → Nat) (w : World) (a : String) (u : Int)
    (m : Option String) : (addAudit clk w a u m).tick = w.tick + 1 := rfl

theorem assignEvent_tick_le (clk : Nat → Nat) (w : World) (u : User) (t : Int)
    (row : TicketRow) (n : Next) : w.tick ≤ (assignEvent clk w u t row n).tick := by
  unfold assignEvent; split
  · exact Nat.le_succ _
  · exact Nat.le_refl _

theorem statusEvent_tick_le (clk : Nat → Nat) (w : World) (u : User) (t : Int)
    (row : TicketRow) (n : Next) : w.tick ≤ (statusEvent clk w u t row n).tick := by
  unfold statusEvent; split
  · exact Nat.le_succ _
  · exact Nat.le_refl _

theorem commentEvent_tick_le (clk : Nat → Nat) (w : World) (u : User) (t : Int)
    (row : TicketRow) (n : Next) : w.tick ≤ (commentEvent clk w u t row n).tick := by
  unfold commentEvent; split
  · exact Nat.le_succ _
  · exact Nat.le_refl _

theorem patchEvents_tick_le (clk : Nat → Nat) (w : World) (u : User) (t : Int)
    (row : TicketRow) (n : Next) : w.tick ≤ (patchEvents clk w u t row n).tick := by
  unfold patchEvents
  exact Nat.le_trans (assignEvent_tick_le clk w u t row n)
    (Nat.le_trans (statusEvent_tick_le clk _ u t row n) (commentEvent_tick_le clk _ u t row n))

/-- A committed PATCH takes at least two readings: `updatedAt` and the audit entry. -/
theorem patchCommit_tick (clk : Nat → Nat) (w : World) (u : User) (tid : Int)
    (row : TicketRow) (n0 : Next) :
    w.tick + 2 ≤ (patchCommit clk w u tid row n0).2.tick := by
  have h1 := stampResolved_tick_le clk w n0
  have h2 := patchEvents_tick_le clk
      (updateTicket (nowISO clk (stampResolved clk w n0).2).2 tid (stampResolved clk w n0).1
        (nowISO clk (stampResolved clk w n0).2).1) u tid row (stampResolved clk w n0).1
  show w.tick + 2 ≤ (patchEvents clk _ u tid row _).tick + 1
  have h3 : (updateTicket (nowISO clk (stampResolved clk w n0).2).2 tid
      (stampResolved clk w n0).1 (nowISO clk (stampResolved clk w n0).2).1).tick =
      (stampResolved clk w n0).2.tick + 1 := rfl
  omega

theorem patchTicket_tick_le (clk : Nat → Nat) (w : World) (u : User) (idParam : String)
    (patch : PatchBody) : w.tick ≤ (patchTicket clk w u idParam patch).2.tick := by
  rcases patchTicket_cases clk w u idParam patch with
    ⟨c, code, -, he⟩ | ⟨tid, row, n0, -, -, -, -, -, -, he⟩
  · rw [he]
  · rw [he]
    have := patchCommit_tick clk w u tid row n0
    omega

/-- Tickets after a PATCH: every row is a stored row with the same immutable columns. -/
theorem patchTicket_tickets (clk : Nat → Nat) (w : World) (u : User) (idParam : String)
    (patch : PatchBody) :
    ∀ t ∈ (patchTicket clk w u idParam patch).2.db.tickets,
      ∃ t0 ∈ w.db.tickets, t.id = t0.id ∧ t.created_at = t0.created_at := by
  rcases patchTicket_cases clk w u idParam patch with
    ⟨c, code, -, he⟩ | ⟨tid, row, n0, -, -, -, -, -, -, he⟩
  · rw [he]
    intro t ht
    exact ⟨t, ht, rfl, rfl⟩
  · rw [he, (patchCommit_spec clk w u tid row n0).2.1]
    intro t ht
    obtain ⟨t0, ht0, rfl⟩ := List.mem_map.mp ht
    refine ⟨t0, ht0, ?_⟩
    split <;> exact ⟨rfl, rfl⟩

theorem createTicket_cases (clk : Nat → Nat) (w : World) (u : User) (body : CreateBody) :
    (∃ c code, c ≠ 200 ∧ createTicket clk w u body = (errorResponse c code, w)) ∨
    (u.role = "SAKIN" ∧ createTicket clk w u body = createCommit clk w u body) := by
  unfold createTicket
  by_cases hr : requireRole ["SAKIN"] u = true
  · have hrole : u.role = "SAKIN" := by simpa [requireRole] using hr
    rw [if_neg (not_not.mpr hr)]
    split
    · left; exact ⟨400, "MISSING_FIELDS", by decide, rfl⟩
    · right; exact ⟨hrole, rfl⟩
  · left
    exact ⟨403, "FORBIDDEN", by decide, by rw [if_pos hr]⟩

/-- What a creation that passed the gates leaves behind. -/
theorem createCommit_spec (clk : Nat → Nat) (w : World) (u : User) (body : CreateBody) :
    (createCommit clk w u body).1.status = 200 ∧
    (createCommit clk w u body).2.tick = w.tick + 4 ∧
    ∃ row : TicketRow, row.created_at = clk w.tick ∧ row.status = "ACIK" ∧
      row.resolved_at = none ∧ row.assigned_to = none ∧
      row.id = nextRowId (w.db.tickets.map (fun t => t.id)) w.db.ticketSeq ∧
      (createCommit clk w u body).2.db.tickets =
        (w.db.tickets ++ [row]).map (fun t =>
          if t.id = row.id then
            { t with ticket_no := some (ticketNoFromId (clk (w.tick + 1)) row.id) }
          else t) :=
  ⟨rfl, rfl,
    { id := nextRowId (w.db.tickets.map (fun t => t.id)) w.db.ticketSeq, ticket_no := none,
      created_by := u.id, category := bindText body.category, title := bindText body.title,
      description := bindText body.description, priority := bindText body.priority,
      status := "ACIK", assigned_to := none, created_at := clk w.tick,
      updated_at := clk w.tick, resolved_at := none, resolved_note := none },
    rfl, rfl, rfl, rfl, rfl, rfl⟩

theorem deleteTicket_cases (clk : Nat → Nat) (w : World) (u : User) (idParam : String) :
    (∃ c code, c ≠ 200 ∧ deleteTicket clk w u idParam = (errorResponse c code, w)) ∨
    (∃ tid row, stringToNumber idParam = JNum.int tid ∧ tid ≠ 0 ∧
      getTicket w.db tid = some row ∧ u.role = "SAKIN" ∧ row.created_by = u.id ∧
      row.status ∉ ["COZULDU", "KAPANDI"] ∧
      deleteTicket clk w u idParam = deleteCommit clk w u tid) := by
  unfold deleteTicket
  by_cases hr : requireRole ["SAKIN"] u = true
  · have hrole : u.role = "SAKIN" := by simpa [requireRole] using hr
    rw [if_neg (not_not.mpr hr)]
    cases hid : stringToNumber idParam with
    | nan => left; exact ⟨400, "INVALID_ID", by decide, rfl⟩
    | int tid =>
      by_cases h0 : tid = 0
      · left; exact ⟨400, "INVALID_ID", by decide, by simp only [h0, if_true]⟩
      · cases hrow : getTicket w.db tid with
        | none =>
          left; exact ⟨404, "NOT_FOUND", by decide, by simp only [h0, hrow, if_false]⟩
        | some row =>
          by_cases hc : row.created_by ≠ u.id
          · left
            exact ⟨403, "FORBIDDEN", by decide, by
              simp only [h0, hrow, if_false, if_pos hc]⟩
          · by_cases hs : row.status ∈ ["COZULDU", "KAPANDI"]
            · left
              exact ⟨400, "CANNOT_DELETE", by decide, by
                simp only [h0, hrow, if_false, if_neg hc, if_pos hs]⟩
            · right
              refine ⟨tid, row, rfl, h0, hrow, hrole, not_not.mp hc, hs, ?_⟩
              simp only [h0, hrow, if_false, if_neg hc, if_neg hs]
  · left
    exact ⟨403, "FORBIDDEN", by decide, by rw [if_pos hr]⟩

theorem deleteCommit_spec (clk : Nat → Nat) (w : World) (u : User) (tid : Int) :
    (deleteCommit clk w u tid).1 = { status := 200, payload := Payload.ok } ∧
    (deleteCommit clk w u tid).2.db.tickets = w.db.tickets.filter (fun t => ¬ t.id = tid) ∧
    (deleteCommit clk w u tid).2.db.events = w.db.events ∧
    (deleteCommit clk w u tid).2.tick = w.tick + 1 := ⟨rfl, rfl, rfl, rfl⟩

/-! ## The staff block -/

theorem staff_patch_valid (clk : Nat → Nat) (w : World) (u : User) (idParam : String)
    (patch : PatchBody) (tid : Int) (row : TicketRow) (v : JVal)
    (hid : stringToNumber idParam = JNum.int tid) (h0 : tid ≠ 0)
    (hrow : getTicket w.db tid = some row)
    (hrole : u.role = "PERSONEL") (hassigned : row.assigned_to = some u.id)
    (hstatus : patch.status = some v)
    (hd : stringOr (some v) row.status ∈ ["INCELEMEDE", "COZULDU"]) :
    (patchTicket clk w u idParam patch).1.status = 200 ∧
    ∃ t, getTicket (patchTicket clk w u idParam patch).2.db tid = some t ∧
      t.status = stringOr (some v) row.status := by
  have hstaff : ¬ (u.role = "PERSONEL" ∧ row.assigned_to ≠ some u.id) := by
    simp [hassigned]
  have hres : u.role ≠ "SAKIN" := by rw [hrole]; decide
  have hin : ∃ n0, computeNext u row patch = some n0 ∧
      n0.status = stringOr (some v) row.status := by
    rw [computeNext_staff u row patch hrole]
    unfold staffFields
    simp only [hstatus, if_pos hd]
    cases patch.resolvedNote <;> exact ⟨_, rfl, rfl⟩
  obtain ⟨n0, hn0, hs0⟩ := hin
  rw [patchTicket_pass hid h0 hrow hstaff hres hn0]
  obtain ⟨h200, -, hget, -⟩ := patchCommit_spec clk w u tid row n0
  refine ⟨h200, _, by rw [hget, hrow]; rfl, ?_⟩
  show (stampResolved clk w n0).1.status = _
  rw [stampResolved_status, hs0]

theorem staff_patch_invalid (clk : Nat → Nat) (w : World) (u : User) (idParam : String)
    (patch : PatchBody) (tid : Int) (row : TicketRow) (v : JVal)
    (hid : stringToNumber idParam = JNum.int tid) (h0 : tid ≠ 0)
    (hrow : getTicket w.db tid = some row)
    (hrole : u.role = "PERSONEL") (hassigned : row.assigned_to = some u.id)
    (hstatus : patch.status = some v)
    (hd : stringOr (some v) row.status ∉ ["INCELEMEDE", "COZULDU"]) :
    patchTicket clk w u idParam patch = (errorResponse 400 "INVALID_STATUS", w) := by
  have hstaff : ¬ (u.role = "PERSONEL" ∧ row.assigned_to ≠ some u.id) := by
    simp [hassigned]
  have hres : u.role ≠ "SAKIN" := by rw [hrole]; decide
  have hn : computeNext u row patch = none := by
    rw [computeNext_staff u row patch hrole]
    unfold staffFields
    simp only [hstatus, if_neg hd]
  unfold patchTicket
  simp only [hid, h0, hrow, hn, if_neg hstaff, if_neg hres, if_false]

/-! ## C1 to C5: the PATCH state machine -/

/-- C1: a PATCH by the assigned staff member that carries `status` succeeds when the
desired status (the supplied value, or the current status when the supplied value is falsy)
is INCELEMEDE or COZULDU and then stores it; otherwise it is answered 400 INVALID_STATUS
and nothing changes; so after a successful one the stored status is one of the two, never
ATANDI, KAPANDI, IPTAL or ACIK. -/
theorem staff_status_target (clk : Nat → Nat) (w : World) (u : User) (idParam : String)
    (patch : PatchBody) (tid : Int) (row : TicketRow) (v : JVal)
    (hid : stringToNumber idParam = JNum.int tid) (h0 : tid ≠ 0)
    (hrow : getTicket w.db tid = some row)
    (hrole : u.role = "PERSONEL") (hassigned : row.assigned_to = some u.id)
    (hstatus : patch.status = some v) :
    (stringOr (some v) row.status ∈ ["INCELEMEDE", "COZULDU"] →
      (patchTicket clk w u idParam patch).1.status = 200 ∧
      ∃ t, getTicket (patchTicket clk w u idParam patch).2.db tid = some t ∧
        t.status = stringOr (some v) row.status) ∧
    (stringOr (some v) row.status ∉ ["INCELEMEDE", "COZULDU"] →
      patchTicket clk w u idParam patch = (errorResponse 400 "INVALID_STATUS", w)) ∧
    ((patchTicket clk w u idParam patch).1.status = 200 →
      ∃ t, getTicket (patchTicket clk w u idParam patch).2.db tid = some t ∧
        (t.status = "INCELEMEDE" ∨ t.status = "COZULDU") ∧
        t.status ≠ "ATANDI" ∧ t.status ≠ "KAPANDI" ∧ t.status ≠ "IPTAL" ∧
        t.status ≠ "ACIK") := by
  have hok := staff_patch_valid clk w u idParam patch tid row v hid h0 hrow hrole hassigned
    hstatus
  have hbad := staff_patch_invalid clk w u idParam patch tid row v hid h0 hrow hrole
    hassigned hstatus
  refine ⟨hok, hbad, ?_⟩
  intro h200
  by_cases hd : stringOr (some v) row.status ∈ ["INCELEMEDE", "COZULDU"]
  · obtain ⟨-, t, ht, hts⟩ := hok hd
    refine ⟨t, ht, ?_⟩
    rw [hts]
    simp only [List.mem_cons, List.mem_singleton, List.not_mem_nil, or_false] at hd
    rcases hd with hd | hd <;> rw [hd] <;> decide
  · rw [hbad hd] at h200
    simp [errorResponse] at h200

/-- Witness of C1: the staff member asks for KAPANDI on the ticket assigned to them. -/
theorem staff_status_target_witness :
    stringToNumber "7" = JNum.int 7 ∧
    getTicket (sampleWorld sampleAssignedTicket).db 7 = some sampleAssignedTicket ∧
    patchTicket sampleClock (sampleWorld sampleAssignedTicket) sampleStaff "7"
      { status := some (JVal.str "KAPANDI") } =
      (errorResponse 400 "INVALID_STATUS", sampleWorld sampleAssignedTicket) :=
  ⟨by decide, by decide,
    (staff_status_target sampleClock (sampleWorld sampleAssignedTicket) sampleStaff "7"
      { status := some (JVal.str "KAPANDI") } 7 sampleAssignedTicket (JVal.str "KAPANDI")
      (by decide) (by decide) (by decide) (by decide) (by decide) rfl).2.1 (by decide)⟩

/-- C2: on an existing ticket, a PATCH by a resident, by a staff member the ticket is not
assigned to, or by the assigned staff member asking for a status other than INCELEMEDE and
COZULDU is answered FORBIDDEN or INVALID_STATUS, and the whole state (every ticket row with
all its columns, the events table, every other table) is what it was before. -/
theorem rejected_patch_changes_nothing (clk : Nat → Nat) (w : World) (u : User)
    (idParam : String) (patch : PatchBody) (tid : Int) (row : TicketRow)
    (hid : stringToNumber idParam = JNum.int tid) (h0 : tid ≠ 0)
    (hrow : getTicket w.db tid = some row)
    (hout : u.role = "SAKIN" ∨
      (u.role = "PERSONEL" ∧ row.assigned_to ≠ some u.id) ∨
      (u.role = "PERSONEL" ∧ row.assigned_to = some u.id ∧
        ∃ v, patch.status = some v ∧
          stringOr (some v) row.status ∉ ["INCELEMEDE", "COZULDU"])) :
    ((patchTicket clk w u idParam patch).1 = errorResponse 403 "FORBIDDEN" ∨
      (patchTicket clk w u idParam patch).1 = errorResponse 400 "INVALID_STATUS") ∧
    (patchTicket clk w u idParam patch).2 = w ∧
    (patchTicket clk w u idParam patch).2.db.tickets = w.db.tickets ∧
    getTicket (patchTicket clk w u idParam patch).2.db tid = some row ∧
    (patchTicket clk w u idParam patch).2.db.events = w.db.events := by
  have key : (patchTicket clk w u idParam patch = (errorResponse 403 "FORBIDDEN", w)) ∨
      (patchTicket clk w u idParam patch = (errorResponse 400 "INVALID_STATUS", w)) := by
    rcases hout with hres | ⟨hrole, hna⟩ | ⟨hrole, ha, v, hv, hd⟩
    · left
      have hstaff : ¬ (u.role = "PERSONEL" ∧ row.assigned_to ≠ some u.id) := by
        rw [hres]; simp
      unfold patchTicket
      simp only [hid, h0, hrow, if_neg hstaff, if_pos hres, if_false]
    · left
      unfold patchTicket
      simp only [hid, h0, hrow, if_pos (And.intro hrole hna), if_false]
    · right
      exact staff_patch_invalid clk w u idParam patch tid row v hid h0 hrow hrole ha hv hd
  rcases key with h | h <;> rw [h] <;> simp [hrow]

/-- Witness of C2: a resident tries to close their own open ticket. -/
theorem rejected_patch_changes_nothing_witness :
    stringToNumber "7" = JNum.int 7 ∧
    getTicket (sampleWorld sampleOpenTicket).db 7 = some sampleOpenTicket ∧
    (patchTicket sampleClock (sampleWorld sampleOpenTicket) sampleResident "7"
      { status := some (JVal.str "KAPANDI") }).2 = sampleWorld sampleOpenTicket :=
  ⟨by decide, by decide,
    (rejected_patch_changes_nothing sampleClock (sampleWorld sampleOpenTicket) sampleResident
      "7" { status := some (JVal.str "KAPANDI") } 7 sampleOpenTicket
      (by decide) (by decide) (by decide) (Or.inl (by decide))).2.1⟩

/-- C3 fails as stated: an administrator assigns the open ticket 7 to staff member 3
without sending `status`. The request succeeds and stores the assignee, but the stored
status is still ACIK, not ATANDI, and the only event appended is the ASSIGN one: there is
no STATUS event. -/
theorem admin_assign_no_auto_advance :
    (patchTicket sampleClock (sampleWorld sampleOpenTicket) sampleAdmin "7"
        { assignedTo := some (JVal.num 3) }).1.status = 200 ∧
    (getTicket (patchTicket sampleClock (sampleWorld sampleOpenTicket) sampleAdmin "7"
        { assignedTo := some (JVal.num 3) }).2.db 7).map (fun t => (t.assigned_to, t.status))
      = some (some 3, "ACIK") ∧
    (getTicket (patchTicket sampleClock (sampleWorld sampleOpenTicket) sampleAdmin "7"
        { assignedTo := some (JVal.num 3) }).2.db 7).map (fun t => t.status)
      ≠ some "ATANDI" ∧
    (patchTicket sampleClock (sampleWorld sampleOpenTicket) sampleAdmin "7"
        { assignedTo := some (JVal.num 3) }).2.db.events.map (fun e => e.type) = ["ASSIGN"] ∧
    ((patchTicket sampleClock (sampleWorld sampleOpenTicket) sampleAdmin "7"
        { assignedTo := some (JVal.num 3) }).2.db.events.map (fun e => e.type)).count "STATUS"
      = 0 := by
  decide

/-- C3 as amended: a PATCH by an administrator that sets `assignedTo` to a non-zero staff
id X stores X as assignee; without `status` in the body the stored status is the one
before, with `status` it is the supplied one (so ATANDI for the body the dashboard's assign
action sends); exactly one ASSIGN event is appended when X is a new assignee, none
otherwise, and one STATUS event exactly when the stored status changed. -/
theorem admin_assign_stores_assignee (clk : Nat → Nat) (w : World) (u : User)
    (idParam : String) (patch : PatchBody) (tid : Int) (row : TicketRow) (X : Int)
    (hid : stringToNumber idParam = JNum.int tid) (h0 : tid ≠ 0)
    (hrow : getTicket w.db tid = some row)
    (hrole : u.role = "YONETICI") (hX : X ≠ 0)
    (hassign : patch.assignedTo = some (JVal.num X)) :
    (patchTicket clk w u idParam patch).1.status = 200 ∧
    ∃ t evs, getTicket (patchTicket clk w u idParam patch).2.db tid = some t ∧
      t.assigned_to = some X ∧
      (patch.status = none → t.status = row.status) ∧
      (∀ v, patch.status = some v → t.status = stringOr (some v) row.status) ∧
      (∀ sel, patch = assignPatch sel → t.status = "ATANDI") ∧
      (patchTicket clk w u idParam patch).2.db.events = w.db.events ++ evs ∧
      (evs.map (fun e => e.type)).count "ASSIGN" =
        (if row.assigned_to = some X then 0 else 1) ∧
      (evs.map (fun e => e.type)).count "STATUS" =
        (if row.status = t.status then 0 else 1) := by
  have hstaff : ¬ (u.role = "PERSONEL" ∧ row.assigned_to ≠ some u.id) := by
    rw [hrole]; simp
  have hres : u.role ≠ "SAKIN" := by rw [hrole]; decide
  rw [patchTicket_pass hid h0 hrow hstaff hres (computeNext_admin u row patch hrole)]
  obtain ⟨h200, -, hget, evs, hev, hty, -⟩ :=
    patchCommit_spec clk w u tid row (adminFields row patch (nextOfRow row))
  have hst : (stampResolved clk w (adminFields row patch (nextOfRow row))).1.status =
      match patch.status with
      | some v => stringOr (some v) row.status
      | none => row.status := by
    rw [stampResolved_status, adminFields_status]; rfl
  have has : (stampResolved clk w (adminFields row patch (nextOfRow row))).1.assigned_to =
      some (JNum.int X) := by
    rw [stampResolved_assigned, adminFields_assigned, hassign]
    simp [JVal.truthy, hX, jsNumber]
  refine ⟨h200, _, evs, by rw [hget, hrow]; rfl, ?_, ?_, ?_, ?_, hev, ?_, ?_⟩
  · show bindNumber _ = _
    rw [has]; rfl
  · intro hn
    show (stampResolved clk w _).1.status = _
    rw [hst, hn]
  · intro v hv
    show (stampResolved clk w _).1.status = _
    rw [hst, hv]
  · intro sel hsel
    show (stampResolved clk w _).1.status = _
    rw [hst]
    have hps : patch.status = some (JVal.str "ATANDI") := by
      have h1 := hassign
      rw [hsel] at h1 ⊢
      unfold assignPatch at h1 ⊢
      split at h1
      · split at h1
        · simp at h1
        · rename_i hh hne
          simp only [hh, if_neg hne]
      · simp at h1
    rw [hps]; rfl
  · rw [hty, count_patchEventTypes_assign, has, strictNe_int]
    by_cases h : row.assigned_to = some X <;> simp [h]
  · rw [hty, count_patchEventTypes_status]
    show _ = if row.status = (stampResolved clk w _).1.status then 0 else 1
    by_cases h : row.status = (stampResolved clk w (adminFields row patch (nextOfRow row))).1.status <;>
      simp [h]

/-- Witness of C3 as amended: the dashboard's body for staff member 3 on the open ticket. -/
theorem admin_assign_stores_assignee_witness :
    stringToNumber "7" = JNum.int 7 ∧
    getTicket (sampleWorld sampleOpenTicket).db 7 = some sampleOpenTicket ∧
    assignPatch "3" = { assignedTo := some (JVal.num 3), status := some (JVal.str "ATANDI") } ∧
    (patchTicket sampleClock (sampleWorld sampleOpenTicket) sampleAdmin "7"
      (assignPatch "3")).1.status = 200 :=
  ⟨by decide, by decide, by decide,
    (admin_assign_stores_assignee sampleClock (sampleWorld sampleOpenTicket) sampleAdmin "7"
      (assignPatch "3") 7 sampleOpenTicket 3
      (by decide) (by decide) (by decide) (by decide) (by decide) (by decide)).1⟩

/-- C4 fails on the code: an administrator sends `assignedTo: "abc"` for the unassigned
ticket 7. `Number("abc")` is NaN, which differs from `null` under `!==` and is stored as
NULL: the request succeeds, the stored assignee is NULL before and after, and yet one
ASSIGN event ("Atama kaldırıldı") is appended. -/
theorem assign_event_without_assignee_change :
    (patchTicket sampleClock (sampleWorld sampleOpenTicket) sampleAdmin "7"
        { assignedTo := some (JVal.str "abc") }).1.status = 200 ∧
    (getTicket (sampleWorld sampleOpenTicket).db 7).map (fun t => t.assigned_to) = some none ∧
    (getTicket (patchTicket sampleClock (sampleWorld sampleOpenTicket) sampleAdmin "7"
        { assignedTo := some (JVal.str "abc") }).2.db 7).map (fun t => t.assigned_to)
      = some none ∧
    (patchTicket sampleClock (sampleWorld sampleOpenTicket) sampleAdmin "7"
        { assignedTo := some (JVal.str "abc") }).2.db.events.map
          (fun e => (e.ticket_id, e.type, e.message)) = [(7, "ASSIGN", "Atama kaldırıldı")] := by
  decide

/-- C5 fails as stated: the assigned staff member sends only a note for the ticket that is
already COZULDU with `resolved_at` 500. The request succeeds, the status is COZULDU before
and after (so it did not move into the resolved set from outside), and yet the stored
`resolved_at` differs from its value before: it is the time of the request. -/
theorem resolvedAt_restamped_without_transition :
    (patchTicket sampleClock (sampleWorld sampleResolvedTicket) sampleStaff "7"
        { resolvedNote := some (JVal.str "Checked again") }).1.status = 200 ∧
    (getTicket (sampleWorld sampleResolvedTicket).db 7).map
        (fun t => (t.status, t.resolved_at)) = some ("COZULDU", some 500) ∧
    (getTicket (patchTicket sampleClock (sampleWorld sampleResolvedTicket) sampleStaff "7"
        { resolvedNote := some (JVal.str "Checked again") }).2.db 7).map
        (fun t => (t.status, t.resolved_at)) = some ("COZULDU", some 1005) ∧
    (getTicket (patchTicket sampleClock (sampleWorld sampleResolvedTicket) sampleStaff "7"
        { resolvedNote := some (JVal.str "Checked again") }).2.db 7).map
        (fun t => t.resolved_at) ≠
      (getTicket (sampleWorld sampleResolvedTicket).db 7).map (fun t => t.resolved_at) ∧
    ¬ ("COZULDU" ∉ ["COZULDU", "KAPANDI"] ∧ "COZULDU" ∈ ["COZULDU", "KAPANDI"]) := by
  decide

/-- C5 as amended: after a successful PATCH the stored `resolved_at` is the time of the
request when the stored status is COZULDU or KAPANDI (whatever the status was before), and
the value before the request otherwise; in particular a PATCH that leaves a status outside
that set unchanged leaves `resolved_at` unchanged. -/
theorem resolvedAt_stamped_by_next_status (clk : Nat → Nat) (w : World) (u : User)
    (idParam : String) (patch : PatchBody) (tid : Int) (row : TicketRow)
    (hid : stringToNumber idParam = JNum.int tid)
    (hrow : getTicket w.db tid = some row)
    (hok : (patchTicket clk w u idParam patch).1.status = 200) :
    ∃ t, getTicket (patchTicket clk w u idParam patch).2.db tid = some t ∧
      t.resolved_at =
        (if t.status ∈ ["COZULDU", "KAPANDI"] then some (clk w.tick) else row.resolved_at) ∧
      (t.status = row.status → row.status ∉ ["COZULDU", "KAPANDI"] →
        t.resolved_at = row.resolved_at) := by
  rcases patchTicket_cases clk w u idParam patch with
    ⟨c, code, hc, he⟩ | ⟨tid', row', n0, hid', -, hrow', -, -, hnext, he⟩
  · rw [he] at hok
    exact absurd hok hc
  · rw [hid] at hid'
    cases hid'
    rw [hrow] at hrow'
    cases hrow'
    rw [he]
    obtain ⟨-, -, hget, -⟩ := patchCommit_spec clk w u tid row n0
    have hra : n0.resolved_at = row.resolved_at :=
      computeNext_resolved_at u row patch n0 hnext
    have hat : (stampResolved clk w n0).1.resolved_at =
        if (stampResolved clk w n0).1.status ∈ ["COZULDU", "KAPANDI"] then some (clk w.tick)
        else row.resolved_at := by
      rw [stampResolved_at, stampResolved_status, hra]
    refine ⟨_, by rw [hget, hrow]; rfl, hat, ?_⟩
    intro hs hn
    show (stampResolved clk w n0).1.resolved_at = _
    rw [hat]
    have : (stampResolved clk w n0).1.status = row.status := hs
    rw [this, if_neg hn]

/-- Witness of C5 as amended: the staff member resolves the ticket assigned to them. -/
theorem resolvedAt_stamped_by_next_status_witness :
    stringToNumber "7" = JNum.int 7 ∧
    getTicket (sampleWorld sampleAssignedTicket).db 7 = some sampleAssignedTicket ∧
    (patchTicket sampleClock (sampleWorld sampleAssignedTicket) sampleStaff "7"
      { status := some (JVal.str "COZULDU") }).1.status = 200 ∧
    ∃ t, getTicket (patchTicket sampleClock (sampleWorld sampleAssignedTicket) sampleStaff "7"
        { status := some (JVal.str "COZULDU") }).2.db 7 = some t ∧
      t.resolved_at =
        (if t.status ∈ ["COZULDU", "KAPANDI"] then
          some (sampleClock (sampleWorld sampleAssignedTicket).tick)
        else sampleAssignedTicket.resolved_at) ∧
      (t.status = sampleAssignedTicket.status →
        sampleAssignedTicket.status ∉ ["COZULDU", "KAPANDI"] →
        t.resolved_at = sampleAssignedTicket.resolved_at) :=
  ⟨by decide, by decide, by decide,
    resolvedAt_stamped_by_next_status sampleClock (sampleWorld sampleAssignedTicket)
      sampleStaff "7" { status := some (JVal.str "COZULDU") } 7 sampleAssignedTicket
      (by decide) (by decide) (by decide)⟩

/-! ## Rating, attachment and user-update handlers -/

/-- Every rating submission is rejected at a gate, leaving the state as it was, or passes
them all and reaches the upsert. -/
theorem rateTicket_cases (clk : Nat → Nat) (w : World) (u : User) (body : RatingBody) :
    (∃ c code, c ≠ 200 ∧ rateTicket clk w u body = (errorResponse c code, w)) ∨
    (∃ id ticket, u.role = "SAKIN" ∧ optNumber body.ticketId = JNum.int id ∧ id ≠ 0 ∧
      optTruthy body.stars = true ∧
      (optNumber body.stars).ltInt 1 = false ∧ (optNumber body.stars).gtInt 5 = false ∧
      getTicket w.db id = some ticket ∧ ticket.created_by = u.id ∧
      ticket.status ∈ ["COZULDU", "KAPANDI"] ∧
      rateTicket clk w u body =
        rateCommit clk w u id (optNumber body.stars) (stringOr body.note "")) := by
  unfold rateTicket
  by_cases hr : requireRole ["SAKIN"] u = true
  · have hrole : u.role = "SAKIN" := by simpa [requireRole] using hr
    rw [if_neg (not_not.mpr hr)]
    by_cases hm : ¬ (optNumber body.ticketId).truthy = true ∨ ¬ optTruthy body.stars = true
    · left; exact ⟨400, "MISSING_FIELDS", by decide, by rw [if_pos hm]⟩
    · rw [if_neg hm]
      have hm' := not_or.mp hm
      have hid : (optNumber body.ticketId).truthy = true := not_not.mp hm'.1
      have hst : optTruthy body.stars = true := not_not.mp hm'.2
      by_cases hs : (optNumber body.stars).ltInt 1 = true ∨
          (optNumber body.stars).gtInt 5 = true
      · left; exact ⟨400, "INVALID_STARS", by decide, by rw [if_pos hs]⟩
      · rw [if_neg hs]
        have hs' := not_or.mp hs
        cases hn : optNumber body.ticketId with
        | nan => left; exact ⟨400, "MISSING_FIELDS", by decide, rfl⟩
        | int id =>
          have h0 : id ≠ 0 := by
            rw [hn] at hid
            simpa [JNum.truthy] using hid
          cases hrow : getTicket w.db id with
          | none => left; exact ⟨404, "NOT_FOUND", by decide, by simp only [hrow]⟩
          | some ticket =>
            by_cases hc : ticket.created_by ≠ u.id
            · left; exact ⟨403, "FORBIDDEN", by decide, by simp only [hrow, if_pos hc]⟩
            · by_cases hres : ticket.status ∉ ["COZULDU", "KAPANDI"]
              · left
                exact ⟨400, "NOT_RESOLVED", by decide, by
                  simp only [hrow, if_neg hc, if_pos hres]⟩
              · right
                refine ⟨id, ticket, hrole, rfl, h0, hst, by simpa using hs'.1,
                  by simpa using hs'.2, hrow, not_not.mp hc, not_not.mp hres, ?_⟩
                simp only [hrow, if_neg hc, if_neg hres]
  · left
    exact ⟨403, "FORBIDDEN", by decide, by rw [if_pos hr]⟩

theorem upsertRating_frame (w : World) (t u s : Int) (note : String) (c : Nat) :
    (upsertRating w t u s note c).db.tickets = w.db.tickets ∧
    (upsertRating w t u s note c).db.events = w.db.events ∧
    (upsertRating w t u s note c).db.users = w.db.users ∧
    (upsertRating w t u s note c).tick = w.tick := by
  unfold upsertRating
  split <;> exact ⟨rfl, rfl, rfl, rfl⟩

theorem rateCommit_frame (clk : Nat → Nat) (w : World) (u : User) (id : Int) (stars : JNum)
    (note : String) :
    (rateCommit clk w u id stars note).2.db.tickets = w.db.tickets ∧
    (rateCommit clk w u id stars note).2.db.events = w.db.events ∧
    w.tick ≤ (rateCommit clk w u id stars note).2.tick := by
  cases stars with
  | nan => exact ⟨rfl, rfl, Nat.le_succ _⟩
  | int n =>
    obtain ⟨h1, h2, -, h4⟩ :=
      upsertRating_frame (nowISO clk w).2 id u.id n note (nowISO clk w).1
    refine ⟨h1, h2, ?_⟩
    show w.tick ≤ (upsertRating (nowISO clk w).2 id u.id n note (nowISO clk w).1).tick + 1
    rw [h4]
    show w.tick ≤ w.tick + 1 + 1
    omega

theorem rateTicket_frame (clk : Nat → Nat) (w : World) (u : User) (body : RatingBody) :
    (rateTicket clk w u body).2.db.tickets = w.db.tickets ∧
    (rateTicket clk w u body).2.db.events = w.db.events ∧
    w.tick ≤ (rateTicket clk w u body).2.tick := by
  rcases rateTicket_cases clk w u body with
    ⟨c, code, -, he⟩ | ⟨id, ticket, -, -, -, -, -, -, -, -, -, he⟩
  · rw [he]; exact ⟨rfl, rfl, Nat.le_refl _⟩
  · rw [he]; exact rateCommit_frame clk w u id _ _

theorem uploadAttachment_frame (clk : Nat → Nat) (w : World) (u : User) (idParam : String)
    (file : Option UploadedFile) :
    (uploadAttachment clk w u idParam file).2.db.tickets = w.db.tickets ∧
    (uploadAttachment clk w u idParam file).2.db.events = w.db.events ∧
    w.tick ≤ (uploadAttachment clk w u idParam file).2.tick := by
  unfold uploadAttachment
  split
  · exact ⟨rfl, rfl, Nat.le_refl _⟩
  · split
    · exact ⟨rfl, rfl, Nat.le_refl _⟩
    · split
      · exact ⟨rfl, rfl, Nat.le_refl _⟩
      · split
        · exact ⟨rfl, rfl, Nat.le_refl _⟩
        · split
          · exact ⟨rfl, rfl, Nat.le_refl _⟩
          · refine ⟨rfl, rfl, ?_⟩
            show w.tick ≤ w.tick + 1 + 1
            omega

theorem patchUser_frame (clk : Nat → Nat) (w : World) (u : User) (idParam : String)
    (body : UserPatchBody) :
    (patchUser clk w u idParam body).2.db.tickets = w.db.tickets ∧
    (patchUser clk w u idParam body).2.db.events = w.db.events ∧
    w.tick ≤ (patchUser clk w u idParam body).2.tick := by
  unfold patchUser
  split
  · exact ⟨rfl, rfl, Nat.le_refl _⟩
  · split
    · exact ⟨rfl, rfl, Nat.le_refl _⟩
    · split
      · exact ⟨rfl, rfl, Nat.le_refl _⟩
      · split
        · exact ⟨rfl, rfl, Nat.le_refl _⟩
        · split
          · exact ⟨rfl, rfl, Nat.le_refl _⟩
          · refine ⟨rfl, rfl, ?_⟩
            show w.tick ≤ w.tick + 1
            omega

/-! ## C6: bounds of `resolved_at` -/

theorem mem_of_getTicket {db : Store} {tid : Int} {row : TicketRow}
    (h : getTicket db tid = some row) : row ∈ db.tickets ∧ row.id = tid := by
  unfold getTicket at h
  exact ⟨List.mem_of_find?_eq_some h, by simpa using List.find?_some h⟩

/-- Every stored ticket was created at a reading of the clock taken before now. -/
theorem serve_created (clk : Nat → Nat) (w : World) (r : Request)
    (hinv : ∀ t ∈ w.db.tickets, ∃ k, k < w.tick ∧ t.created_at = clk k) :
    ∀ t ∈ (serve clk w r).db.tickets, ∃ k, k < (serve clk w r).tick ∧ t.created_at = clk k := by
  cases r with
  | create u body =>
    show ∀ t ∈ (createTicket clk w u body).2.db.tickets,
      ∃ k, k < (createTicket clk w u body).2.tick ∧ t.created_at = clk k
    rcases createTicket_cases clk w u body with ⟨c, code, -, he⟩ | ⟨-, he⟩
    · rw [he]; exact hinv
    · rw [he]
      obtain ⟨-, htick, row, hca, -, -, -, -, htk⟩ := createCommit_spec clk w u body
      rw [htick, htk]
      intro t ht
      obtain ⟨t0, ht0, rfl⟩ := List.mem_map.mp ht
      have hc : (if t0.id = row.id then
          { t0 with ticket_no := some (ticketNoFromId (clk (w.tick + 1)) row.id) }
          else t0).created_at = t0.created_at := by
        split <;> rfl
      rw [hc]
      rcases List.mem_append.mp ht0 with h | h
      · obtain ⟨k, hk, hkc⟩ := hinv t0 h
        exact ⟨k, by omega, hkc⟩
      · rw [List.mem_singleton] at h
        subst h
        exact ⟨w.tick, by omega, hca⟩
  | patch u idParam patch =>
    show ∀ t ∈ (patchTicket clk w u idParam patch).2.db.tickets,
      ∃ k, k < (patchTicket clk w u idParam patch).2.tick ∧ t.created_at = clk k
    intro t ht
    obtain ⟨t0, ht0, -, hc⟩ := patchTicket_tickets clk w u idParam patch t ht
    obtain ⟨k, hk, hkc⟩ := hinv t0 ht0
    have := patchTicket_tick_le clk w u idParam patch
    exact ⟨k, by omega, by rw [hc, hkc]⟩
  | delete u idParam =>
    show ∀ t ∈ (deleteTicket clk w u idParam).2.db.tickets,
      ∃ k, k < (deleteTicket clk w u idParam).2.tick ∧ t.created_at = clk k
    rcases deleteTicket_cases clk w u idParam with
      ⟨c, code, -, he⟩ | ⟨tid, row, -, -, -, -, -, -, he⟩
    · rw [he]; exact hinv
    · rw [he]
      obtain ⟨-, htk, -, htick⟩ := deleteCommit_spec clk w u tid
      rw [htk, htick]
      intro t ht
      obtain ⟨k, hk, hkc⟩ := hinv t (List.mem_of_mem_filter ht)
      exact ⟨k, by omega, hkc⟩
  | readClock =>
    intro t ht
    obtain ⟨k, hk, hkc⟩ := hinv t ht
    exact ⟨k, Nat.lt_succ_of_lt hk, hkc⟩
  | rate u body =>
    show ∀ t ∈ (rateTicket clk w u body).2.db.tickets,
      ∃ k, k < (rateTicket clk w u body).2.tick ∧ t.created_at = clk k
    obtain ⟨htk, -, htick⟩ := rateTicket_frame clk w u body
    rw [htk]
    intro t ht
    obtain ⟨k, hk, hkc⟩ := hinv t ht
    exact ⟨k, by omega, hkc⟩
  | attach u idParam file =>
    show ∀ t ∈ (uploadAttachment clk w u idParam file).2.db.tickets,
      ∃ k, k < (uploadAttachment clk w u idParam file).2.tick ∧ t.created_at = clk k
    obtain ⟨htk, -, htick⟩ := uploadAttachment_frame clk w u idParam file
    rw [htk]
    intro t ht
    obtain ⟨k, hk, hkc⟩ := hinv t ht
    exact ⟨k, by omega, hkc⟩
  | updateUser u idParam body =>
    show ∀ t ∈ (patchUser clk w u idParam body).2.db.tickets,
      ∃ k, k < (patchUser clk w u idParam body).2.tick ∧ t.created_at = clk k
    obtain ⟨htk, -, htick⟩ := patchUser_frame clk w u idParam body
    rw [htk]
    intro t ht
    obtain ⟨k, hk, hkc⟩ := hinv t ht
    exact ⟨k, by omega, hkc⟩

theorem serveAll_created (clk : Nat → Nat) (reqs : List Request) (w : World)
    (hinv : ∀ t ∈ w.db.tickets, ∃ k, k < w.tick ∧ t.created_at = clk k) :
    ∀ t ∈ (serveAll clk w reqs).db.tickets,
      ∃ k, k < (serveAll clk w reqs).tick ∧ t.created_at = clk k := by
  induction reqs generalizing w with
  | nil => exact hinv
  | cons r rs ih => exact ih (serve clk w r) (serve_created clk w r hinv)

/-- C6: in a state reached from the empty database by creations, PATCHes, deletions and
other clock readings, under a non-decreasing clock, a successful PATCH that leaves the
ticket COZULDU or KAPANDI stores a non-null `resolved_at` that is at least the ticket's
`created_at` and at most every reading taken from the start of the request on, the last
reading of the request (the audit entry's) included. -/
theorem resolvedAt_bounds (clk : Nat → Nat) (hmono : Monotone clk) (reqs : List Request)
    (u : User) (idParam : String) (patch : PatchBody) (tid : Int) (t : TicketRow)
    (hid : stringToNumber idParam = JNum.int tid)
    (hok : (patchTicket clk (serveAll clk emptyWorld reqs) u idParam patch).1.status = 200)
    (ht : getTicket (patchTicket clk (serveAll clk emptyWorld reqs) u idParam patch).2.db tid
      = some t)
    (hst : t.status ∈ ["COZULDU", "KAPANDI"]) :
    ∃ ra, t.resolved_at = some ra ∧ t.created_at ≤ ra ∧
      ra ≤ clk ((patchTicket clk (serveAll clk emptyWorld reqs) u idParam patch).2.tick - 1) ∧
      ∀ k, (serveAll clk emptyWorld reqs).tick ≤ k → ra ≤ clk k := by
  have hinv := serveAll_created clk reqs emptyWorld (by intro t ht; cases ht)
  generalize serveAll clk emptyWorld reqs = w at hok ht hinv ⊢
  rcases patchTicket_cases clk w u idParam patch with
    ⟨c, code, hc, he⟩ | ⟨tid', row, n0, hid', -, hrow, -, -, hnext, he⟩
  · rw [he] at hok
    exact absurd hok hc
  · rw [hid] at hid'
    cases hid'
    rw [he] at ht ⊢
    obtain ⟨-, -, hget, -⟩ := patchCommit_spec clk w u tid row n0
    rw [hget, hrow] at ht
    have ht' : t = updatedRow row (stampResolved clk w n0).1
        (clk (stampResolved clk w n0).2.tick) := by
      simpa using ht.symm
    have hst' : (stampResolved clk w n0).1.status ∈ ["COZULDU", "KAPANDI"] := by
      rw [ht'] at hst; exact hst
    have hra : t.resolved_at = some (clk w.tick) := by
      rw [ht']
      show (stampResolved clk w n0).1.resolved_at = _
      rw [stampResolved_at, if_pos (by rw [← stampResolved_status clk w n0]; exact hst')]
    have hca : t.created_at = row.created_at := by rw [ht']; rfl
    obtain ⟨k, hk, hkc⟩ := hinv row (mem_of_getTicket hrow).1
    refine ⟨clk w.tick, hra, ?_, ?_, ?_⟩
    · rw [hca, hkc]
      exact hmono (Nat.le_of_lt hk)
    · have := patchCommit_tick clk w u tid row n0
      exact hmono (by omega)
    · intro k hk
      exact hmono hk

/-- Witness of C6: a resident files a ticket, an administrator assigns it together with the
status ATANDI, and the staff member resolves it. -/
theorem resolvedAt_bounds_witness :
    Monotone sampleClock ∧
    getTicket (patchTicket sampleClock (serveAll sampleClock emptyWorld sampleHistory)
      sampleStaff "1" { status := some (JVal.str "COZULDU") }).2.db 1
      = some sampleHistoryResolved ∧
    ∃ ra, sampleHistoryResolved.resolved_at = some ra ∧
      sampleHistoryResolved.created_at ≤ ra ∧
      ra ≤ sampleClock ((patchTicket sampleClock (serveAll sampleClock emptyWorld
        sampleHistory) sampleStaff "1" { status := some (JVal.str "COZULDU") }).2.tick - 1) ∧
      ∀ k, (serveAll sampleClock emptyWorld sampleHistory).tick ≤ k → ra ≤ sampleClock k :=
  ⟨fun _ _ h => Nat.add_le_add_left h 1000, by decide,
    resolvedAt_bounds sampleClock (fun _ _ h => Nat.add_le_add_left h 1000) sampleHistory
      sampleStaff "1" { status := some (JVal.str "COZULDU") } 1 sampleHistoryResolved
      (by decide : stringToNumber "1" = JNum.int 1)
      (by decide :
        (patchTicket sampleClock (serveAll sampleClock emptyWorld sampleHistory) sampleStaff
          "1" { status := some (JVal.str "COZULDU") }).1.status = 200)
      (by decide :
        getTicket (patchTicket sampleClock (serveAll sampleClock emptyWorld sampleHistory)
          sampleStaff "1" { status := some (JVal.str "COZULDU") }).2.db 1
          = some sampleHistoryResolved)
      (by decide : sampleHistoryResolved.status ∈ ["COZULDU", "KAPANDI"])⟩

/-! ## C7: deletion -/

theorem getTicket_filter_ne (db : Store) (tid : Int) :
    getTicket { db with tickets := db.tickets.filter (fun t => ¬ t.id = tid) } tid = none := by
  unfold getTicket
  rw [List.find?_eq_none]
  intro t ht
  have := (List.mem_filter.mp ht).2
  simpa using this

/-- C7: for a request that names a ticket id, DELETE succeeds, and removes the row, exactly
when the caller is a resident, the ticket exists, was created by the caller and is not
COZULDU or KAPANDI; the creator's attempt on a COZULDU or KAPANDI ticket is answered 400
CANNOT_DELETE; and every rejected request leaves the state, the tickets table included, as
it was. -/
theorem delete_iff_creator_unresolved (clk : Nat → Nat) (w : World) (u : User)
    (idParam : String) (tid : Int)
    (hid : stringToNumber idParam = JNum.int tid) (h0 : tid ≠ 0) :
    ((deleteTicket clk w u idParam).1.status = 200 ↔
      u.role = "SAKIN" ∧ ∃ row, getTicket w.db tid = some row ∧ row.created_by = u.id ∧
        row.status ∉ ["COZULDU", "KAPANDI"]) ∧
    ((getTicket w.db tid ≠ none ∧ getTicket (deleteTicket clk w u idParam).2.db tid = none) ↔
      u.role = "SAKIN" ∧ ∃ row, getTicket w.db tid = some row ∧ row.created_by = u.id ∧
        row.status ∉ ["COZULDU", "KAPANDI"]) ∧
    ((deleteTicket clk w u idParam).1.status = 200 →
      (deleteTicket clk w u idParam).2.db.tickets =
        w.db.tickets.filter (fun t => ¬ t.id = tid)) ∧
    ((deleteTicket clk w u idParam).1.status ≠ 200 → (deleteTicket clk w u idParam).2 = w) ∧
    (∀ row, u.role = "SAKIN" → getTicket w.db tid = some row → row.created_by = u.id →
      row.status ∈ ["COZULDU", "KAPANDI"] →
      deleteTicket clk w u idParam = (errorResponse 400 "CANNOT_DELETE", w)) := by
  have hcannot : ∀ row, u.role = "SAKIN" → getTicket w.db tid = some row →
      row.created_by = u.id → row.status ∈ ["COZULDU", "KAPANDI"] →
      deleteTicket clk w u idParam = (errorResponse 400 "CANNOT_DELETE", w) := by
    intro row hrole hrow hc hs
    have hr : requireRole ["SAKIN"] u = true := by simp [requireRole, hrole]
    unfold deleteTicket
    rw [if_neg (not_not.mpr hr)]
    simp only [hid, h0, hrow, if_false, if_neg (not_not.mpr hc), if_pos hs]
  have main : ((deleteTicket clk w u idParam).1.status = 200 ↔
      u.role = "SAKIN" ∧ ∃ row, getTicket w.db tid = some row ∧ row.created_by = u.id ∧
        row.status ∉ ["COZULDU", "KAPANDI"]) ∧
    ((getTicket w.db tid ≠ none ∧ getTicket (deleteTicket clk w u idParam).2.db tid = none) ↔
      u.role = "SAKIN" ∧ ∃ row, getTicket w.db tid = some row ∧ row.created_by = u.id ∧
        row.status ∉ ["COZULDU", "KAPANDI"]) ∧
    ((deleteTicket clk w u idParam).1.status = 200 →
      (deleteTicket clk w u idParam).2.db.tickets =
        w.db.tickets.filter (fun t => ¬ t.id = tid)) ∧
    ((deleteTicket clk w u idParam).1.status ≠ 200 →
      (deleteTicket clk w u idParam).2 = w) := by
    rcases deleteTicket_cases clk w u idParam with
      ⟨c, code, hc, he⟩ | ⟨tid', row, hid', -, hrow, hrole, hcb, hs, he⟩
    · have hno : ¬ (u.role = "SAKIN" ∧ ∃ row, getTicket w.db tid = some row ∧
          row.created_by = u.id ∧ row.status ∉ ["COZULDU", "KAPANDI"]) := by
        rintro ⟨hrole, row, hrow, hcb, hs⟩
        have hr : requireRole ["SAKIN"] u = true := by simp [requireRole, hrole]
        have : deleteTicket clk w u idParam = deleteCommit clk w u tid := by
          unfold deleteTicket
          rw [if_neg (not_not.mpr hr)]
          simp only [hid, h0, hrow, if_false, if_neg (not_not.mpr hcb), if_neg hs]
        rw [this] at he
        have h200 := (deleteCommit_spec clk w u tid).1
        rw [he] at h200
        simp only [errorResponse, Response.mk.injEq] at h200
        exact hc h200.1
      rw [he]
      refine ⟨⟨fun h => absurd h hc, fun h => absurd h hno⟩, ⟨?_, fun h => absurd h hno⟩,
        ?_, ?_⟩
      · rintro ⟨h1, h2⟩
        exact absurd h2 h1
      · intro h; exact absurd h hc
      · intro _; rfl
    · rw [hid] at hid'
      cases hid'
      have hyes : u.role = "SAKIN" ∧ ∃ row, getTicket w.db tid = some row ∧
          row.created_by = u.id ∧ row.status ∉ ["COZULDU", "KAPANDI"] :=
        ⟨hrole, row, hrow, hcb, hs⟩
      obtain ⟨hres, htk, -, -⟩ := deleteCommit_spec clk w u tid
      have hgone : getTicket (deleteCommit clk w u tid).2.db tid = none := by
        have := getTicket_filter_ne w.db tid
        unfold getTicket at this ⊢
        rw [htk]
        exact this
      rw [he]
      refine ⟨⟨fun _ => hyes, fun _ => by rw [hres]⟩,
        ⟨fun _ => hyes, fun _ => ⟨?_, hgone⟩⟩, fun _ => htk, ?_⟩
      · rw [hrow]; simp
      · intro h
        rw [hres] at h
        exact absurd rfl h
  exact ⟨main.1, main.2.1, main.2.2.1, main.2.2.2, hcannot⟩

/-- Witness of C7: the resident deletes their own open ticket. -/
theorem delete_iff_creator_unresolved_witness :
    stringToNumber "7" = JNum.int 7 ∧
    (deleteTicket sampleClock (sampleWorld sampleOpenTicket) sampleResident "7").1.status
      = 200 ∧
    (deleteTicket sampleClock (sampleWorld sampleOpenTicket) sampleResident "7").2.db.tickets
      = [] :=
  ⟨by decide, by decide,
    ((delete_iff_creator_unresolved sampleClock (sampleWorld sampleOpenTicket) sampleResident
      "7" 7 (by decide) (by decide)).2.2.1 (by decide)).trans (by decide)⟩

/-! ## C8: the access gate -/

/-- C8: for a user whose role is SAKIN, PERSONEL or YONETICI, `canAccessTicket` is true
exactly when the role is YONETICI, or PERSONEL with the ticket assigned to the user, or SAKIN
with the ticket created by the user; it is false when the user or the ticket is absent; so
a resident never passes for a ticket of someone else and a staff member never passes for a
ticket not assigned to them. -/
theorem canAccessTicket_iff (u : User) (t : TicketRow)
    (hrole : u.role = "SAKIN" ∨ u.role = "PERSONEL" ∨ u.role = "YONETICI") :
    (canAccessTicket (some u) (some t) = true ↔
      u.role = "YONETICI" ∨ (u.role = "PERSONEL" ∧ t.assigned_to = some u.id) ∨
        (u.role = "SAKIN" ∧ t.created_by = u.id)) ∧
    canAccessTicket none (some t) = false ∧
    canAccessTicket (some u) none = false ∧
    canAccessTicket none none = false ∧
    (u.role = "SAKIN" → t.created_by ≠ u.id → canAccessTicket (some u) (some t) = false) ∧
    (u.role = "PERSONEL" → t.assigned_to ≠ some u.id →
      canAccessTicket (some u) (some t) = false) := by
  have hsp : ("SAKIN" : String) ≠ "PERSONEL" := by decide
  have hsy : ("SAKIN" : String) ≠ "YONETICI" := by decide
  have hpy : ("PERSONEL" : String) ≠ "YONETICI" := by decide
  refine ⟨?_, rfl, rfl, rfl, ?_, ?_⟩
  · rcases hrole with h | h | h <;> simp [canAccessTicket, h, hsp, hsy, hpy, hsp.symm,
      hsy.symm, hpy.symm]
  · intro h hne
    simp [canAccessTicket, h, hsp, hsy, hne]
  · intro h hne
    simp [canAccessTicket, h, hpy, hne]

/-- Witness of C8: the staff member and the ticket assigned to them. -/
theorem canAccessTicket_iff_witness :
    canAccessTicket (some sampleStaff) (some sampleAssignedTicket) = true ∧
    canAccessTicket (some sampleStaff) (some sampleOpenTicket) = false :=
  ⟨(canAccessTicket_iff sampleStaff sampleAssignedTicket (Or.inr (Or.inl rfl))).1.mpr
      (Or.inr (Or.inl ⟨rfl, rfl⟩)),
    (canAccessTicket_iff sampleStaff sampleOpenTicket (Or.inr (Or.inl rfl))).2.2.2.2.2 rfl
      (by decide)⟩

/-! ## C9: role scoping of the list and search endpoints -/

theorem roleScope_eq_canAccess (u : User) (t : TicketRow) :
    roleScope u t = canAccessTicket (some u) (some t) := rfl

theorem mem_orderByCreatedDesc {rows : List TicketRow} {t : TicketRow} :
    t ∈ orderByCreatedDesc rows ↔ t ∈ rows := by
  unfold orderByCreatedDesc
  exact List.mem_insertionSort _

/-- A stable sort keeps sublists: sorting a sublist gives a sublist of the sorted list. -/
theorem orderByCreatedDesc_sublist {as bs : List TicketRow} (h : List.Sublist as bs) :
    List.Sublist (orderByCreatedDesc as) (orderByCreatedDesc bs) := by
  haveI : IsTotal TicketRow (fun a b => b.created_at ≤ a.created_at) :=
    ⟨fun a b => Nat.le_total b.created_at a.created_at⟩
  haveI : IsTrans TicketRow (fun a b => b.created_at ≤ a.created_at) :=
    ⟨fun _ _ _ hab hbc => Nat.le_trans hbc hab⟩
  unfold orderByCreatedDesc
  induction h with
  | slnil => exact List.Sublist.refl _
  | cons a _ ih => exact ih.trans (List.sublist_orderedInsert a _)
  | cons₂ a _ ih =>
    exact List.Sublist.orderedInsert_sublist a ih (List.sorted_insertionSort _ _)

theorem listRows_scoped (db : Store) (u : User) :
    ∀ t ∈ listRows db u, t ∈ db.tickets ∧ canAccessTicket (some u) (some t) = true := by
  intro t ht
  have := List.mem_filter.mp (mem_orderByCreatedDesc.mp ht)
  exact ⟨this.1, by rw [← roleScope_eq_canAccess]; exact this.2⟩

theorem searchRows_sublist (db : Store) (u : User) (q : Option JVal) :
    List.Sublist (searchRows db u q) (listRows db u) := by
  unfold searchRows listRows
  simp only []
  split
  · exact List.nil_sublist _
  · apply orderByCreatedDesc_sublist
    have : db.tickets.filter (fun t => roleScope u t &&
        matchesLike ("%" ++ jsTrim (stringOr q "") ++ "%") t) =
        (db.tickets.filter (roleScope u)).filter
          (fun t => matchesLike ("%" ++ jsTrim (stringOr q "") ++ "%") t) := by
      rw [List.filter_filter]
      congr 1
      funext t
      exact Bool.and_comm _ _
    rw [this]
    exact List.filter_sublist _

theorem scoped_of_access (u : User) (t : TicketRow)
    (h : canAccessTicket (some u) (some t) = true) :
    (u.role = "SAKIN" → t.created_by = u.id) ∧
    (u.role = "PERSONEL" → t.assigned_to = some u.id) := by
  constructor
  · intro hr
    have h1 : u.role ≠ "YONETICI" := by rw [hr]; decide
    have h2 : u.role ≠ "PERSONEL" := by rw [hr]; decide
    simpa [canAccessTicket, h1, h2] using h
  · intro hr
    have h1 : u.role ≠ "YONETICI" := by rw [hr]; decide
    simpa [canAccessTicket, h1, hr] using h

/-- C9: for every user and query, every ticket the list endpoint and the search endpoint
return is the image of a stored row that passes `canAccessTicket` for the user, so a resident
only receives tickets they created and a staff member only tickets assigned to them; and
the tickets of the search are a sub-list of the tickets of the list endpoint. -/
theorem list_and_search_scoped (w : World) (u : User) (q : Option JVal) :
    (∀ tk ∈ (listTickets w u).1.payload.ticketList,
      ∃ row ∈ w.db.tickets, tk = mapTicket row ∧
        canAccessTicket (some u) (some row) = true ∧
        (u.role = "SAKIN" → tk.createdBy = u.id) ∧
        (u.role = "PERSONEL" → tk.assignedTo = some u.id)) ∧
    (∀ tk ∈ (searchTickets w u q).1.payload.ticketList,
      ∃ row ∈ w.db.tickets, tk = mapTicket row ∧
        canAccessTicket (some u) (some row) = true ∧
        (u.role = "SAKIN" → tk.createdBy = u.id) ∧
        (u.role = "PERSONEL" → tk.assignedTo = some u.id)) ∧
    List.Sublist (searchTickets w u q).1.payload.ticketList
      (listTickets w u).1.payload.ticketList ∧
    (listTickets w u).1.status = 200 ∧ (searchTickets w u q).1.status = 200 ∧
    (listTickets w u).2 = w ∧ (searchTickets w u q).2 = w := by
  have hlist : ∀ tk ∈ (listRows w.db u).map mapTicket,
      ∃ row ∈ w.db.tickets, tk = mapTicket row ∧
        canAccessTicket (some u) (some row) = true ∧
        (u.role = "SAKIN" → tk.createdBy = u.id) ∧
        (u.role = "PERSONEL" → tk.assignedTo = some u.id) := by
    intro tk htk
    obtain ⟨row, hrow, rfl⟩ := List.mem_map.mp htk
    obtain ⟨hmem, hacc⟩ := listRows_scoped w.db u row hrow
    exact ⟨row, hmem, rfl, hacc, (scoped_of_access u row hacc).1,
      (scoped_of_access u row hacc).2⟩
  have hsub := searchRows_sublist w.db u q
  refine ⟨hlist, ?_, hsub.map mapTicket, rfl, rfl, rfl, rfl⟩
  intro tk htk
  exact hlist tk ((hsub.map mapTicket).subset htk)

/-- Witness of C9: the staff member lists and searches a table holding one ticket assigned
to them. -/
theorem list_and_search_scoped_witness :
    (listTickets (sampleWorld sampleAssignedTicket) sampleStaff).1.payload.ticketList =
      [mapTicket sampleAssignedTicket] ∧
    List.Sublist
      (searchTickets (sampleWorld sampleAssignedTicket) sampleStaff
        (some (JVal.str "leak"))).1.payload.ticketList
      (listTickets (sampleWorld sampleAssignedTicket) sampleStaff).1.payload.ticketList :=
  ⟨by decide,
    (list_and_search_scoped (sampleWorld sampleAssignedTicket) sampleStaff
      (some (JVal.str "leak"))).2.2.1⟩

/-! ## C10: lazy expiry of sessions -/

theorem head?_of_mem {α : Type} {l : List α} {x : α} (h : x ∈ l) :
    ∃ y, l.head? = some y ∧ y ∈ l := by
  cases l with
  | nil => cases h
  | cons a l => exact ⟨a, rfl, List.mem_cons_self a l⟩

theorem mem_sessionJoin {db : Store} {sid : String} {s : SessionRow} {u : UserRow} :
    (s, u) ∈ sessionJoin db sid ↔
      s ∈ db.sessions ∧ s.sid = sid ∧ u ∈ db.users ∧ u.id = s.user_id := by
  unfold sessionJoin
  simp only [List.mem_flatMap, List.mem_filter, List.mem_map, decide_eq_true_eq, Prod.mk.injEq]
  constructor
  · rintro ⟨s', ⟨hs', hsid⟩, u', ⟨hu', huid⟩, rfl, rfl⟩
    exact ⟨hs', hsid, hu', huid⟩
  · rintro ⟨hs, hsid, hu, huid⟩
    exact ⟨s, ⟨hs, hsid⟩, u, ⟨hu, huid⟩, rfl, rfl⟩

theorem getUserBySession_no_row (clk : Nat → Nat) (w : World) (sid : Option String)
    (h : ∀ s ∈ w.db.sessions, some s.sid ≠ sid) :
    getUserBySession clk w sid = (none, w) := by
  unfold getUserBySession
  cases sid with
  | none => rfl
  | some sid =>
    simp only []
    split
    · rfl
    · have hnil : sessionJoin w.db sid = [] := by
        rw [List.eq_nil_iff_forall_not_mem]
        rintro ⟨s, u⟩ hm
        exact h s (mem_sessionJoin.mp hm).1 (by rw [(mem_sessionJoin.mp hm).2.1])
      rw [hnil]
      rfl

theorem getUserBySession_expired (clk : Nat → Nat) (w : World) (sid : String)
    (s : SessionRow) (hsid : sid ≠ "") (hs : s ∈ w.db.sessions) (hs' : s.sid = sid)
    (huniq : ∀ s' ∈ w.db.sessions, s'.sid = sid → s' = s)
    (huser : ∃ u ∈ w.db.users, u.id = s.user_id)
    (hexp : s.expires_at < clk w.tick) :
    getUserBySession clk w (some sid) = (none, deleteSession (nowISO clk w).2 sid) := by
  obtain ⟨u, hu, huid⟩ := huser
  obtain ⟨⟨s1, u1⟩, hhead, hmem⟩ :=
    head?_of_mem (mem_sessionJoin.mpr ⟨hs, hs', hu, huid⟩)
  have hm := mem_sessionJoin.mp hmem
  have hs1 : s1 = s := huniq s1 hm.1 hm.2.1
  subst hs1
  unfold getUserBySession
  simp only [hsid, if_false, hhead]
  show (if s1.expires_at < clk w.tick then _ else _) = _
  rw [if_pos hexp]

/-- C10: a non-empty token whose session row (unique by the schema, with its user present)
has an expiry earlier than the reading of the clock resolves to no user, the row is deleted
and no other table changes, and `authRequired` answers 401 UNAUTHORIZED without running the
handler; a token with no session row, or an absent cookie, resolves to no user and leaves
the state as it was. -/
theorem expired_session_deleted (clk : Nat → Nat) (w : World) (sid : String)
    (s : SessionRow) (hsid : sid ≠ "") (hs : s ∈ w.db.sessions) (hs' : s.sid = sid)
    (huniq : ∀ s' ∈ w.db.sessions, s'.sid = sid → s' = s)
    (huser : ∃ u ∈ w.db.users, u.id = s.user_id)
    (hexp : s.expires_at < clk w.tick) :
    (getUserBySession clk w (some sid)).1 = none ∧
    (getUserBySession clk w (some sid)).2.db.sessions =
      w.db.sessions.filter (fun s' => ¬ s'.sid = sid) ∧
    s ∉ (getUserBySession clk w (some sid)).2.db.sessions ∧
    (∀ s' ∈ (getUserBySession clk w (some sid)).2.db.sessions, s'.sid ≠ sid) ∧
    (getUserBySession clk w (some sid)).2.db.users = w.db.users ∧
    (getUserBySession clk w (some sid)).2.db.tickets = w.db.tickets ∧
    (∀ next, authRequired clk w (some sid) next =
      (errorResponse 401 "UNAUTHORIZED", (getUserBySession clk w (some sid)).2)) ∧
    (∀ sid', (∀ s' ∈ w.db.sessions, some s'.sid ≠ sid') →
      getUserBySession clk w sid' = (none, w) ∧
      ∀ next, authRequired clk w sid' next = (errorResponse 401 "UNAUTHORIZED", w)) := by
  have he := getUserBySession_expired clk w sid s hsid hs hs' huniq huser hexp
  have hfilter : (getUserBySession clk w (some sid)).2.db.sessions =
      w.db.sessions.filter (fun s' => ¬ s'.sid = sid) := by rw [he]; rfl
  refine ⟨by rw [he], hfilter, ?_, ?_, by rw [he]; rfl, by rw [he]; rfl, ?_, ?_⟩
  · rw [hfilter]
    intro hm
    have := (List.mem_filter.mp hm).2
    simp [hs'] at this
  · rw [hfilter]
    intro s' hm
    have := (List.mem_filter.mp hm).2
    simpa using this
  · intro next
    unfold authRequired
    rw [he]
  · intro sid' hno
    have hn := getUserBySession_no_row clk w sid' hno
    refine ⟨hn, fun next => ?_⟩
    unfold authRequired
    rw [hn]

/-- Witness of C10: the expired session of the staff member is presented at time 1005. -/
theorem expired_session_deleted_witness :
    sampleExpiredSession ∈ sampleSessionWorld.db.sessions ∧
    sampleExpiredSession.expires_at < sampleClock sampleSessionWorld.tick ∧
    (getUserBySession sampleClock sampleSessionWorld (some "5f2a")).1 = none ∧
    (getUserBySession sampleClock sampleSessionWorld (some "5f2a")).2.db.sessions = [] :=
  ⟨by decide, by decide,
    (expired_session_deleted sampleClock sampleSessionWorld "5f2a" sampleExpiredSession
      (by decide) (by decide) (by decide) (by decide)
      ⟨sampleStaffRow, by decide, by decide⟩ (by decide)).1,
    ((expired_session_deleted sampleClock sampleSessionWorld "5f2a" sampleExpiredSession
      (by decide) (by decide) (by decide) (by decide)
      ⟨sampleStaffRow, by decide, by decide⟩ (by decide)).2.1).trans (by decide)⟩

/-! ## C11: disabled accounts -/

theorem getUserBySession_live (clk : Nat → Nat) (w : World) (sid : String)
    (s : SessionRow) (u : UserRow) (hsid : sid ≠ "") (hs : s ∈ w.db.sessions)
    (hs' : s.sid = sid) (huniq : ∀ s' ∈ w.db.sessions, s'.sid = sid → s' = s)
    (hu : u ∈ w.db.users) (huid : u.id = s.user_id)
    (huniqU : ∀ u' ∈ w.db.users, u'.id = s.user_id → u' = u)
    (hlive : ¬ s.expires_at < clk w.tick) :
    getUserBySession clk w (some sid) = (some (mapUser u), (nowISO clk w).2) := by
  obtain ⟨⟨s1, u1⟩, hhead, hmem⟩ :=
    head?_of_mem (mem_sessionJoin.mpr ⟨hs, hs', hu, huid⟩)
  have hm := mem_sessionJoin.mp hmem
  have hs1 : s1 = s := huniq s1 hm.1 hm.2.1
  subst hs1
  have hu1 : u1 = u := huniqU u1 hm.2.2.1 hm.2.2.2
  subst hu1
  unfold getUserBySession
  simp only [hsid, if_false, hhead]
  show (if s1.expires_at < clk w.tick then _ else _) = _
  rw [if_neg hlive]

/-- C11: for a non-empty token whose session row (unique by the schema) is not expired and
whose user row (unique by its key) has `is_active = 0`, `authRequired` answers 403
ACCOUNT_DISABLED, which is not the 401 UNAUTHORIZED answer, whatever the protected handler
is (it is not run), and the database, the session row included, is what it was; when the
user is active the handler is run with that user. -/
theorem disabled_account_forbidden (clk : Nat → Nat) (w : World) (sid : String)
    (s : SessionRow) (u : UserRow) (hsid : sid ≠ "") (hs : s ∈ w.db.sessions)
    (hs' : s.sid = sid) (huniq : ∀ s' ∈ w.db.sessions, s'.sid = sid → s' = s)
    (hu : u ∈ w.db.users) (huid : u.id = s.user_id)
    (huniqU : ∀ u' ∈ w.db.users, u'.id = s.user_id → u' = u)
    (hlive : ¬ s.expires_at < clk w.tick) :
    (u.is_active = 0 →
      (∀ next, authRequired clk w (some sid) next =
        (errorResponse 403 "ACCOUNT_DISABLED", (nowISO clk w).2)) ∧
      errorResponse 403 "ACCOUNT_DISABLED" ≠ errorResponse 401 "UNAUTHORIZED" ∧
      (nowISO clk w).2.db = w.db ∧ s ∈ (nowISO clk w).2.db.sessions) ∧
    (u.is_active ≠ 0 →
      ∀ next, authRequired clk w (some sid) next = next (nowISO clk w).2 (mapUser u)) := by
  have hget := getUserBySession_live clk w sid s u hsid hs hs' huniq hu huid huniqU hlive
  constructor
  · intro h0
    refine ⟨fun next => ?_, by decide, rfl, hs⟩
    unfold authRequired
    rw [hget]
    have : (mapUser u).is_active = 0 := h0
    simp only [this, if_true]
  · intro h1 next
    unfold authRequired
    rw [hget]
    have : ¬ (mapUser u).is_active = 0 := h1
    simp only [this, if_false]

/-- Witness of C11: the disabled resident presents their live session at time 1005. -/
theorem disabled_account_forbidden_witness :
    sampleLiveSession ∈ sampleDisabledWorld.db.sessions ∧
    ¬ sampleLiveSession.expires_at < sampleClock sampleDisabledWorld.tick ∧
    sampleDisabledRow.is_active = 0 ∧
    authRequired sampleClock sampleDisabledWorld (some "9c1e")
        (fun w u => listTickets w u) =
      (errorResponse 403 "ACCOUNT_DISABLED", (nowISO sampleClock sampleDisabledWorld).2) :=
  ⟨by decide, by decide, by decide,
    ((disabled_account_forbidden sampleClock sampleDisabledWorld "9c1e" sampleLiveSession
      sampleDisabledRow (by decide) (by decide) (by decide) (by decide) (by decide)
      (by decide) (by decide) (by decide)).1 (by decide)).1 (fun w u => listTickets w u)⟩

/-! ## Decimal text of numbers -/

theorem digitChar_digit : ∀ k, k < 10 →
    (Nat.digitChar k).isDigit = true ∧ (Nat.digitChar k).toNat - 48 = k ∧
    isJsSpace (Nat.digitChar k) = false ∧ Nat.digitChar k ≠ '-' ∧ Nat.digitChar k ≠ '+' := by
  decide

theorem digitsValue_append (xs ys : List Char) (acc : Nat) :
    digitsValue (xs ++ ys) acc =
      match digitsValue xs acc with
      | some a => digitsValue ys a
      | none => none := by
  induction xs generalizing acc with
  | nil => rfl
  | cons c cs ih =>
    simp only [List.cons_append, digitsValue]
    split
    · exact ih _
    · rfl

/-- Decimal digits of `n`: what `Nat.toDigitsCore 10` puts in front of its accumulator. -/
theorem toDigitsCore_spec (fuel : Nat) : ∀ (n : Nat) (ds : List Char), n < fuel →
    ∃ L, Nat.toDigitsCore 10 fuel n ds = L ++ ds ∧
      (∀ c ∈ L, c.isDigit = true ∧ isJsSpace c = false ∧ c ≠ '-' ∧ c ≠ '+') ∧
      (∀ acc, digitsValue L acc = some (acc * 10 ^ L.length + n)) ∧
      0 < L.length ∧ n < 10 ^ L.length ∧ (L.length = 1 ∨ 10 ^ (L.length - 1) ≤ n) := by
  induction fuel with
  | zero => intro n ds h; exact absurd h (Nat.not_lt_zero _)
  | succ fuel ih =>
    intro n ds h
    have hd := digitChar_digit (n % 10) (Nat.mod_lt _ (by decide))
    unfold Nat.toDigitsCore
    by_cases h0 : n / 10 = 0
    · simp only [h0, if_true]
      have hn : n < 10 := by omega
      refine ⟨[Nat.digitChar (n % 10)], rfl, ?_, ?_, by simp, by simpa using hn, Or.inl rfl⟩
      · intro c hc
        rw [List.mem_singleton] at hc
        subst hc
        exact ⟨hd.1, hd.2.2.1, hd.2.2.2.1, hd.2.2.2.2⟩
      · intro acc
        simp only [digitsValue, hd.1, if_true, hd.2.1, List.length_singleton, pow_one]
        congr 1
        omega
    · simp only [h0, if_false]
      obtain ⟨L, hL, hdig, hval, hpos, hlt, hge⟩ :=
        ih (n / 10) (Nat.digitChar (n % 10) :: ds) (by omega)
      refine ⟨L ++ [Nat.digitChar (n % 10)], by rw [hL]; simp, ?_, ?_, by simp, ?_, ?_⟩
      · intro c hc
        rcases List.mem_append.mp hc with hc | hc
        · exact hdig c hc
        · rw [List.mem_singleton] at hc
          subst hc
          exact ⟨hd.1, hd.2.2.1, hd.2.2.2.1, hd.2.2.2.2⟩
      · intro acc
        rw [digitsValue_append, hval]
        simp only [digitsValue, hd.1, if_true, hd.2.1, List.length_append,
          List.length_singleton, pow_succ]
        congr 1
        have := Nat.div_add_mod n 10
        nlinarith [Nat.div_add_mod n 10]
      · simp only [List.length_append, List.length_singleton, pow_succ]
        omega
      · right
        simp only [List.length_append, List.length_singleton, Nat.add_sub_cancel]
        rcases hge with h1 | h1
        · rw [h1]; simp; omega
        · have hL1 : L.length = (L.length - 1) + 1 := by omega
          rw [hL1, pow_succ]
          omega

theorem natToString_spec (n : Nat) :
    ∃ L, toString n = String.mk L ∧
      (∀ c ∈ L, c.isDigit = true ∧ isJsSpace c = false ∧ c ≠ '-' ∧ c ≠ '+') ∧
      (∀ acc, digitsValue L acc = some (acc * 10 ^ L.length + n)) ∧
      0 < L.length ∧ n < 10 ^ L.length ∧ (L.length = 1 ∨ 10 ^ (L.length - 1) ≤ n) := by
  obtain ⟨L, hL, h⟩ := toDigitsCore_spec (n + 1) n [] (Nat.lt_succ_self n)
  refine ⟨L, ?_, h⟩
  show String.mk (Nat.toDigitsCore 10 (n + 1) n []) = String.mk L
  rw [hL, List.append_nil]

theorem pow_le_of_lt_pow {a b n : Nat} (h1 : 10 ^ a ≤ n) (h2 : n < 10 ^ b) : a < b := by
  by_contra hcon
  have : 10 ^ b ≤ 10 ^ a := Nat.pow_le_pow_right (by decide) (Nat.le_of_not_lt hcon)
  omega

/-- Number of decimal digits of a number between two powers of ten. -/
theorem natToString_length (n k : Nat) (hk : 0 < k) (hlo : 10 ^ (k - 1) ≤ n ∨ k = 1)
    (hhi : n < 10 ^ k) : ∀ L, toString n = String.mk L → L.length = k := by
  intro L hL
  obtain ⟨L', hL', -, -, hpos, hlt, hge⟩ := natToString_spec n
  rw [hL'] at hL
  have : L' = L := by injection hL
  subst this
  have hle : L'.length ≤ k := by
    rcases hge with h1 | h1
    · omega
    · have := pow_le_of_lt_pow h1 hhi
      omega
  have hge' : k ≤ L'.length := by
    rcases hlo with h1 | h1
    · have := pow_le_of_lt_pow h1 hlt
      omega
    · omega
  omega

theorem padStart_mk (k : Nat) (L : List Char) :
    padStart k (String.mk L) = String.mk (List.replicate (k - L.length) '0' ++ L) := rfl

theorem digitsValue_zeros (j : Nat) (L : List Char) :
    digitsValue (List.replicate j '0' ++ L) 0 = digitsValue L 0 := by
  induction j with
  | zero => rfl
  | succ j ih =>
    rw [List.replicate_succ, List.cons_append]
    simp only [digitsValue]
    rw [if_pos (by decide)]
    exact ih

theorem dropSpaces_of_head (c : Char) (cs : List Char) (h : isJsSpace c = false) :
    dropSpaces (c :: cs) = c :: cs := by
  simp [dropSpaces, h]

theorem trimChars_of_no_space (cs : List Char) (h : ∀ c ∈ cs, isJsSpace c = false) :
    trimChars cs = cs := by
  unfold trimChars
  have h1 : dropSpaces cs = cs := by
    cases cs with
    | nil => rfl
    | cons c cs => exact dropSpaces_of_head c cs (h c (List.mem_cons_self _ _))
  rw [h1]
  have h2 : dropSpaces cs.reverse = cs.reverse := by
    cases hr : cs.reverse with
    | nil => rfl
    | cons c cs' =>
      refine dropSpaces_of_head c cs' (h c ?_)
      rw [← List.mem_reverse, hr]
      exact List.mem_cons_self _ _
  rw [h2, List.reverse_reverse]

/-- `Number(s)` of a non-empty string of decimal digits is the value of the digits. -/
theorem stringToNumber_digits (cs : List Char) (hne : cs ≠ [])
    (h : ∀ c ∈ cs, c.isDigit = true ∧ isJsSpace c = false ∧ c ≠ '-' ∧ c ≠ '+') (n : Nat)
    (hv : digitsValue cs 0 = some n) : stringToNumber (String.mk cs) = JNum.int n := by
  unfold stringToNumber
  show (match trimChars cs with
    | [] => JNum.int 0
    | '-' :: ds => _
    | '+' :: ds => _
    | ds => _) = _
  rw [trimChars_of_no_space cs (fun c hc => (h c hc).2.1)]
  cases cs with
  | nil => exact absurd rfl hne
  | cons c cs =>
    have hc := h c (List.mem_cons_self _ _)
    split
    · rename_i heq; cases heq
    · rename_i heq
      injection heq with h1 h2
      exact absurd h1 hc.2.2.1
    · rename_i heq
      injection heq with h1 h2
      exact absurd h1 hc.2.2.2
    · rw [hv]

/-- Calendar fields of a day before the year 10000. -/
theorem civilFromDays_bounds (days : Nat) (h : days < 2932897) :
    1000 ≤ (civilFromDays days).1 ∧ (civilFromDays days).1 ≤ 9999 ∧
    1 ≤ (civilFromDays days).2.1 ∧ (civilFromDays days).2.1 ≤ 12 ∧
    1 ≤ (civilFromDays days).2.2 ∧ (civilFromDays days).2.2 ≤ 31 := by
  unfold civilFromDays
  simp only []
  split <;> split <;> omega

theorem ticketNoFromId_eq (now : Nat) (id : Int) :
    ticketNoFromId now id =
      "SSY-" ++ toString (civilFromDays (now / 86400000)).1 ++
        padStart 2 (toString (civilFromDays (now / 86400000)).2.1) ++
        padStart 2 (toString (civilFromDays (now / 86400000)).2.2) ++ "-" ++
        padStart 6 (toString id) := rfl

/-- The decimal text of `n < 10 ^ k`, left-padded with zeros to `k` characters: `k` digits
whose value is `n`. -/
theorem padded_spec (n k : Nat) (hk : 0 < k) (hn : n < 10 ^ k) :
    ∃ P, padStart k (toString n) = String.mk P ∧ P.length = k ∧
      (∀ c ∈ P, c.isDigit = true ∧ isJsSpace c = false ∧ c ≠ '-' ∧ c ≠ '+') ∧
      digitsValue P 0 = some n := by
  obtain ⟨L, hL, hdig, hval, hpos, hlt, hge⟩ := natToString_spec n
  have hle : L.length ≤ k := by
    rcases hge with h1 | h1
    · omega
    · have := pow_le_of_lt_pow h1 hn
      omega
  refine ⟨List.replicate (k - L.length) '0' ++ L, by rw [hL, padStart_mk], ?_, ?_, ?_⟩
  · simp only [List.length_append, List.length_replicate]
    omega
  · intro c hc
    rcases List.mem_append.mp hc with hc | hc
    · rw [List.eq_of_mem_replicate hc]
      decide
    · exact hdig c hc
  · rw [digitsValue_zeros, hval 0]
    simp

/-- Shape of a ticket number issued before the year 10000 for an id of at most six digits. -/
theorem ticketNoFromId_shape (now : Nat) (n : Nat) (hnow : now < 253402300800000)
    (hn : n < 1000000) :
    ∃ Y M D N : List Char,
      ticketNoFromId now (Int.ofNat n) =
        String.mk (['S', 'S', 'Y', '-'] ++ Y ++ M ++ D ++ ['-'] ++ N) ∧
      Y.length = 4 ∧ M.length = 2 ∧ D.length = 2 ∧ N.length = 6 ∧
      digitsValue Y 0 = some (civilFromDays (now / 86400000)).1 ∧
      digitsValue M 0 = some (civilFromDays (now / 86400000)).2.1 ∧
      digitsValue D 0 = some (civilFromDays (now / 86400000)).2.2 ∧
      digitsValue N 0 = some n ∧
      (∀ c ∈ N, c.isDigit = true ∧ isJsSpace c = false ∧ c ≠ '-' ∧ c ≠ '+') := by
  have hdays : now / 86400000 < 2932897 := by omega
  obtain ⟨hy1, hy2, hm1, hm2, hd1, hd2⟩ := civilFromDays_bounds (now / 86400000) hdays
  obtain ⟨Y, hY, hYl, -, hYv⟩ :=
    padded_spec (civilFromDays (now / 86400000)).1 4 (by decide) (by omega)
  obtain ⟨M, hM, hMl, -, hMv⟩ :=
    padded_spec (civilFromDays (now / 86400000)).2.1 2 (by decide) (by omega)
  obtain ⟨D, hD, hDl, -, hDv⟩ :=
    padded_spec (civilFromDays (now / 86400000)).2.2 2 (by decide) (by omega)
  obtain ⟨N, hN, hNl, hNd, hNv⟩ := padded_spec n 6 (by decide) (by omega)
  obtain ⟨Ly, hLy, -, -, -, -, -⟩ := natToString_spec (civilFromDays (now / 86400000)).1
  have hYlen : Ly.length = 4 :=
    natToString_length _ 4 (by decide) (Or.inl (by omega)) (by omega) Ly hLy
  have hYeq : toString (civilFromDays (now / 86400000)).1 = String.mk Y := by
    have h := hY
    rw [hLy, padStart_mk, hYlen] at h
    rw [hLy]
    simpa using h
  refine ⟨Y, M, D, N, ?_, hYl, hMl, hDl, hNl, hYv, hMv, hDv, hNv, hNd⟩
  rw [ticketNoFromId_eq]
  have hid : toString (Int.ofNat n) = toString n := rfl
  rw [hid, hYeq, hM, hD, hN]
  rfl

/-! ## Creation: the stored row -/

theorem le_foldl_max (l : List Int) : ∀ init : Int,
    init ≤ l.foldl max init ∧ ∀ x ∈ l, x ≤ l.foldl max init := by
  induction l with
  | nil => intro init; exact ⟨le_refl _, fun x hx => by cases hx⟩
  | cons a l ih =>
    intro init
    obtain ⟨h1, h2⟩ := ih (max init a)
    refine ⟨le_trans (le_max_left _ _) h1, ?_⟩
    intro x hx
    rcases List.mem_cons.mp hx with hx | hx
    · subst hx
      exact le_trans (le_max_right _ _) h1
    · exact h2 x hx

/-- An `AUTOINCREMENT` key is larger than every key in the table and than the sequence. -/
theorem lt_nextRowId (ids : List Int) (seq : Int) :
    seq < nextRowId ids seq ∧ ∀ i ∈ ids, i < nextRowId ids seq := by
  unfold nextRowId
  refine ⟨by have := le_max_right (ids.foldl max 0) seq; omega, ?_⟩
  intro i hi
  have h1 := (le_foldl_max ids 0).2 i hi
  have h2 := le_max_left (ids.foldl max 0) seq
  omega

theorem map_setNo_old (l : List TicketRow) (id : Int) (no : String)
    (h : ∀ t ∈ l, t.id ≠ id) :
    l.map (fun t => if t.id = id then { t with ticket_no := some no } else t) = l := by
  induction l with
  | nil => rfl
  | cons a l ih =>
    rw [List.map_cons, if_neg (h a (List.mem_cons_self _ _)),
      ih (fun t ht => h t (List.mem_cons_of_mem _ ht))]

theorem find_append_new (l : List TicketRow) (r : TicketRow) (h : ∀ t ∈ l, t.id ≠ r.id) :
    (l ++ [r]).find? (fun t => t.id = r.id) = some r := by
  induction l with
  | nil => simp [List.find?]
  | cons a l ih =>
    have ha : a.id ≠ r.id := h a (List.mem_cons_self _ _)
    rw [List.cons_append, List.find?_cons_of_neg _ (by simpa using ha)]
    exact ih (fun t ht => h t (List.mem_cons_of_mem _ ht))

/-- A creation that passes the gates appends `createdRow` and leaves every other row as it
was; the new row is the one the request reads back and returns. -/
theorem createCommit_stored (clk : Nat → Nat) (w : World) (u : User) (body : CreateBody) :
    (createCommit clk w u body).2.db.tickets = w.db.tickets ++ [createdRow clk w u body] ∧
    (createCommit clk w u body).2.db.ticketSeq = (createdRow clk w u body).id ∧
    (createCommit clk w u body).2.db.events.length = w.db.events.length + 1 ∧
    getTicket (createCommit clk w u body).2.db (createdRow clk w u body).id =
      some (createdRow clk w u body) ∧
    (createCommit clk w u body).1 =
      { status := 200,
        payload := Payload.ticket (some (mapTicket (createdRow clk w u body))) } := by
  have hfresh : ∀ t ∈ w.db.tickets, t.id ≠ (createdRow clk w u body).id := by
    intro t ht
    have := (lt_nextRowId (w.db.tickets.map (fun t => t.id)) w.db.ticketSeq).2 t.id
      (List.mem_map_of_mem _ ht)
    exact fun h => absurd (h ▸ this) (lt_irrefl _)
  have htk : (createCommit clk w u body).2.db.tickets =
      w.db.tickets ++ [createdRow clk w u body] := by
    have h1 : (createCommit clk w u body).2.db.tickets =
        w.db.tickets.map (fun t =>
          if t.id = (createdRow clk w u body).id then
            { t with ticket_no := some (ticketNoFromId (clk (w.tick + 1))
                (createdRow clk w u body).id) }
          else t) ++ [createdRow clk w u body] := by
      show (w.db.tickets ++ [_]).map _ = _
      rw [List.map_append]
      congr 1
      simp [createdRow, nowISO, insertTicket]
    rw [h1, map_setNo_old _ _ _ hfresh]
  have hget : getTicket (createCommit clk w u body).2.db (createdRow clk w u body).id =
      some (createdRow clk w u body) := by
    unfold getTicket
    rw [htk]
    exact find_append_new _ _ hfresh
  refine ⟨htk, rfl, ?_, hget, ?_⟩
  · show (w.db.events ++ [_]).length = _
    simp
  · have hget' : getTicket (setTicketNo (nowISO clk (insertTicket (nowISO clk w).2 u body
        (nowISO clk w).1).2).2 (insertTicket (nowISO clk w).2 u body (nowISO clk w).1).1
        (ticketNoFromId (nowISO clk (insertTicket (nowISO clk w).2 u body
          (nowISO clk w).1).2).1 (insertTicket (nowISO clk w).2 u body
          (nowISO clk w).1).1)).db (createdRow clk w u body).id =
        some (createdRow clk w u body) := hget
    show Response.mk 200 (Payload.ticket (Option.map mapTicket (getTicket _ _))) = _
    exact congrArg (fun o => Response.mk 200 (Payload.ticket (Option.map mapTicket o))) hget'

/-! ## C12: a created ticket is open, unassigned and numbered -/

/-- C12: a creation by a resident with all four fields truthy answers 200 with the ticket
read back from the store; that ticket has status ACIK, no assignee and the ticket number
`ticketNoFromId` gives for its id at the time read by `new Date()`. For a time before the
year 10000 and an id from 1 to 999999 the ticket number is "SSY-", four digits of the year,
two of the month, two of the day, "-", and six digits whose value is the id: 19 characters,
the last six of which `Number` reads back as the id. -/
theorem created_ticket_open_numbered (clk : Nat → Nat) (w : World) (u : User)
    (body : CreateBody) (hrole : u.role = "SAKIN")
    (hc : optTruthy body.category = true) (ht : optTruthy body.title = true)
    (hd : optTruthy body.description = true) (hp : optTruthy body.priority = true) :
    (∃ row : TicketRow,
      (createTicket clk w u body).1 =
        { status := 200, payload := Payload.ticket (some (mapTicket row)) } ∧
      getTicket (createTicket clk w u body).2.db row.id = some row ∧
      row.status = "ACIK" ∧ (mapTicket row).status = "ACIK" ∧
      row.assigned_to = none ∧ (mapTicket row).assignedTo = none ∧
      row.ticket_no = some (ticketNoFromId (clk (w.tick + 1)) row.id) ∧
      (mapTicket row).ticketNo = some (ticketNoFromId (clk (w.tick + 1)) row.id)) ∧
    (∀ (now : Nat) (id : Int), now < 253402300800000 → 1 ≤ id → id ≤ 999999 →
      (ticketNoFromId now id).length = 19 ∧
      stringToNumber (String.mk ((ticketNoFromId now id).data.drop 13)) = JNum.int id ∧
      ∃ Y M D N : List Char,
        ticketNoFromId now id =
          String.mk (['S', 'S', 'Y', '-'] ++ Y ++ M ++ D ++ ['-'] ++ N) ∧
        Y.length = 4 ∧ M.length = 2 ∧ D.length = 2 ∧ N.length = 6 ∧
        digitsValue Y 0 = some (civilFromDays (now / 86400000)).1 ∧
        digitsValue M 0 = some (civilFromDays (now / 86400000)).2.1 ∧
        digitsValue D 0 = some (civilFromDays (now / 86400000)).2.2 ∧
        (digitsValue N 0).map Int.ofNat = some id) := by
  constructor
  · have hr : requireRole ["SAKIN"] u = true := by simp [requireRole, hrole]
    have hgate : createTicket clk w u body = createCommit clk w u body := by
      unfold createTicket
      rw [if_neg (not_not.mpr hr), if_neg]
      simp [hc, ht, hd, hp]
    obtain ⟨-, -, -, hget, hres⟩ := createCommit_stored clk w u body
    rw [hgate]
    exact ⟨createdRow clk w u body, hres, hget, rfl, rfl, rfl, rfl, rfl, rfl⟩
  · intro now id hnow h1 h2
    obtain ⟨n, rfl⟩ := Int.eq_ofNat_of_zero_le (by omega : (0 : Int) ≤ id)
    have hn : n < 1000000 := by omega
    obtain ⟨Y, M, D, N, hshape, hY, hM, hD, hN, hYv, hMv, hDv, hNv, hNd⟩ :=
      ticketNoFromId_shape now n hnow hn
    have hdata : (ticketNoFromId now (Int.ofNat n)).data =
        ['S', 'S', 'Y', '-'] ++ Y ++ M ++ D ++ ['-'] ++ N := by rw [hshape]
    refine ⟨?_, ?_, Y, M, D, N, hshape, hY, hM, hD, hN, hYv, hMv, hDv, by rw [hNv]; rfl⟩
    · show (ticketNoFromId now (Int.ofNat n)).data.length = 19
      rw [hdata]
      simp only [List.length_append, List.length_cons, List.length_nil, hY, hM, hD, hN]
    · show stringToNumber (String.mk ((ticketNoFromId now (Int.ofNat n)).data.drop 13)) =
        JNum.int (Int.ofNat n)
      rw [hdata]
      have hdrop : (['S', 'S', 'Y', '-'] ++ Y ++ M ++ D ++ ['-'] ++ N).drop 13 = N := by
        have hlen : (['S', 'S', 'Y', '-'] ++ Y ++ M ++ D ++ ['-']).length = 13 := by
          simp only [List.length_append, List.length_cons, List.length_nil, hY, hM, hD]
        rw [← hlen, List.drop_left]
      rw [hdrop]
      exact stringToNumber_digits N (by intro h; rw [h] at hN; cases hN) hNd n hNv

/-- Witness of C12: the resident files the sample ticket on the empty database. -/
theorem created_ticket_open_numbered_witness :
    sampleResident.role = "SAKIN" ∧
    (createTicket sampleClock emptyWorld sampleResident sampleCreateBody).1.status = 200 ∧
    (getTicket (createTicket sampleClock emptyWorld sampleResident sampleCreateBody).2.db
      1).map (fun t => (t.status, t.assigned_to, t.ticket_no)) =
      some ("ACIK", none, some "SSY-19700101-000001") ∧
    (ticketNoFromId 1730851200000 7).length = 19 ∧
    stringToNumber (String.mk ((ticketNoFromId 1730851200000 7).data.drop 13)) = JNum.int 7 :=
  ⟨rfl, by decide, by decide,
    ((created_ticket_open_numbered sampleClock emptyWorld sampleResident sampleCreateBody rfl
      (by decide) (by decide) (by decide) (by decide)).2 1730851200000 7 (by decide)
      (by decide) (by decide)).1,
    ((created_ticket_open_numbered sampleClock emptyWorld sampleResident sampleCreateBody rfl
      (by decide) (by decide) (by decide) (by decide)).2 1730851200000 7 (by decide)
      (by decide) (by decide)).2.1⟩

/-! ## C13: the identity columns of a ticket -/

theorem sameIdentity_refl (t : TicketRow) : sameIdentity t t :=
  ⟨rfl, rfl, rfl, rfl, rfl, rfl, rfl, rfl⟩

theorem sameIdentity_trans {a b c : TicketRow} (h1 : sameIdentity a b)
    (h2 : sameIdentity b c) : sameIdentity a c := by
  obtain ⟨a1, a2, a3, a4, a5, a6, a7, a8⟩ := h1
  obtain ⟨b1, b2, b3, b4, b5, b6, b7, b8⟩ := h2
  exact ⟨a1.trans b1, a2.trans b2, a3.trans b3, a4.trans b4, a5.trans b5, a6.trans b6,
    a7.trans b7, a8.trans b8⟩

theorem patchEvents_ticketSeq (clk : Nat → Nat) (w : World) (u : User) (t : Int)
    (row : TicketRow) (n : Next) :
    (patchEvents clk w u t row n).db.ticketSeq = w.db.ticketSeq := by
  have ha : ∀ w : World, (assignEvent clk w u t row n).db.ticketSeq = w.db.ticketSeq := by
    intro w; unfold assignEvent; split <;> rfl
  have hs : ∀ w : World, (statusEvent clk w u t row n).db.ticketSeq = w.db.ticketSeq := by
    intro w; unfold statusEvent; split <;> rfl
  have hc : ∀ w : World, (commentEvent clk w u t row n).db.ticketSeq = w.db.ticketSeq := by
    intro w; unfold commentEvent; split <;> rfl
  unfold patchEvents
  rw [hc, hs, ha]

theorem patchCommit_ticketSeq (clk : Nat → Nat) (w : World) (u : User) (tid : Int)
    (row : TicketRow) (n0 : Next) :
    (patchCommit clk w u tid row n0).2.db.ticketSeq = w.db.ticketSeq := by
  show (patchEvents clk _ u tid row _).db.ticketSeq = _
  rw [patchEvents_ticketSeq]
  show (stampResolved clk w n0).2.db.ticketSeq = _
  rw [stampResolved_db]

/-- What one request does to the tickets table and to its key sequence: it rewrites rows
in place keeping their identity columns, or appends one row with a fresh key, or (a DELETE)
removes rows. -/
theorem serve_tickets (clk : Nat → Nat) (w : World) (r : Request) :
    ((∃ f : TicketRow → TicketRow, (∀ t, sameIdentity t (f t)) ∧
        (serve clk w r).db.tickets = w.db.tickets.map f) ∧
      (serve clk w r).db.ticketSeq = w.db.ticketSeq) ∨
    (∃ row : TicketRow, w.db.ticketSeq < row.id ∧
      (serve clk w r).db.tickets = w.db.tickets ++ [row] ∧
      (serve clk w r).db.ticketSeq = row.id) ∨
    ((∃ u p, r = Request.delete u p) ∧
      ∃ p : TicketRow → Bool, (serve clk w r).db.tickets = w.db.tickets.filter p ∧
        (serve clk w r).db.ticketSeq = w.db.ticketSeq) := by
  have hsame : ∀ w' : World, w'.db.tickets = w.db.tickets →
      w'.db.ticketSeq = w.db.ticketSeq →
      (∃ f : TicketRow → TicketRow, (∀ t, sameIdentity t (f t)) ∧
        w'.db.tickets = w.db.tickets.map f) ∧ w'.db.ticketSeq = w.db.ticketSeq := by
    intro w' h1 h2
    exact ⟨⟨id, sameIdentity_refl, by rw [h1, List.map_id]⟩, h2⟩
  cases r with
  | create u body =>
    rw [show serve clk w (Request.create u body) = (createTicket clk w u body).2 from rfl]
    rcases createTicket_cases clk w u body with ⟨c, code, -, he⟩ | ⟨-, he⟩
    · left; rw [he]; exact hsame w rfl rfl
    · right; left
      rw [he]
      obtain ⟨htk, hseq, -, -, -⟩ := createCommit_stored clk w u body
      have hlt : w.db.ticketSeq < (createdRow clk w u body).id :=
        (lt_nextRowId (w.db.tickets.map (fun t : TicketRow => t.id)) w.db.ticketSeq).1
      exact ⟨createdRow clk w u body, hlt, htk, hseq⟩
  | patch u idParam patch =>
    left
    rw [show serve clk w (Request.patch u idParam patch) =
      (patchTicket clk w u idParam patch).2 from rfl]
    rcases patchTicket_cases clk w u idParam patch with
      ⟨c, code, -, he⟩ | ⟨tid, row, n0, -, -, -, -, -, -, he⟩
    · rw [he]; exact hsame w rfl rfl
    · rw [he]
      refine ⟨⟨_, ?_, (patchCommit_spec clk w u tid row n0).2.1⟩,
        patchCommit_ticketSeq clk w u tid row n0⟩
      intro t
      split
      · exact ⟨rfl, rfl, rfl, rfl, rfl, rfl, rfl, rfl⟩
      · exact sameIdentity_refl t
  | delete u idParam =>
    rw [show serve clk w (Request.delete u idParam) =
      (deleteTicket clk w u idParam).2 from rfl]
    rcases deleteTicket_cases clk w u idParam with
      ⟨c, code, -, he⟩ | ⟨tid, row, -, -, -, -, -, -, he⟩
    · left
      rw [he]; exact hsame w rfl rfl
    · right; right
      rw [he]
      exact ⟨⟨u, idParam, rfl⟩, fun t => decide (¬ t.id = tid), rfl, rfl⟩
  | readClock => left; exact hsame _ rfl rfl
  | rate u body =>
    left
    rw [show serve clk w (Request.rate u body) = (rateTicket clk w u body).2 from rfl]
    refine hsame _ (rateTicket_frame clk w u body).1 ?_
    rcases rateTicket_cases clk w u body with
      ⟨c, code, -, he⟩ | ⟨id, ticket, -, -, -, -, -, -, -, -, -, he⟩
    · rw [he]
    · rw [he]
      unfold rateCommit
      split
      · rfl
      · show (upsertRating _ _ _ _ _ _).db.ticketSeq = _
        unfold upsertRating
        split <;> rfl
  | attach u idParam file =>
    left
    rw [show serve clk w (Request.attach u idParam file) =
      (uploadAttachment clk w u idParam file).2 from rfl]
    refine hsame _ (uploadAttachment_frame clk w u idParam file).1 ?_
    unfold uploadAttachment
    repeat' split
    all_goals rfl
  | updateUser u idParam body =>
    left
    rw [show serve clk w (Request.updateUser u idParam body) =
      (patchUser clk w u idParam body).2 from rfl]
    refine hsame _ (patchUser_frame clk w u idParam body).1 ?_
    unfold patchUser
    repeat' split
    all_goals rfl

/-- One request keeps the identity columns of the rows with key `tid`, once `tid` has been
handed out. -/
theorem serve_identity (clk : Nat → Nat) (w : World) (r : Request) (tid : Int)
    (t : TicketRow) (hseq : tid ≤ w.db.ticketSeq)
    (hP : ∀ t' ∈ w.db.tickets, t'.id = tid → sameIdentity t t') :
    tid ≤ (serve clk w r).db.ticketSeq ∧
    ∀ t' ∈ (serve clk w r).db.tickets, t'.id = tid → sameIdentity t t' := by
  rcases serve_tickets clk w r with
    ⟨⟨f, hf, htk⟩, hs⟩ | ⟨row, hlt, htk, hs⟩ | ⟨-, p, htk, hs⟩
  · refine ⟨by rw [hs]; exact hseq, ?_⟩
    rw [htk]
    intro t' ht' hid
    obtain ⟨t0, ht0, rfl⟩ := List.mem_map.mp ht'
    have h0 := hf t0
    exact sameIdentity_trans (hP t0 ht0 (h0.1.trans hid)) h0
  · refine ⟨by rw [hs]; omega, ?_⟩
    rw [htk]
    intro t' ht' hid
    rcases List.mem_append.mp ht' with h | h
    · exact hP t' h hid
    · rw [List.mem_singleton] at h
      subst h
      omega
  · refine ⟨by rw [hs]; exact hseq, ?_⟩
    rw [htk]
    intro t' ht' hid
    exact hP t' (List.mem_of_mem_filter ht') hid

theorem serveAll_identity (clk : Nat → Nat) (rs : List Request) (w : World) (tid : Int)
    (t : TicketRow) (hseq : tid ≤ w.db.ticketSeq)
    (hP : ∀ t' ∈ w.db.tickets, t'.id = tid → sameIdentity t t') :
    ∀ t' ∈ (serveAll clk w rs).db.tickets, t'.id = tid → sameIdentity t t' := by
  induction rs generalizing w with
  | nil => exact hP
  | cons r rs ih =>
    obtain ⟨h1, h2⟩ := serve_identity clk w r tid t hseq hP
    exact ih (serve clk w r) h1 h2

/-- A request other than a DELETE keeps every stored key in the table. -/
theorem serve_keeps (clk : Nat → Nat) (w : World) (r : Request) (tid : Int)
    (hex : ∃ t' ∈ w.db.tickets, t'.id = tid) (hnd : ∀ u p, r ≠ Request.delete u p) :
    ∃ t' ∈ (serve clk w r).db.tickets, t'.id = tid := by
  obtain ⟨t0, ht0, hid0⟩ := hex
  rcases serve_tickets clk w r with
    ⟨⟨f, hf, htk⟩, -⟩ | ⟨row, -, htk, -⟩ | ⟨⟨u, p, hr⟩, -⟩
  · rw [htk]
    exact ⟨f t0, List.mem_map_of_mem f ht0, (hf t0).1.symm.trans hid0⟩
  · rw [htk]
    exact ⟨t0, List.mem_append_left _ ht0, hid0⟩
  · exact absurd hr (hnd u p)

theorem serveAll_keeps (clk : Nat → Nat) (rs : List Request) (w : World) (tid : Int)
    (hex : ∃ t' ∈ w.db.tickets, t'.id = tid)
    (hnd : ∀ r ∈ rs, ∀ u p, r ≠ Request.delete u p) :
    ∃ t' ∈ (serveAll clk w rs).db.tickets, t'.id = tid := by
  induction rs generalizing w with
  | nil => exact hex
  | cons r rs ih =>
    exact ih (serve clk w r)
      (serve_keeps clk w r tid hex (hnd r (List.mem_cons_self _ _)))
      (fun r' hr' => hnd r' (List.mem_cons_of_mem _ hr'))

theorem getTicket_of_mem {db : Store} {tid : Int} (h : ∃ t ∈ db.tickets, t.id = tid) :
    ∃ t, getTicket db tid = some t := by
  obtain ⟨t, ht, hid⟩ := h
  unfold getTicket
  cases hf : db.tickets.find? (fun t => decide (t.id = tid)) with
  | some t' => exact ⟨t', rfl⟩
  | none =>
    rw [List.find?_eq_none] at hf
    exact absurd (by simpa using hid) (hf t ht)

/-- C13: after a successful creation the stored row carries the ticket number written by
the creation, and after every sequence of requests that follows (creations, PATCHes,
deletions, ratings, uploads, user updates, clock readings) every stored row with that id has
the id, ticket number, creator, category, title, description, priority and creation time
written at creation; when no DELETE is among the requests the row is still stored. -/
theorem ticket_identity_fixed (clk : Nat → Nat) (w : World) (u : User) (body : CreateBody)
    (rs : List Request)
    (hok : (createTicket clk w u body).1.status = 200) :
    ∃ row : TicketRow,
      (createTicket clk w u body).1.payload = Payload.ticket (some (mapTicket row)) ∧
      getTicket (createTicket clk w u body).2.db row.id = some row ∧
      row.ticket_no = some (ticketNoFromId (clk (w.tick + 1)) row.id) ∧
      (∀ t' ∈ (serveAll clk (createTicket clk w u body).2 rs).db.tickets,
        t'.id = row.id → sameIdentity row t') ∧
      (∀ t', getTicket (serveAll clk (createTicket clk w u body).2 rs).db row.id = some t' →
        t'.ticket_no = row.ticket_no ∧ t'.created_by = row.created_by ∧
        t'.category = row.category ∧ t'.title = row.title ∧
        t'.description = row.description ∧ t'.priority = row.priority ∧
        t'.created_at = row.created_at) ∧
      ((∀ r ∈ rs, ∀ u p, r ≠ Request.delete u p) →
        ∃ t', getTicket (serveAll clk (createTicket clk w u body).2 rs).db row.id
          = some t') := by
  rcases createTicket_cases clk w u body with ⟨c, code, hc, he⟩ | ⟨-, he⟩
  · rw [he] at hok
    exact absurd hok hc
  · obtain ⟨htk, hseq, -, hget, hres⟩ := createCommit_stored clk w u body
    have hfresh : ∀ t ∈ w.db.tickets, t.id ≠ (createdRow clk w u body).id := by
      intro t ht
      have := (lt_nextRowId (w.db.tickets.map (fun t : TicketRow => t.id))
        w.db.ticketSeq).2 t.id (List.mem_map_of_mem _ ht)
      exact fun h => absurd (h ▸ this) (lt_irrefl _)
    have hP : ∀ t' ∈ (createCommit clk w u body).2.db.tickets,
        t'.id = (createdRow clk w u body).id → sameIdentity (createdRow clk w u body) t' := by
      rw [htk]
      intro t' ht' hid
      rcases List.mem_append.mp ht' with h | h
      · exact absurd hid (hfresh t' h)
      · rw [List.mem_singleton] at h
        subst h
        exact sameIdentity_refl _
    have hall := serveAll_identity clk rs (createCommit clk w u body).2
      (createdRow clk w u body).id (createdRow clk w u body) (by rw [hseq]) hP
    rw [he]
    refine ⟨createdRow clk w u body, by rw [hres], hget, rfl, hall, ?_, ?_⟩
    · intro t' ht'
      obtain ⟨hmem, hid⟩ := mem_of_getTicket ht'
      obtain ⟨-, h2, h3, h4, h5, h6, h7, h8⟩ := hall t' hmem hid
      exact ⟨h2.symm, h3.symm, h4.symm, h5.symm, h6.symm, h7.symm, h8.symm⟩
    · intro hnd
      refine getTicket_of_mem (serveAll_keeps clk rs _ _ ?_ hnd)
      rw [htk]
      exact ⟨createdRow clk w u body, List.mem_append_right _ (List.mem_singleton_self _), rfl⟩

/-- Witness of C13: the sample ticket is created on the empty database, then assigned,
rated too early, and resolved; its number is the one written at creation. -/
theorem ticket_identity_fixed_witness :
    (createTicket sampleClock emptyWorld sampleResident sampleCreateBody).1.status = 200 ∧
    (getTicket (serveAll sampleClock
      (createTicket sampleClock emptyWorld sampleResident sampleCreateBody).2
      sampleFollowUp).db 1).map (fun t => (t.ticket_no, t.status)) =
      some (some "SSY-19700101-000001", "COZULDU") ∧
    ∃ row : TicketRow,
      (createTicket sampleClock emptyWorld sampleResident sampleCreateBody).1.payload =
        Payload.ticket (some (mapTicket row)) ∧
      getTicket (createTicket sampleClock emptyWorld sampleResident sampleCreateBody).2.db
        row.id = some row ∧
      row.ticket_no = some (ticketNoFromId (sampleClock (emptyWorld.tick + 1)) row.id) ∧
      (∀ t' ∈ (serveAll sampleClock
          (createTicket sampleClock emptyWorld sampleResident sampleCreateBody).2
          sampleFollowUp).db.tickets, t'.id = row.id → sameIdentity row t') ∧
      (∀ t', getTicket (serveAll sampleClock
          (createTicket sampleClock emptyWorld sampleResident sampleCreateBody).2
          sampleFollowUp).db row.id = some t' →
        t'.ticket_no = row.ticket_no ∧ t'.created_by = row.created_by ∧
        t'.category = row.category ∧ t'.title = row.title ∧
        t'.description = row.description ∧ t'.priority = row.priority ∧
        t'.created_at = row.created_at) ∧
      ((∀ r ∈ sampleFollowUp, ∀ u p, r ≠ Request.delete u p) →
        ∃ t', getTicket (serveAll sampleClock
          (createTicket sampleClock emptyWorld sampleResident sampleCreateBody).2
          sampleFollowUp).db row.id = some t') :=
  ⟨by decide, by decide,
    ticket_identity_fixed sampleClock emptyWorld sampleResident sampleCreateBody
      sampleFollowUp (by decide)⟩


/-! ## C14 to C16: ratings -/

theorem filter_map_if {α : Type} (l : List α) (p : α → Prop) [DecidablePred p]
    (f : α → α) (hf : ∀ a, p a → p (f a)) :
    (l.map (fun a => if p a then f a else a)).filter (fun a => decide (p a)) =
      (l.filter (fun a => decide (p a))).map f := by
  induction l with
  | nil => rfl
  | cons a l ih =>
    by_cases h : p a
    · rw [List.map_cons, if_pos h, List.filter_cons_of_pos (by simpa using hf a h),
        List.filter_cons_of_pos (by simpa using h), List.map_cons, ih]
    · rw [List.map_cons, if_neg h, List.filter_cons_of_neg (by simpa using h),
        List.filter_cons_of_neg (by simpa using h), ih]

theorem filter_not_map_if {α : Type} (l : List α) (p : α → Prop) [DecidablePred p]
    (f : α → α) (hf : ∀ a, p a → p (f a)) :
    (l.map (fun a => if p a then f a else a)).filter (fun a => decide (¬ p a)) =
      l.filter (fun a => decide (¬ p a)) := by
  induction l with
  | nil => rfl
  | cons a l ih =>
    by_cases h : p a
    · rw [List.map_cons, if_pos h, List.filter_cons_of_neg (by simpa using hf a h),
        List.filter_cons_of_neg (by simpa using h), ih]
    · rw [List.map_cons, if_neg h, List.filter_cons_of_pos (by simpa using h),
        List.filter_cons_of_pos (by simpa using h), ih]

theorem filter_map_pair (l : List RatingRow) (t u s : Int) (note : String) (c : Nat) :
    (l.map (fun r => if r.ticket_id = t ∧ r.user_id = u then
        { r with stars := s, note := some note, created_at := c } else r)).filter
        (fun r => decide (r.ticket_id = t ∧ r.user_id = u)) =
      (l.filter (fun r => decide (r.ticket_id = t ∧ r.user_id = u))).map
        (fun r => { r with stars := s, note := some note, created_at := c }) :=
  filter_map_if l (fun r => r.ticket_id = t ∧ r.user_id = u)
    (fun r => { r with stars := s, note := some note, created_at := c }) (fun _ h => h)

theorem filter_map_other (l : List RatingRow) (t u s : Int) (note : String) (c : Nat) :
    (l.map (fun r => if r.ticket_id = t ∧ r.user_id = u then
        { r with stars := s, note := some note, created_at := c } else r)).filter
        (fun r => decide (¬ (r.ticket_id = t ∧ r.user_id = u))) =
      l.filter (fun r => decide (¬ (r.ticket_id = t ∧ r.user_id = u))) :=
  filter_not_map_if l (fun r => r.ticket_id = t ∧ r.user_id = u)
    (fun r => { r with stars := s, note := some note, created_at := c }) (fun _ h => h)

theorem find_eq_head_filter (l : List RatingRow) (p : RatingRow → Bool) :
    l.find? p = (l.filter p).head? := by
  induction l with
  | nil => rfl
  | cons a l ih =>
    by_cases h : p a = true
    · rw [List.find?_cons_of_pos _ h, List.filter_cons_of_pos h]
      rfl
    · rw [List.find?_cons_of_neg _ h, List.filter_cons_of_neg h, ih]

/-- The upsert leaves exactly one row for the pair when there was at most one: it carries
the submitted stars, note and time, keeps the key of the row it overwrites, and the rows of
other pairs are what they were. -/
theorem upsertRating_pair (w : World) (t u s : Int) (note : String) (c : Nat)
    (huniq : (w.db.ratings.filter
      (fun r => decide (r.ticket_id = t ∧ r.user_id = u))).length ≤ 1) :
    ∃ r' : RatingRow,
      (upsertRating w t u s note c).db.ratings.filter
        (fun r => decide (r.ticket_id = t ∧ r.user_id = u)) = [r'] ∧
      getRating (upsertRating w t u s note c).db t u = some r' ∧
      r'.ticket_id = t ∧ r'.user_id = u ∧ r'.stars = s ∧ r'.note = some note ∧
      r'.created_at = c ∧
      (∀ r0 ∈ w.db.ratings, r0.ticket_id = t ∧ r0.user_id = u → r'.id = r0.id) ∧
      (upsertRating w t u s note c).db.ratings.filter
        (fun r => decide (¬ (r.ticket_id = t ∧ r.user_id = u))) =
        w.db.ratings.filter (fun r => decide (¬ (r.ticket_id = t ∧ r.user_id = u))) := by
  have hget : ∀ (db : Store) (r' : RatingRow),
      db.ratings.filter (fun r => decide (r.ticket_id = t ∧ r.user_id = u)) = [r'] →
      getRating db t u = some r' := by
    intro db r' h
    unfold getRating
    rw [find_eq_head_filter, h]
    rfl
  unfold upsertRating
  by_cases hany : w.db.ratings.any (fun r => decide (r.ticket_id = t ∧ r.user_id = u)) = true
  · rw [if_pos hany]
    obtain ⟨r0, hr0, hp0⟩ := List.any_eq_true.mp hany
    have hp0' : r0.ticket_id = t ∧ r0.user_id = u := by simpa using hp0
    have hmem : r0 ∈ w.db.ratings.filter
        (fun r => decide (r.ticket_id = t ∧ r.user_id = u)) :=
      List.mem_filter.mpr ⟨hr0, hp0⟩
    have hone : w.db.ratings.filter
        (fun r => decide (r.ticket_id = t ∧ r.user_id = u)) = [r0] := by
      cases hf : w.db.ratings.filter
          (fun r => decide (r.ticket_id = t ∧ r.user_id = u)) with
      | nil => rw [hf] at hmem; cases hmem
      | cons a rest =>
        rw [hf] at huniq hmem
        cases rest with
        | nil =>
          rw [List.mem_singleton] at hmem
          rw [hmem]
        | cons b rest' => simp at huniq
    have hfilt : (w.db.ratings.map (fun r => if r.ticket_id = t ∧ r.user_id = u then
        { r with stars := s, note := some note, created_at := c } else r)).filter
        (fun r => decide (r.ticket_id = t ∧ r.user_id = u)) =
        [{ r0 with stars := s, note := some note, created_at := c }] := by
      rw [filter_map_pair, hone]
      rfl
    refine ⟨{ r0 with stars := s, note := some note, created_at := c }, hfilt,
      hget _ _ hfilt, hp0'.1, hp0'.2, rfl, rfl, rfl, ?_, filter_map_other _ _ _ _ _ _⟩
    intro r1 hr1 hp1
    have : r1 ∈ w.db.ratings.filter
        (fun r => decide (r.ticket_id = t ∧ r.user_id = u)) :=
      List.mem_filter.mpr ⟨hr1, by simpa using hp1⟩
    rw [hone, List.mem_singleton] at this
    rw [this]
  · rw [if_neg hany]
    have hnone : ∀ r ∈ w.db.ratings, ¬ (r.ticket_id = t ∧ r.user_id = u) := by
      intro r hr hp
      exact hany (List.any_eq_true.mpr ⟨r, hr, by simpa using hp⟩)
    have hempty : w.db.ratings.filter
        (fun r => decide (r.ticket_id = t ∧ r.user_id = u)) = [] := by
      rw [List.filter_eq_nil_iff]
      intro r hr
      simpa using hnone r hr
    have hfilt : (w.db.ratings ++
        [({ id := nextRowId (w.db.ratings.map (fun r => r.id)) w.db.ratingSeq,
            ticket_id := t, user_id := u, stars := s, note := some note,
            created_at := c } : RatingRow)]).filter
        (fun r => decide (r.ticket_id = t ∧ r.user_id = u)) =
        [({ id := nextRowId (w.db.ratings.map (fun r => r.id)) w.db.ratingSeq,
            ticket_id := t, user_id := u, stars := s, note := some note,
            created_at := c } : RatingRow)] := by
      rw [List.filter_append, hempty]
      simp
    refine ⟨_, hfilt, hget _ _ hfilt, rfl, rfl, rfl, rfl, rfl, ?_, ?_⟩
    · intro r1 hr1 hp1
      exact absurd hp1 (hnone r1 hr1)
    · show (w.db.ratings ++ [_]).filter _ = _
      rw [List.filter_append]
      simp

theorem rateTicket_accept (clk : Nat → Nat) (w : World) (u : User) (body : RatingBody)
    (tid n : Int) (ticket : TicketRow) (hrole : u.role = "SAKIN")
    (htid : optNumber body.ticketId = JNum.int tid) (h0 : tid ≠ 0)
    (hst : optTruthy body.stars = true) (hn : optNumber body.stars = JNum.int n)
    (h1 : 1 ≤ n) (h5 : n ≤ 5) (hrow : getTicket w.db tid = some ticket)
    (hown : ticket.created_by = u.id) (hres : ticket.status ∈ ["COZULDU", "KAPANDI"]) :
    rateTicket clk w u body = rateCommit clk w u tid (JNum.int n) (stringOr body.note "") := by
  have hr : requireRole ["SAKIN"] u = true := by simp [requireRole, hrole]
  unfold rateTicket
  rw [if_neg (not_not.mpr hr), if_neg, if_neg]
  · simp only [htid, hrow, hn, if_neg (not_not.mpr hown), if_neg (not_not.mpr hres)]
  · rw [hn]
    simp only [JNum.ltInt, JNum.gtInt, decide_eq_true_eq, not_or, not_lt]
    exact ⟨h1, h5⟩
  · rw [htid]
    simp [JNum.truthy, h0, hst]

/-- What an accepted rating leaves behind. -/
theorem rateCommit_spec (clk : Nat → Nat) (w : World) (u : User) (tid n : Int)
    (note : String) :
    (rateCommit clk w u tid (JNum.int n) note).1.status = 200 ∧
    (rateCommit clk w u tid (JNum.int n) note).2.db.ratings =
      (upsertRating (nowISO clk w).2 tid u.id n note (clk w.tick)).db.ratings ∧
    (rateCommit clk w u tid (JNum.int n) note).2.db.tickets = w.db.tickets ∧
    (rateCommit clk w u tid (JNum.int n) note).1.payload =
      Payload.rating ((getRating (upsertRating (nowISO clk w).2 tid u.id n note
        (clk w.tick)).db tid u.id).map mapRating) := by
  refine ⟨rfl, rfl, ?_, rfl⟩
  exact (upsertRating_frame (nowISO clk w).2 tid u.id n note (clk w.tick)).1

/-- One accepted rating in a state with at most one row for the pair. -/
theorem rate_once (clk : Nat → Nat) (w : World) (u : User) (body : RatingBody)
    (tid n : Int) (ticket : TicketRow) (hrole : u.role = "SAKIN")
    (htid : optNumber body.ticketId = JNum.int tid) (h0 : tid ≠ 0)
    (hst : optTruthy body.stars = true) (hn : optNumber body.stars = JNum.int n)
    (h1 : 1 ≤ n) (h5 : n ≤ 5) (hrow : getTicket w.db tid = some ticket)
    (hown : ticket.created_by = u.id) (hres : ticket.status ∈ ["COZULDU", "KAPANDI"])
    (huniq : (w.db.ratings.filter
      (fun r => decide (r.ticket_id = tid ∧ r.user_id = u.id))).length ≤ 1) :
    (rateTicket clk w u body).1.status = 200 ∧
    getTicket (rateTicket clk w u body).2.db tid = some ticket ∧
    ∃ r' : RatingRow,
      (rateTicket clk w u body).2.db.ratings.filter
        (fun r => decide (r.ticket_id = tid ∧ r.user_id = u.id)) = [r'] ∧
      (rateTicket clk w u body).1.payload = Payload.rating (some (mapRating r')) ∧
      r'.ticket_id = tid ∧ r'.user_id = u.id ∧ r'.stars = n ∧
      r'.note = some (stringOr body.note "") ∧ r'.created_at = clk w.tick ∧
      (∀ r0 ∈ w.db.ratings, r0.ticket_id = tid ∧ r0.user_id = u.id → r'.id = r0.id) ∧
      (rateTicket clk w u body).2.db.ratings.filter
        (fun r => decide (¬ (r.ticket_id = tid ∧ r.user_id = u.id))) =
        w.db.ratings.filter (fun r => decide (¬ (r.ticket_id = tid ∧ r.user_id = u.id))) := by
  rw [rateTicket_accept clk w u body tid n ticket hrole htid h0 hst hn h1 h5 hrow hown hres]
  obtain ⟨h200, hrat, htk, hpay⟩ := rateCommit_spec clk w u tid n (stringOr body.note "")
  obtain ⟨r', hf, hget, ht, hu, hs, hnote, hc, hid, hother⟩ :=
    upsertRating_pair (nowISO clk w).2 tid u.id n (stringOr body.note "") (clk w.tick) huniq
  refine ⟨h200, ?_, r', by rw [hrat]; exact hf, by rw [hpay, hget]; rfl, ht, hu, hs, hnote,
    hc, hid, by rw [hrat]; exact hother⟩
  unfold getTicket
  rw [htk]
  exact hrow

theorem rateAll_append (clk : Nat → Nat) (u : User) (bs : List RatingBody) (b : RatingBody) :
    ∀ w, rateAll clk w u (bs ++ [b]) = (rateTicket clk (rateAll clk w u bs) u b).2 := by
  induction bs with
  | nil => intro w; rfl
  | cons a bs ih => intro w; exact ih _

theorem rateAll_inv (clk : Nat → Nat) (u : User) (tid : Int) (ticket : TicketRow)
    (hrole : u.role = "SAKIN") (h0 : tid ≠ 0) (hown : ticket.created_by = u.id)
    (hres : ticket.status ∈ ["COZULDU", "KAPANDI"]) (bs : List RatingBody) :
    ∀ w, getTicket w.db tid = some ticket →
      (w.db.ratings.filter
        (fun r => decide (r.ticket_id = tid ∧ r.user_id = u.id))).length ≤ 1 →
      (∀ b ∈ bs, validRating tid b) →
      getTicket (rateAll clk w u bs).db tid = some ticket ∧
      ((rateAll clk w u bs).db.ratings.filter
        (fun r => decide (r.ticket_id = tid ∧ r.user_id = u.id))).length ≤ 1 := by
  induction bs with
  | nil => intro w hrow huniq _; exact ⟨hrow, huniq⟩
  | cons a bs ih =>
    intro w hrow huniq hv
    obtain ⟨htid, hst, n, hn, h1, h5⟩ := hv a (List.mem_cons_self _ _)
    obtain ⟨-, hrow', r', hf, -⟩ :=
      rate_once clk w u a tid n ticket hrole htid h0 hst hn h1 h5 hrow hown hres huniq
    exact ih _ hrow' (by rw [hf]; simp) (fun b hb => hv b (List.mem_cons_of_mem _ hb))

/-- C14: a resident rates a resolved or closed ticket of theirs with stars from 1 to 5, in
a state with at most one row for the pair (the UNIQUE constraint). The submission is
accepted and leaves exactly one row for the pair; the same submission sent again is
accepted, leaves exactly one row, with the same key, ticket, user, stars and note (only
`created_at` is rewritten), and no row of another pair changes. After any sequence of such
submissions there is exactly one row and it carries the stars and note of the last one. -/
theorem rating_upsert_idempotent (clk : Nat → Nat) (w : World) (u : User)
    (body : RatingBody) (tid : Int) (ticket : TicketRow) (hrole : u.role = "SAKIN")
    (h0 : tid ≠ 0) (hrow : getTicket w.db tid = some ticket)
    (hown : ticket.created_by = u.id) (hres : ticket.status ∈ ["COZULDU", "KAPANDI"])
    (hvalid : validRating tid body)
    (huniq : (w.db.ratings.filter
      (fun r => decide (r.ticket_id = tid ∧ r.user_id = u.id))).length ≤ 1) :
    ((rateTicket clk w u body).1.status = 200 ∧
      (rateTicket clk (rateTicket clk w u body).2 u body).1.status = 200 ∧
      ∃ r1 r2 : RatingRow,
        (rateTicket clk w u body).2.db.ratings.filter
          (fun r => decide (r.ticket_id = tid ∧ r.user_id = u.id)) = [r1] ∧
        (rateTicket clk (rateTicket clk w u body).2 u body).2.db.ratings.filter
          (fun r => decide (r.ticket_id = tid ∧ r.user_id = u.id)) = [r2] ∧
        r2.id = r1.id ∧ r2.ticket_id = r1.ticket_id ∧ r2.user_id = r1.user_id ∧
        r2.stars = r1.stars ∧ r2.note = r1.note ∧
        JNum.int r1.stars = optNumber body.stars ∧
        r1.note = some (stringOr body.note "") ∧
        (rateTicket clk (rateTicket clk w u body).2 u body).2.db.ratings.filter
          (fun r => decide (¬ (r.ticket_id = tid ∧ r.user_id = u.id))) =
          (rateTicket clk w u body).2.db.ratings.filter
            (fun r => decide (¬ (r.ticket_id = tid ∧ r.user_id = u.id)))) ∧
    (∀ (bs : List RatingBody) (b : RatingBody),
      (∀ b' ∈ bs, validRating tid b') → validRating tid b →
      ∃ r : RatingRow,
        (rateAll clk w u (bs ++ [b])).db.ratings.filter
          (fun r => decide (r.ticket_id = tid ∧ r.user_id = u.id)) = [r] ∧
        JNum.int r.stars = optNumber b.stars ∧ r.note = some (stringOr b.note "")) := by
  constructor
  · obtain ⟨htid, hst, n, hn, h1, h5⟩ := hvalid
    obtain ⟨ha, hrow1, r1, hf1, -, ht1, hu1, hs1, hn1, -, -, -⟩ :=
      rate_once clk w u body tid n ticket hrole htid h0 hst hn h1 h5 hrow hown hres huniq
    obtain ⟨hb, -, r2, hf2, -, ht2, hu2, hs2, hn2, -, hid2, ho2⟩ :=
      rate_once clk (rateTicket clk w u body).2 u body tid n ticket hrole htid h0 hst hn h1 h5
        hrow1 hown hres (by rw [hf1]; simp)
    refine ⟨ha, hb, r1, r2, hf1, hf2, ?_, by rw [ht1, ht2], by rw [hu1, hu2],
      by rw [hs1, hs2], by rw [hn1, hn2], by rw [hs1, hn], hn1, ho2⟩
    have hmem : r1 ∈ (rateTicket clk w u body).2.db.ratings.filter
        (fun r => decide (r.ticket_id = tid ∧ r.user_id = u.id)) := by
      rw [hf1]; exact List.mem_singleton_self _
    exact hid2 r1 (List.mem_of_mem_filter hmem) ⟨ht1, hu1⟩
  · intro bs b hbs hb
    obtain ⟨hrow', huniq'⟩ :=
      rateAll_inv clk u tid ticket hrole h0 hown hres bs w hrow huniq hbs
    obtain ⟨htid, hst, n, hn, h1, h5⟩ := hb
    obtain ⟨-, -, r, hf, -, -, -, hs, hnote, -, -, -⟩ :=
      rate_once clk (rateAll clk w u bs) u b tid n ticket hrole htid h0 hst hn h1 h5 hrow'
        hown hres huniq'
    rw [rateAll_append]
    exact ⟨r, hf, by rw [hs, hn], hnote⟩

/-- Witness of C14: the sample resident rates their resolved ticket 7 with four stars,
twice. -/
theorem rating_upsert_idempotent_witness :
    (rateTicket sampleClock (sampleWorld sampleResolvedTicket) sampleResident
      sampleRating).1.status = 200 ∧
    (rateTicket sampleClock (rateTicket sampleClock (sampleWorld sampleResolvedTicket)
      sampleResident sampleRating).2 sampleResident sampleRating).1.status = 200 :=
  ⟨(rating_upsert_idempotent sampleClock (sampleWorld sampleResolvedTicket) sampleResident
      sampleRating 7 sampleResolvedTicket (by decide) (by decide) (by decide) (by decide)
      (by decide) ⟨by decide, by decide, 4, by decide, by decide, by decide⟩
      (by decide)).1.1,
    (rating_upsert_idempotent sampleClock (sampleWorld sampleResolvedTicket) sampleResident
      sampleRating 7 sampleResolvedTicket (by decide) (by decide) (by decide) (by decide)
      (by decide) ⟨by decide, by decide, 4, by decide, by decide, by decide⟩
      (by decide)).1.2.1⟩

theorem rateCommit_ratings_of_error (clk : Nat → Nat) (w : World) (u : User) (tid : Int)
    (stars : JNum) (note : String)
    (h : (rateCommit clk w u tid stars note).1.status ≠ 200) :
    (rateCommit clk w u tid stars note).2.db.ratings = w.db.ratings := by
  cases stars with
  | nan => rfl
  | int n => exact absurd rfl h

/-- C15 fails as stated: a resident rates their own ticket, still ACIK, with 9 stars. The
ticket exists, is theirs and is not resolved, and the answer is 400 INVALID_STARS, not
NOT_RESOLVED: the field checks come before the ticket is read. -/
theorem rating_invalid_stars_before_status :
    getTicket (sampleWorld sampleOpenTicket).db 7 = some sampleOpenTicket ∧
    sampleOpenTicket.created_by = sampleResident.id ∧
    sampleOpenTicket.status ∉ ["COZULDU", "KAPANDI"] ∧
    (rateTicket sampleClock (sampleWorld sampleOpenTicket) sampleResident
      { ticketId := some (JVal.num 7), stars := some (JVal.num 9) }).1 =
      errorResponse 400 "INVALID_STARS" ∧
    (rateTicket sampleClock (sampleWorld sampleOpenTicket) sampleResident
      { ticketId := some (JVal.num 7), stars := some (JVal.num 9) }).1 ≠
      errorResponse 400 "NOT_RESOLVED" := by
  decide

/-- C15 as amended: a rating request changes the ratings table only when the caller is a
resident, the ticket exists, was created by the caller and is COZULDU or KAPANDI; every
request not answered 200 leaves the ratings table as it was; and for a resident's request
that passes the field checks (`ticketId` a non-zero number, `stars` truthy and neither below
1 nor above 5) on an existing ticket, the answer is 403 FORBIDDEN when the ticket is of
someone else, whatever its status, and 400 NOT_RESOLVED when it is the caller's and neither
COZULDU nor KAPANDI, the state being unchanged in both cases. -/
theorem rating_gate (clk : Nat → Nat) (w : World) (u : User) (body : RatingBody) :
    ((rateTicket clk w u body).2.db.ratings ≠ w.db.ratings →
      u.role = "SAKIN" ∧ ∃ tid ticket, optNumber body.ticketId = JNum.int tid ∧
        getTicket w.db tid = some ticket ∧ ticket.created_by = u.id ∧
        ticket.status ∈ ["COZULDU", "KAPANDI"]) ∧
    ((rateTicket clk w u body).1.status ≠ 200 →
      (rateTicket clk w u body).2.db.ratings = w.db.ratings) ∧
    (∀ tid ticket, u.role = "SAKIN" → optNumber body.ticketId = JNum.int tid → tid ≠ 0 →
      optTruthy body.stars = true → (optNumber body.stars).ltInt 1 = false →
      (optNumber body.stars).gtInt 5 = false → getTicket w.db tid = some ticket →
      (ticket.created_by ≠ u.id →
        rateTicket clk w u body = (errorResponse 403 "FORBIDDEN", w)) ∧
      (ticket.created_by = u.id → ticket.status ∉ ["COZULDU", "KAPANDI"] →
        rateTicket clk w u body = (errorResponse 400 "NOT_RESOLVED", w))) := by
  refine ⟨?_, ?_, ?_⟩
  · intro hne
    rcases rateTicket_cases clk w u body with
      ⟨c, code, -, he⟩ | ⟨id, ticket, hrole, hid, -, -, -, -, hrow, hown, hres, -⟩
    · rw [he] at hne
      exact absurd rfl hne
    · exact ⟨hrole, id, ticket, hid, hrow, hown, hres⟩
  · intro h
    rcases rateTicket_cases clk w u body with
      ⟨c, code, -, he⟩ | ⟨id, ticket, -, -, -, -, -, -, -, -, -, he⟩
    · rw [he]
    · rw [he] at h ⊢
      exact rateCommit_ratings_of_error clk w u id _ _ h
  · intro tid ticket hrole htid h0 hst hlt hgt hrow
    have hr : requireRole ["SAKIN"] u = true := by simp [requireRole, hrole]
    have hstep : rateTicket clk w u body =
        (if ticket.created_by ≠ u.id then (errorResponse 403 "FORBIDDEN", w)
        else if ticket.status ∉ ["COZULDU", "KAPANDI"] then
          (errorResponse 400 "NOT_RESOLVED", w)
        else rateCommit clk w u tid (optNumber body.stars) (stringOr body.note "")) := by
      unfold rateTicket
      rw [if_neg (not_not.mpr hr), if_neg, if_neg]
      · simp only [htid, hrow]
      · simp [hlt, hgt]
      · rw [htid]
        simp [JNum.truthy, h0, hst]
    constructor
    · intro hne
      rw [hstep, if_pos hne]
    · intro hown hnr
      rw [hstep, if_neg (not_not.mpr hown), if_pos hnr]

/-- Witness of C15 as amended: a resident rates their own open ticket with four stars. -/
theorem rating_gate_witness :
    rateTicket sampleClock (sampleWorld sampleOpenTicket) sampleResident sampleRating =
      (errorResponse 400 "NOT_RESOLVED", sampleWorld sampleOpenTicket) :=
  ((rating_gate sampleClock (sampleWorld sampleOpenTicket) sampleResident sampleRating).2.2
    7 sampleOpenTicket (by decide) (by decide) (by decide) (by decide) (by decide)
    (by decide) (by decide)).2 (by decide) (by decide)

/-- C16 fails as stated: a resident rates their resolved ticket with 0 stars. `Number(0)`
is not within 1 to 5 and no row is written, but the answer is 400 MISSING_FIELDS, not
INVALID_STARS: a falsy `stars` is caught by the check for missing fields. -/
theorem rating_zero_stars_missing_fields :
    optNumber (some (JVal.num 0)) = JNum.int 0 ∧
    rateTicket sampleClock (sampleWorld sampleResolvedTicket) sampleResident
      { ticketId := some (JVal.num 7), stars := some (JVal.num 0) } =
      (errorResponse 400 "MISSING_FIELDS", sampleWorld sampleResolvedTicket) ∧
    (rateTicket sampleClock (sampleWorld sampleResolvedTicket) sampleResident
      { ticketId := some (JVal.num 7), stars := some (JVal.num 0) }).1 ≠
      errorResponse 400 "INVALID_STARS" := by
  decide

theorem mem_upsertRatingWide (W : WideWorld) (t u : Int) (s : JDouble) (note : String)
    (c : Nat) :
    ∀ r ∈ (upsertRatingWide W t u s note c).ratings, r ∈ W.ratings ∨ r.stars = s := by
  unfold upsertRatingWide
  split
  · intro r hr
    obtain ⟨r0, hr0, rfl⟩ := List.mem_map.mp hr
    split
    · right; rfl
    · left; exact hr0
  · intro r hr
    rcases List.mem_append.mp hr with h | h
    · left; exact h
    · right
      rw [List.mem_singleton] at h
      rw [h]

/-- Rows of the ratings table after the part of the rating handler behind its gates. -/
theorem mem_rateCommitWide (B : Builtins) (clk : Nat → Nat) (W : WideWorld) (u : User)
    (t : Int) (s : JDouble) (note : String) :
    ∀ r ∈ (rateCommitWide B clk W u t s note).2.ratings, r ∈ W.ratings ∨ r.stars = s := by
  intro r hr
  cases s with
  | nan => left; exact hr
  | negInf =>
    have h : r ∈ (upsertRatingWide { W with base := (nowISO clk W.base).2 } t u.id
        JDouble.negInf note (nowISO clk W.base).1).ratings := hr
    rcases mem_upsertRatingWide _ _ _ _ _ _ r h with h1 | h1
    · left; exact h1
    · right; exact h1
  | posInf =>
    have h : r ∈ (upsertRatingWide { W with base := (nowISO clk W.base).2 } t u.id
        JDouble.posInf note (nowISO clk W.base).1).ratings := hr
    rcases mem_upsertRatingWide _ _ _ _ _ _ r h with h1 | h1
    · left; exact h1
    · right; exact h1
  | fin q =>
    have h : r ∈ (upsertRatingWide { W with base := (nowISO clk W.base).2 } t u.id
        (JDouble.fin q) note (nowISO clk W.base).1).ratings := hr
    rcases mem_upsertRatingWide _ _ _ _ _ _ r h with h1 | h1
    · left; exact h1
    · right; exact h1

/-- A number that is neither below 1 nor above 5 is `NaN` or a finite number from 1 to 5. -/
theorem JDouble.in_range (d : JDouble) (hlt : ¬ d.ltRat 1 = true) (hgt : ¬ d.gtRat 5 = true) :
    d = JDouble.nan ∨ ∃ q, d = JDouble.fin q ∧ 1 ≤ q ∧ q ≤ 5 := by
  cases d with
  | nan => left; rfl
  | negInf => exact absurd rfl hlt
  | posInf => exact absurd rfl hgt
  | fin q =>
    right
    refine ⟨q, rfl, ?_, ?_⟩
    · simpa [JDouble.ltRat] using hlt
    · simpa [JDouble.gtRat] using hgt

/-- A number below 1 or above 5 is caught by the range check of the rating handler. -/
theorem JDouble.out_of_range (d : JDouble)
    (h : d = JDouble.negInf ∨ d = JDouble.posInf ∨
      ∃ q, d = JDouble.fin q ∧ (q < 1 ∨ 5 < q)) :
    d.ltRat 1 = true ∨ d.gtRat 5 = true := by
  rcases h with rfl | rfl | ⟨q, rfl, h | h⟩
  · left; rfl
  · right; rfl
  · left; simpa [JDouble.ltRat] using h
  · right; simpa [JDouble.gtRat] using h

/-- C16 as amended, over all numbers a body can carry and for any built-in conversions
between strings and numbers: every row of the ratings table after a rating request was there
before, or its stars are `Number(stars)` of the request and a number from 1 to 5 (a fraction
such as 4.5 included); and when `Number(stars)` is a number below 1 or above 5, an infinity
included, the state is unchanged (no row is written) and the request is answered 403
FORBIDDEN when the caller is not a resident, 400 MISSING_FIELDS when the caller is a
resident and `Number(ticketId)` or `stars` is falsy (0 stars for one), and 400 INVALID_STARS
when the caller is a resident and both are truthy. -/
theorem rating_stars_range (B : Builtins) (clk : Nat → Nat) (W : WideWorld) (u : User)
    (body : WideRatingBody) :
    (∀ r ∈ (rateTicketWide B clk W u body).2.ratings,
      r ∈ W.ratings ∨
        (r.stars = optNumberWide B body.stars ∧
          ∃ q : ℚ, r.stars = JDouble.fin q ∧ 1 ≤ q ∧ q ≤ 5)) ∧
    ((optNumberWide B body.stars = JDouble.negInf ∨
        optNumberWide B body.stars = JDouble.posInf ∨
        ∃ q : ℚ, optNumberWide B body.stars = JDouble.fin q ∧ (q < 1 ∨ 5 < q)) →
      (rateTicketWide B clk W u body).2 = W ∧
      (u.role ≠ "SAKIN" →
        (rateTicketWide B clk W u body).1 =
          WideResponse.error (errorResponse 403 "FORBIDDEN")) ∧
      (u.role = "SAKIN" →
        ((optNumberWide B body.ticketId).truthy = false ∨
          optTruthyWide body.stars = false) →
        (rateTicketWide B clk W u body).1 =
          WideResponse.error (errorResponse 400 "MISSING_FIELDS")) ∧
      (u.role = "SAKIN" → (optNumberWide B body.ticketId).truthy = true →
        optTruthyWide body.stars = true →
        (rateTicketWide B clk W u body).1 =
          WideResponse.error (errorResponse 400 "INVALID_STARS"))) := by
  constructor
  · intro r hr
    unfold rateTicketWide at hr
    split at hr
    · left; exact hr
    · split at hr
      · left; exact hr
      · split at hr
        · left; exact hr
        · rename_i hrange
          rw [not_or] at hrange
          split at hr
          · left; exact hr
          · split at hr
            · left; exact hr
            · split at hr
              · left; exact hr
              · rcases mem_rateCommitWide B clk W u _ _ _ r hr with h | h
                · left; exact h
                · rcases JDouble.in_range _ hrange.1 hrange.2 with hn | ⟨q, hq, h1, h5⟩
                  · left
                    rw [hn] at hr
                    exact hr
                  · right
                    exact ⟨h, q, h.trans hq, h1, h5⟩
  · intro hout
    have hbad := JDouble.out_of_range _ hout
    by_cases hr : requireRole ["SAKIN"] u = true
    · have hrole : u.role = "SAKIN" := by simpa [requireRole] using hr
      by_cases hm : ¬ (optNumberWide B body.ticketId).truthy = true ∨
          ¬ optTruthyWide body.stars = true
      · have he : rateTicketWide B clk W u body =
            (WideResponse.error (errorResponse 400 "MISSING_FIELDS"), W) := by
          unfold rateTicketWide
          rw [if_neg (not_not.mpr hr), if_pos hm]
        rw [he]
        refine ⟨rfl, fun h => absurd hrole h, fun _ _ => rfl, fun _ h1 h2 => ?_⟩
        rcases hm with h | h
        · exact absurd h1 h
        · exact absurd h2 h
      · have he : rateTicketWide B clk W u body =
            (WideResponse.error (errorResponse 400 "INVALID_STARS"), W) := by
          unfold rateTicketWide
          rw [if_neg (not_not.mpr hr), if_neg hm, if_pos hbad]
        rw [he]
        refine ⟨rfl, fun h => absurd hrole h, fun _ h => ?_, fun _ _ _ => rfl⟩
        exfalso
        apply hm
        rcases h with h | h
        · left; rw [h]; decide
        · right; rw [h]; decide
    · have he : rateTicketWide B clk W u body =
          (WideResponse.error (errorResponse 403 "FORBIDDEN"), W) := by
        unfold rateTicketWide
        rw [if_pos hr]
      rw [he]
      refine ⟨rfl, fun _ => rfl, fun hrole => ?_, fun hrole => ?_⟩
      · exact absurd (by simp [requireRole, hrole]) hr
      · exact absurd (by simp [requireRole, hrole]) hr

/-- Witness of C16 as amended: half a star for the resident's resolved ticket is answered
400 INVALID_STARS. -/
theorem rating_stars_range_witness :
    (rateTicketWide sampleBuiltins sampleClock sampleWideWorld sampleResident
      { ticketId := some (JJson.num (JDouble.fin 7)),
        stars := some (JJson.num (JDouble.fin (1 / 2))) }).1 =
      WideResponse.error (errorResponse 400 "INVALID_STARS") :=
  ((rating_stars_range sampleBuiltins sampleClock sampleWideWorld sampleResident
    { ticketId := some (JJson.num (JDouble.fin 7)),
      stars := some (JJson.num (JDouble.fin (1 / 2))) }).2
    (Or.inr (Or.inr ⟨1 / 2, rfl, Or.inl (by norm_num)⟩))).2.2.2
    (by decide) (by decide) (by simp [optTruthyWide, JJson.truthy, JDouble.truthy])

/-- Four and a half stars for the resident's resolved ticket are saved as they are. -/
theorem rating_fraction_saved :
    (rateTicketWide sampleBuiltins sampleClock sampleWideWorld sampleResident
      { ticketId := some (JJson.num (JDouble.fin 7)),
        stars := some (JJson.num (JDouble.fin (9 / 2))) }).2.ratings.map
      (fun r => (r.ticket_id, r.user_id, r.stars)) = [(7, 1, JDouble.fin (9 / 2))] := by
  have h1 : ¬ ((9 : ℚ) / 2 < 1) := by norm_num
  have h2 : ¬ ((9 : ℚ) / 2 > 5) := by norm_num
  simp [rateTicketWide, requireRole, sampleResident, optNumberWide, JJson.toNumber,
    JDouble.truthy, optTruthyWide, JJson.truthy, JDouble.ltRat, JDouble.gtRat, h1, h2,
    getTicketWide, sampleWideWorld, sampleWorld, sampleResolvedTicket, sampleOpenTicket,
    rateCommitWide, upsertRatingWide, nowISO]


/-! ## C19, C20: the timeline -/

theorem listEvents_step (w : World) (u : User) (q : Option JVal) (tid : Int)
    (ticket : TicketRow) (hq : optNumber q = JNum.int tid) (h0 : tid ≠ 0)
    (hrow : getTicket w.db tid = some ticket) :
    listEvents w u q =
      (if u.role = "PERSONEL" ∧ ticket.assigned_to ≠ some u.id then
        (errorResponse 403 "FORBIDDEN", w)
      else if u.role = "SAKIN" ∧ ticket.created_by ≠ u.id then
        (errorResponse 403 "FORBIDDEN", w)
      else
        ({ status := 200,
           payload := Payload.events ((eventRows w.db tid).map mapEvent) }, w)) := by
  unfold listEvents
  simp only [hq, if_neg h0, hrow]

theorem listEvents_of_access (w : World) (u : User) (q : Option JVal) (tid : Int)
    (ticket : TicketRow) (hq : optNumber q = JNum.int tid) (h0 : tid ≠ 0)
    (hrow : getTicket w.db tid = some ticket)
    (hacc : canAccessTicket (some u) (some ticket) = true) :
    listEvents w u q =
      ({ status := 200,
         payload := Payload.events ((eventRows w.db tid).map mapEvent) }, w) := by
  rw [listEvents_step w u q tid ticket hq h0 hrow]
  unfold canAccessTicket at hacc
  by_cases hy : u.role = "YONETICI"
  · rw [if_neg, if_neg]
    · rintro ⟨h, -⟩
      rw [hy] at h
      exact absurd h (by decide)
    · rintro ⟨h, -⟩
      rw [hy] at h
      exact absurd h (by decide)
  · by_cases hp : u.role = "PERSONEL"
    · simp only [hy, hp, if_false, if_true] at hacc
      have ha : ticket.assigned_to = some u.id := by simpa using hacc
      rw [if_neg, if_neg]
      · rintro ⟨h, -⟩
        rw [hp] at h
        exact absurd h (by decide)
      · rintro ⟨-, h⟩
        exact h ha
    · simp only [hy, hp, if_false] at hacc
      have hc : ticket.created_by = u.id := by simpa using hacc
      rw [if_neg, if_neg]
      · rintro ⟨-, h⟩
        exact h hc
      · rintro ⟨h, -⟩
        exact hp h

theorem listEvents_of_no_access (w : World) (u : User) (q : Option JVal) (tid : Int)
    (ticket : TicketRow) (hq : optNumber q = JNum.int tid) (h0 : tid ≠ 0)
    (hrow : getTicket w.db tid = some ticket)
    (hrole : u.role = "SAKIN" ∨ u.role = "PERSONEL" ∨ u.role = "YONETICI")
    (hacc : canAccessTicket (some u) (some ticket) = false) :
    listEvents w u q = (errorResponse 403 "FORBIDDEN", w) := by
  rw [listEvents_step w u q tid ticket hq h0 hrow]
  unfold canAccessTicket at hacc
  rcases hrole with hs | hp | hy
  · have h1 : ¬ u.role = "YONETICI" := by rw [hs]; decide
    have h2 : ¬ u.role = "PERSONEL" := by rw [hs]; decide
    simp only [h1, h2, if_false] at hacc
    have hc : ticket.created_by ≠ u.id := by simpa using hacc
    rw [if_neg (fun h => h2 h.1), if_pos ⟨hs, hc⟩]
  · have h1 : ¬ u.role = "YONETICI" := by rw [hp]; decide
    simp only [h1, hp, if_false, if_true] at hacc
    have ha : ticket.assigned_to ≠ some u.id := by simpa using hacc
    rw [if_pos ⟨hp, ha⟩]
  · simp [hy] at hacc

/-- C19: for a caller whose role is SAKIN, PERSONEL or YONETICI and an existing ticket named
by `ticketId`, `GET /api/events` answers 200 with the events exactly when
`canAccessTicket(user, ticket)` is true and answers 403 FORBIDDEN exactly when it is false;
the state is unchanged either way. The attachment upload, which calls `canAccessTicket`,
refuses the same callers: it answers FORBIDDEN for a ticket and file exactly when the
timeline does. -/
theorem events_gate_is_canAccessTicket (w : World) (u : User) (q : Option JVal) (tid : Int)
    (ticket : TicketRow)
    (hrole : u.role = "SAKIN" ∨ u.role = "PERSONEL" ∨ u.role = "YONETICI")
    (hq : optNumber q = JNum.int tid) (h0 : tid ≠ 0)
    (hrow : getTicket w.db tid = some ticket) :
    ((listEvents w u q).1 =
        { status := 200, payload := Payload.events ((eventRows w.db tid).map mapEvent) } ↔
      canAccessTicket (some u) (some ticket) = true) ∧
    ((listEvents w u q).1 = errorResponse 403 "FORBIDDEN" ↔
      canAccessTicket (some u) (some ticket) = false) ∧
    (listEvents w u q).2 = w ∧
    (∀ (clk : Nat → Nat) (idParam : String) (file : UploadedFile),
      stringToNumber idParam = JNum.int tid →
      ((uploadAttachment clk w u idParam (some file)).1 = errorResponse 403 "FORBIDDEN" ↔
        (listEvents w u q).1 = errorResponse 403 "FORBIDDEN")) := by
  cases hacc : canAccessTicket (some u) (some ticket) with
  | true =>
    have he := listEvents_of_access w u q tid ticket hq h0 hrow hacc
    rw [he]
    refine ⟨⟨fun _ => rfl, fun _ => rfl⟩, ⟨fun h => ?_, fun h => by cases h⟩, rfl, ?_⟩
    · exact absurd (congrArg Response.status h) (by simp [errorResponse])
    · intro clk idParam file hid
      have hu : uploadAttachment clk w u idParam (some file) =
          attachCommit clk w u tid file := by
        unfold uploadAttachment
        simp only [hid, if_neg h0, hrow, hacc, not_true_eq_false, if_false]
      rw [hu]
      constructor
      · intro h
        exact absurd (congrArg Response.status h) (by simp [attachCommit, errorResponse])
      · intro h
        exact absurd (congrArg Response.status h) (by simp [errorResponse])
  | false =>
    have he := listEvents_of_no_access w u q tid ticket hq h0 hrow hrole hacc
    rw [he]
    refine ⟨⟨fun h => ?_, fun h => by cases h⟩, ⟨fun _ => rfl, fun _ => rfl⟩, rfl, ?_⟩
    · exact absurd (congrArg Response.status h) (by simp [errorResponse])
    · intro clk idParam file hid
      have hu : uploadAttachment clk w u idParam (some file) =
          (errorResponse 403 "FORBIDDEN", w) := by
        unfold uploadAttachment
        simp only [hid, if_neg h0, hrow, hacc]
        simp
      rw [hu]

/-- Witness of C19: the staff member asks for the timeline of a ticket assigned to nobody. -/
theorem events_gate_is_canAccessTicket_witness :
    canAccessTicket (some sampleStaff) (some sampleOpenTicket) = false ∧
    (listEvents (sampleWorld sampleOpenTicket) sampleStaff (some (JVal.str "7"))).1 =
      errorResponse 403 "FORBIDDEN" :=
  ⟨by decide,
    (events_gate_is_canAccessTicket (sampleWorld sampleOpenTicket) sampleStaff
      (some (JVal.str "7")) 7 sampleOpenTicket (by decide) (by decide) (by decide)
      (by decide)).2.1.mpr (by decide)⟩

theorem eventRows_mem (db : Store) (tid : Int) (e : EventRow) :
    e ∈ eventRows db tid ↔ e ∈ db.events ∧ e.ticket_id = tid := by
  unfold eventRows orderByCreatedAsc
  rw [List.mem_insertionSort, List.mem_filter]
  simp

theorem eventRows_perm (db : Store) (tid : Int) :
    (eventRows db tid).Perm (db.events.filter (fun e => e.ticket_id = tid)) :=
  List.perm_insertionSort _ _

theorem eventRows_sorted (db : Store) (tid : Int) :
    (eventRows db tid).Pairwise (fun a b => a.created_at ≤ b.created_at) := by
  haveI : IsTotal EventRow (fun a b => a.created_at ≤ b.created_at) :=
    ⟨fun a b => Nat.le_total a.created_at b.created_at⟩
  haveI : IsTrans EventRow (fun a b => a.created_at ≤ b.created_at) :=
    ⟨fun _ _ _ h1 h2 => Nat.le_trans h1 h2⟩
  exact List.sorted_insertionSort (fun a b : EventRow => a.created_at ≤ b.created_at) _

/-- C20: for an existing ticket named by `ticketId` and a caller that `canAccessTicket`
admits, `GET /api/events` answers 200 and leaves the state unchanged; the events returned
are the images under `mapEvent` of the stored event rows of that ticket, each as often as
it is stored, and of no other row (so every returned event carries this ticket's id); and
they are in ascending order of `createdAt`: of two returned events the earlier one's
`createdAt` is at most the later one's, in particular for adjacent ones. -/
theorem timeline_exact_and_ascending (w : World) (u : User) (q : Option JVal) (tid : Int)
    (ticket : TicketRow) (hq : optNumber q = JNum.int tid) (h0 : tid ≠ 0)
    (hrow : getTicket w.db tid = some ticket)
    (hacc : canAccessTicket (some u) (some ticket) = true) :
    (listEvents w u q).1.status = 200 ∧ (listEvents w u q).2 = w ∧
    (∃ rows : List EventRow,
      (listEvents w u q).1.payload = Payload.events (rows.map mapEvent) ∧
      rows.Perm (w.db.events.filter (fun e => e.ticket_id = tid)) ∧
      (∀ e : EventRow, e ∈ rows ↔ e ∈ w.db.events ∧ e.ticket_id = tid)) ∧
    (∀ ev ∈ (listEvents w u q).1.payload.eventList, ev.ticketId = tid) ∧
    (listEvents w u q).1.payload.eventList.Pairwise (fun a b => a.createdAt ≤ b.createdAt) ∧
    (listEvents w u q).1.payload.eventList.Chain' (fun a b => a.createdAt ≤ b.createdAt) := by
  rw [listEvents_of_access w u q tid ticket hq h0 hrow hacc]
  have hs : ((eventRows w.db tid).map mapEvent).Pairwise
      (fun a b => a.createdAt ≤ b.createdAt) := by
    rw [List.pairwise_map]
    exact eventRows_sorted w.db tid
  refine ⟨rfl, rfl, ⟨eventRows w.db tid, rfl, eventRows_perm w.db tid,
    eventRows_mem w.db tid⟩, ?_, hs, List.Pairwise.chain' hs⟩
  intro ev hev
  obtain ⟨e, he, rfl⟩ := List.mem_map.mp hev
  exact ((eventRows_mem w.db tid e).mp he).2

/-- Witness of C20: the resident reads the timeline of the ticket of `sampleHistory`. -/
theorem timeline_exact_and_ascending_witness :
    ((listEvents (serveAll sampleClock emptyWorld sampleHistory) sampleResident
      (some (JVal.str "1"))).1.payload.eventList.map (fun ev => (ev.type, ev.createdAt))) =
      [("STATUS", 1002), ("ASSIGN", 1005), ("STATUS", 1006)] ∧
    (listEvents (serveAll sampleClock emptyWorld sampleHistory) sampleResident
      (some (JVal.str "1"))).1.payload.eventList.Chain'
      (fun a b => a.createdAt ≤ b.createdAt) :=
  ⟨by decide,
    (timeline_exact_and_ascending (serveAll sampleClock emptyWorld sampleHistory)
      sampleResident (some (JVal.str "1")) 1
      { sampleHistoryResolved with status := "ATANDI", updated_at := 1004,
                                   resolved_at := none }
      (by decide) (by decide) (by decide) (by decide)).2.2.2.2.2⟩


/-! ## C17: a PATCH whose statement is rejected -/

theorem assignEvent_eq (clk : Nat → Nat) (w : World) (u : User) (t : Int)
    (row : TicketRow) (n : Next) :
    (if strictNe (row.assigned_to.map JNum.int) n.assigned_to then
      ioEmit (addEvent clk w t u.id "ASSIGN" (assignMessage n.assigned_to)).2 "event:created"
    else w) = assignEvent clk w u t row n := rfl

theorem statusEvent_eq (clk : Nat → Nat) (w : World) (u : User) (t : Int)
    (row : TicketRow) (n : Next) :
    (if decide (row.status ≠ n.status) then
      ioEmit (addEvent clk w t u.id "STATUS" ("Durum: " ++ n.status)).2 "event:created"
    else w) = statusEvent clk w u t row n := by
  unfold statusEvent
  by_cases h : row.status ≠ n.status
  · rw [if_pos h, if_pos (by simpa using h)]
  · rw [if_neg h, if_neg (by simpa using h)]

theorem commentEvent_eq (clk : Nat → Nat) (w : World) (u : User) (t : Int)
    (row : TicketRow) (n : Next) :
    (if noteChanged row n then
      ioEmit (addEvent clk w t u.id "COMMENT"
        ("Çözüm Notu: " ++ n.resolved_note.getD "")).2 "event:created"
    else w) = commentEvent clk w u t row n := rfl

theorem patchStatements_flags (row : TicketRow) (n : Next) :
    patchStatements row n =
      [PatchOp.selectRow, PatchOp.updateRow, PatchOp.selectUpdated] ++
        (if strictNe (row.assigned_to.map JNum.int) n.assigned_to = true then
          [PatchOp.insertAssign] else []) ++
        (if decide (row.status ≠ n.status) = true then [PatchOp.insertStatus] else []) ++
        (if noteChanged row n = true then [PatchOp.insertComment] else []) ++
        [PatchOp.insertAudit] := by
  unfold patchStatements
  simp only [decide_eq_true_eq]

theorem find_flags (fails : PatchOp → Bool) (a s c : Bool) :
    ([PatchOp.selectRow, PatchOp.updateRow, PatchOp.selectUpdated] ++
        (if a = true then [PatchOp.insertAssign] else []) ++
        (if s = true then [PatchOp.insertStatus] else []) ++
        (if c = true then [PatchOp.insertComment] else []) ++
        [PatchOp.insertAudit]).find? fails =
      if fails PatchOp.selectRow = true then some PatchOp.selectRow
      else if fails PatchOp.updateRow = true then some PatchOp.updateRow
      else if fails PatchOp.selectUpdated = true then some PatchOp.selectUpdated
      else if (a && fails PatchOp.insertAssign) = true then some PatchOp.insertAssign
      else if (s && fails PatchOp.insertStatus) = true then some PatchOp.insertStatus
      else if (c && fails PatchOp.insertComment) = true then some PatchOp.insertComment
      else if fails PatchOp.insertAudit = true then some PatchOp.insertAudit
      else none := by
  cases h1 : fails PatchOp.selectRow <;> cases h2 : fails PatchOp.updateRow <;>
    cases h3 : fails PatchOp.selectUpdated <;> cases a <;> cases s <;> cases c <;>
    cases h4 : fails PatchOp.insertAssign <;> cases h5 : fails PatchOp.insertStatus <;>
    cases h6 : fails PatchOp.insertComment <;> cases h7 : fails PatchOp.insertAudit <;>
    simp [List.find?, h1, h2, h3, h4, h5, h6, h7]

theorem eventStep_exact (fails : PatchOp → Bool) (op : PatchOp) (clk : Nat → Nat)
    (w : World) (u : User) (t : Int) (due : Bool) (ty m : String) :
    eventStep fails op clk w u t due ty m =
      if (due && fails op) = true then Step.failed (nowISO clk w).2
      else Step.done (if due = true then
        ioEmit (addEvent clk w t u.id ty m).2 "event:created" else w) := by
  unfold eventStep
  cases due <;> cases fails op <;> rfl

/-- The events part of a PATCH, statement by statement: it stops right after the clock
reading of the first INSERT that is due and rejected, the earlier blocks done as without
rejections. -/
theorem patchEventsFaulty_exact (fails : PatchOp → Bool) (clk : Nat → Nat) (w : World)
    (u : User) (t : Int) (row : TicketRow) (n : Next) :
    patchEventsFaulty fails clk w u t row n =
      if (strictNe (row.assigned_to.map JNum.int) n.assigned_to &&
          fails PatchOp.insertAssign) = true then
        Step.failed (nowISO clk w).2
      else if (decide (row.status ≠ n.status) && fails PatchOp.insertStatus) = true then
        Step.failed (nowISO clk (assignEvent clk w u t row n)).2
      else if (noteChanged row n && fails PatchOp.insertComment) = true then
        Step.failed (nowISO clk (statusEvent clk (assignEvent clk w u t row n) u t row n)).2
      else Step.done (patchEvents clk w u t row n) := by
  unfold patchEventsFaulty
  rw [eventStep_exact, assignEvent_eq]
  by_cases h1 : (strictNe (row.assigned_to.map JNum.int) n.assigned_to &&
      fails PatchOp.insertAssign) = true
  · rw [if_pos h1, if_pos h1]
    rfl
  · rw [if_neg h1, if_neg h1]
    simp only [Step.andThen]
    rw [eventStep_exact, statusEvent_eq]
    by_cases h2 : (decide (row.status ≠ n.status) && fails PatchOp.insertStatus) = true
    · rw [if_pos h2, if_pos h2]
    · rw [if_neg h2, if_neg h2]
      simp only [Step.andThen]
      rw [eventStep_exact, commentEvent_eq]
      rfl

/-- An accepted PATCH with rejected statements, statement by statement after the first
SELECT: the state in which it stops is that of the PATCH without rejections just before the
first rejected statement, after the clock reading of `addEvent` or `addAudit` for an
INSERT. -/
theorem patchCommitFaulty_exact (fails : PatchOp → Bool) (clk : Nat → Nat) (w : World)
    (u : User) (tid : Int) (row : TicketRow) (n0 : Next) :
    patchCommitFaulty fails clk w u tid row n0 =
      if fails PatchOp.updateRow = true then
        (errorResponse 500 "SERVER_ERROR", (nowISO clk (stampResolved clk w n0).2).2)
      else if fails PatchOp.selectUpdated = true then
        (errorResponse 500 "SERVER_ERROR",
          updateTicket (nowISO clk (stampResolved clk w n0).2).2 tid
            (stampResolved clk w n0).1 (nowISO clk (stampResolved clk w n0).2).1)
      else if (strictNe (row.assigned_to.map JNum.int) (stampResolved clk w n0).1.assigned_to
          && fails PatchOp.insertAssign) = true then
        (errorResponse 500 "SERVER_ERROR",
          (nowISO clk (updateTicket (nowISO clk (stampResolved clk w n0).2).2 tid
            (stampResolved clk w n0).1 (nowISO clk (stampResolved clk w n0).2).1)).2)
      else if (decide (row.status ≠ (stampResolved clk w n0).1.status) &&
          fails PatchOp.insertStatus) = true then
        (errorResponse 500 "SERVER_ERROR",
          (nowISO clk (assignEvent clk (updateTicket (nowISO clk (stampResolved clk w n0).2).2
            tid (stampResolved clk w n0).1 (nowISO clk (stampResolved clk w n0).2).1) u tid row
            (stampResolved clk w n0).1)).2)
      else if (noteChanged row (stampResolved clk w n0).1 &&
          fails PatchOp.insertComment) = true then
        (errorResponse 500 "SERVER_ERROR",
          (nowISO clk (statusEvent clk (assignEvent clk (updateTicket
            (nowISO clk (stampResolved clk w n0).2).2 tid (stampResolved clk w n0).1
            (nowISO clk (stampResolved clk w n0).2).1) u tid row
            (stampResolved clk w n0).1) u tid row (stampResolved clk w n0).1)).2)
      else if fails PatchOp.insertAudit = true then
        (errorResponse 500 "SERVER_ERROR",
          (nowISO clk (ioEmit (patchEvents clk (updateTicket
            (nowISO clk (stampResolved clk w n0).2).2 tid (stampResolved clk w n0).1
            (nowISO clk (stampResolved clk w n0).2).1) u tid row
            (stampResolved clk w n0).1) "ticket:updated")).2)
      else patchCommit clk w u tid row n0 := by
  unfold patchCommitFaulty
  simp only []
  by_cases hu : fails PatchOp.updateRow = true
  · rw [if_pos hu, if_pos hu]
  · rw [if_neg hu, if_neg hu]
    by_cases hs : fails PatchOp.selectUpdated = true
    · rw [if_pos hs, if_pos hs]
    · rw [if_neg hs, if_neg hs, patchEventsFaulty_exact]
      by_cases h1 : (strictNe (row.assigned_to.map JNum.int)
          (stampResolved clk w n0).1.assigned_to && fails PatchOp.insertAssign) = true
      · rw [if_pos h1, if_pos h1]
      · rw [if_neg h1, if_neg h1]
        by_cases h2 : (decide (row.status ≠ (stampResolved clk w n0).1.status) &&
            fails PatchOp.insertStatus) = true
        · rw [if_pos h2, if_pos h2]
        · rw [if_neg h2, if_neg h2]
          by_cases h3 : (noteChanged row (stampResolved clk w n0).1 &&
              fails PatchOp.insertComment) = true
          · rw [if_pos h3, if_pos h3]
          · rw [if_neg h3, if_neg h3]
            simp only []
            by_cases h4 : fails PatchOp.insertAudit = true
            · rw [if_pos h4, if_pos h4]
            · rw [if_neg h4, if_neg h4]
              rfl

/-- Event types of the statements that precede a statement in the list given by its three
flags. -/
theorem taken_flags (a s c : Bool) :
    (([PatchOp.selectRow, PatchOp.updateRow, PatchOp.selectUpdated] ++
        (if a = true then [PatchOp.insertAssign] else []) ++
        (if s = true then [PatchOp.insertStatus] else []) ++
        (if c = true then [PatchOp.insertComment] else []) ++
        [PatchOp.insertAudit]).takeWhile
          (fun o => decide (o ≠ PatchOp.selectUpdated))).filterMap PatchOp.eventType = [] ∧
    (a = true →
      (([PatchOp.selectRow, PatchOp.updateRow, PatchOp.selectUpdated] ++
        (if a = true then [PatchOp.insertAssign] else []) ++
        (if s = true then [PatchOp.insertStatus] else []) ++
        (if c = true then [PatchOp.insertComment] else []) ++
        [PatchOp.insertAudit]).takeWhile
          (fun o => decide (o ≠ PatchOp.insertAssign))).filterMap PatchOp.eventType = []) ∧
    (s = true →
      (([PatchOp.selectRow, PatchOp.updateRow, PatchOp.selectUpdated] ++
        (if a = true then [PatchOp.insertAssign] else []) ++
        (if s = true then [PatchOp.insertStatus] else []) ++
        (if c = true then [PatchOp.insertComment] else []) ++
        [PatchOp.insertAudit]).takeWhile
          (fun o => decide (o ≠ PatchOp.insertStatus))).filterMap PatchOp.eventType =
        (if a = true then ["ASSIGN"] else [])) ∧
    (c = true →
      (([PatchOp.selectRow, PatchOp.updateRow, PatchOp.selectUpdated] ++
        (if a = true then [PatchOp.insertAssign] else []) ++
        (if s = true then [PatchOp.insertStatus] else []) ++
        (if c = true then [PatchOp.insertComment] else []) ++
        [PatchOp.insertAudit]).takeWhile
          (fun o => decide (o ≠ PatchOp.insertComment))).filterMap PatchOp.eventType =
        (if a = true then ["ASSIGN"] else []) ++ (if s = true then ["STATUS"] else [])) ∧
    (([PatchOp.selectRow, PatchOp.updateRow, PatchOp.selectUpdated] ++
        (if a = true then [PatchOp.insertAssign] else []) ++
        (if s = true then [PatchOp.insertStatus] else []) ++
        (if c = true then [PatchOp.insertComment] else []) ++
        [PatchOp.insertAudit]).takeWhile
          (fun o => decide (o ≠ PatchOp.insertAudit))).filterMap PatchOp.eventType =
        (if a = true then ["ASSIGN"] else []) ++ (if s = true then ["STATUS"] else []) ++
          (if c = true then ["COMMENT"] else []) := by
  cases a <;> cases s <;> cases c <;> decide

theorem assignEvent_audit (clk : Nat → Nat) (w : World) (u : User) (t : Int)
    (row : TicketRow) (n : Next) :
    (assignEvent clk w u t row n).db.audit_log = w.db.audit_log := by
  unfold assignEvent
  split <;> rfl

theorem statusEvent_audit (clk : Nat → Nat) (w : World) (u : User) (t : Int)
    (row : TicketRow) (n : Next) :
    (statusEvent clk w u t row n).db.audit_log = w.db.audit_log := by
  unfold statusEvent
  split <;> rfl

theorem commentEvent_audit (clk : Nat → Nat) (w : World) (u : User) (t : Int)
    (row : TicketRow) (n : Next) :
    (commentEvent clk w u t row n).db.audit_log = w.db.audit_log := by
  unfold commentEvent
  split <;> rfl

/-- The three event blocks of a PATCH, one after the other: what each leaves in the events
table, with the tickets table and the audit log untouched. -/
theorem patch_stages (clk : Nat → Nat) (w : World) (u : User) (t : Int)
    (row : TicketRow) (n : Next) :
    ∃ ea es ec : List EventRow,
      ea.map (fun e => e.type) =
        (if strictNe (row.assigned_to.map JNum.int) n.assigned_to = true then ["ASSIGN"]
          else []) ∧
      es.map (fun e => e.type) =
        (if decide (row.status ≠ n.status) = true then ["STATUS"] else []) ∧
      ec.map (fun e => e.type) = (if noteChanged row n = true then ["COMMENT"] else []) ∧
      (∀ e ∈ ea ++ es ++ ec, e.ticket_id = t) ∧
      (assignEvent clk w u t row n).db.events = w.db.events ++ ea ∧
      (statusEvent clk (assignEvent clk w u t row n) u t row n).db.events =
        w.db.events ++ (ea ++ es) ∧
      (patchEvents clk w u t row n).db.events = w.db.events ++ (ea ++ es ++ ec) ∧
      (assignEvent clk w u t row n).db.tickets = w.db.tickets ∧
      (statusEvent clk (assignEvent clk w u t row n) u t row n).db.tickets = w.db.tickets ∧
      (patchEvents clk w u t row n).db.tickets = w.db.tickets ∧
      (assignEvent clk w u t row n).db.audit_log = w.db.audit_log ∧
      (statusEvent clk (assignEvent clk w u t row n) u t row n).db.audit_log =
        w.db.audit_log ∧
      (patchEvents clk w u t row n).db.audit_log = w.db.audit_log := by
  obtain ⟨ha, ea, hea, hta, hia⟩ := assignEvent_frame clk w u t row n
  obtain ⟨hs, es, hes, hts, his⟩ :=
    statusEvent_frame clk (assignEvent clk w u t row n) u t row n
  obtain ⟨hc, ec, hec, htc, hic⟩ :=
    commentEvent_frame clk (statusEvent clk (assignEvent clk w u t row n) u t row n) u t row n
  refine ⟨ea, es, ec, hta, ?_, htc, ?_, hea, ?_, ?_, ha, ?_, ?_,
    assignEvent_audit clk w u t row n, ?_, ?_⟩
  · rw [hts]
    simp only [decide_eq_true_eq]
  · intro e he
    simp only [List.mem_append] at he
    rcases he with (he | he) | he
    · exact hia e he
    · exact his e he
    · exact hic e he
  · rw [hes, hea, List.append_assoc]
  · unfold patchEvents
    rw [hec, hes, hea]
    simp
  · rw [hs, ha]
  · unfold patchEvents
    rw [hc, hs, ha]
  · rw [statusEvent_audit, assignEvent_audit]
  · unfold patchEvents
    rw [commentEvent_audit, statusEvent_audit, assignEvent_audit]

theorem getTicket_of_tickets (db1 db2 : Store) (t : Int) (h : db1.tickets = db2.tickets) :
    getTicket db1 t = getTicket db2 t := by
  unfold getTicket
  rw [h]

/-- An accepted PATCH with rejected statements is answered 500 SERVER_ERROR at the first
rejected statement it runs, or is the PATCH itself when it runs none. -/
theorem patchTicketFaulty_pass (fails : PatchOp → Bool) {clk : Nat → Nat} {w : World}
    {u : User} {idParam : String} {patch : PatchBody} {tid : Int} {row : TicketRow}
    {n0 : Next} (hid : stringToNumber idParam = JNum.int tid) (h0 : tid ≠ 0)
    (hrow : getTicket w.db tid = some row)
    (hstaff : ¬ (u.role = "PERSONEL" ∧ row.assigned_to ≠ some u.id))
    (hres : u.role ≠ "SAKIN") (hnext : computeNext u row patch = some n0) :
    patchTicketFaulty fails clk w u idParam patch =
      if fails PatchOp.selectRow = true then (errorResponse 500 "SERVER_ERROR", w)
      else patchCommitFaulty fails clk w u tid row n0 := by
  unfold patchTicketFaulty
  simp only [hid, h0, hrow, hnext, if_neg hstaff, if_neg hres, if_false]

/-- A PATCH with rejected statements answers as the PATCH without them before any statement
runs, or its first SELECT is rejected, or it reaches the part after the role blocks. -/
theorem patchTicketFaulty_cases (fails : PatchOp → Bool) (clk : Nat → Nat) (w : World)
    (u : User) (idParam : String) (patch : PatchBody) :
    (patchTicketFaulty fails clk w u idParam patch = patchTicket clk w u idParam patch ∧
      (patchTicket clk w u idParam patch).2 = w ∧
      (patchTicket clk w u idParam patch).1.status ≠ 200) ∨
    (fails PatchOp.selectRow = true ∧
      patchTicketFaulty fails clk w u idParam patch = (errorResponse 500 "SERVER_ERROR", w)) ∨
    (fails PatchOp.selectRow = false ∧ ∃ tid row n0,
      patchTicketFaulty fails clk w u idParam patch =
        patchCommitFaulty fails clk w u tid row n0 ∧
      patchTicket clk w u idParam patch = patchCommit clk w u tid row n0) := by
  cases hid : stringToNumber idParam with
  | nan =>
    left
    have hP : patchTicket clk w u idParam patch = (errorResponse 400 "INVALID_ID", w) := by
      unfold patchTicket; simp only [hid]
    have hF : patchTicketFaulty fails clk w u idParam patch =
        (errorResponse 400 "INVALID_ID", w) := by
      unfold patchTicketFaulty; simp only [hid]
    rw [hF, hP]
    exact ⟨rfl, rfl, by simp [errorResponse]⟩
  | int tid =>
    by_cases h0 : tid = 0
    · left
      have hP : patchTicket clk w u idParam patch = (errorResponse 400 "INVALID_ID", w) := by
        unfold patchTicket; simp only [hid, h0, if_true]
      have hF : patchTicketFaulty fails clk w u idParam patch =
          (errorResponse 400 "INVALID_ID", w) := by
        unfold patchTicketFaulty; simp only [hid, h0, if_true]
      rw [hF, hP]
      exact ⟨rfl, rfl, by simp [errorResponse]⟩
    · cases hsel : fails PatchOp.selectRow with
      | true =>
        right; left
        refine ⟨rfl, ?_⟩
        unfold patchTicketFaulty
        simp only [hid, h0, hsel, if_true, if_false]
      | false =>
        cases hrow : getTicket w.db tid with
        | none =>
          left
          have hP : patchTicket clk w u idParam patch = (errorResponse 404 "NOT_FOUND", w) := by
            unfold patchTicket; simp only [hid, h0, hrow, if_false]
          have hF : patchTicketFaulty fails clk w u idParam patch =
              (errorResponse 404 "NOT_FOUND", w) := by
            unfold patchTicketFaulty
            simp only [hid, h0, hsel, hrow, if_false, Bool.false_eq_true]
          rw [hF, hP]
          exact ⟨rfl, rfl, by simp [errorResponse]⟩
        | some row =>
          by_cases hstaff : u.role = "PERSONEL" ∧ row.assigned_to ≠ some u.id
          · left
            have hP : patchTicket clk w u idParam patch =
                (errorResponse 403 "FORBIDDEN", w) := by
              unfold patchTicket; simp only [hid, h0, hrow, if_pos hstaff, if_false]
            have hF : patchTicketFaulty fails clk w u idParam patch =
                (errorResponse 403 "FORBIDDEN", w) := by
              unfold patchTicketFaulty
              simp only [hid, h0, hsel, hrow, if_pos hstaff, if_false, Bool.false_eq_true]
            rw [hF, hP]
            exact ⟨rfl, rfl, by simp [errorResponse]⟩
          · by_cases hres : u.role = "SAKIN"
            · left
              have hP : patchTicket clk w u idParam patch =
                  (errorResponse 403 "FORBIDDEN", w) := by
                unfold patchTicket
                simp only [hid, h0, hrow, if_neg hstaff, if_pos hres, if_false]
              have hF : patchTicketFaulty fails clk w u idParam patch =
                  (errorResponse 403 "FORBIDDEN", w) := by
                unfold patchTicketFaulty
                simp only [hid, h0, hsel, hrow, if_neg hstaff, if_pos hres, if_false,
                  Bool.false_eq_true]
              rw [hF, hP]
              exact ⟨rfl, rfl, by simp [errorResponse]⟩
            · cases hnext : computeNext u row patch with
              | none =>
                left
                have hP : patchTicket clk w u idParam patch =
                    (errorResponse 400 "INVALID_STATUS", w) := by
                  unfold patchTicket
                  simp only [hid, h0, hrow, hnext, if_neg hstaff, if_neg hres, if_false]
                have hF : patchTicketFaulty fails clk w u idParam patch =
                    (errorResponse 400 "INVALID_STATUS", w) := by
                  unfold patchTicketFaulty
                  simp only [hid, h0, hsel, hrow, hnext, if_neg hstaff, if_neg hres, if_false,
                    Bool.false_eq_true]
                rw [hF, hP]
                exact ⟨rfl, rfl, by simp [errorResponse]⟩
              | some n0 =>
                right; right
                refine ⟨rfl, tid, row, n0, ?_, patchTicket_pass hid h0 hrow hstaff hres hnext⟩
                unfold patchTicketFaulty
                simp only [hid, h0, hsel, hrow, hnext, if_neg hstaff, if_neg hres, if_false,
                  Bool.false_eq_true]

/-- C17 fails as stated: an administrator assigns the open ticket 7 to staff member 3, with
status ATANDI, and the INSERT of the STATUS event is rejected. The request is answered 500
SERVER_ERROR, yet the stored row carries the new assignee, status and `updated_at`, and the
ASSIGN event of the request is in the events table, which was empty before. -/
theorem patch_status_insert_rejected_keeps_update :
    (patchTicketFaulty (failAt PatchOp.insertStatus) sampleClock
      (sampleWorld sampleOpenTicket) sampleAdmin "7" (assignPatch "3")).1 =
      errorResponse 500 "SERVER_ERROR" ∧
    getTicket (sampleWorld sampleOpenTicket).db 7 = some sampleOpenTicket ∧
    getTicket (patchTicketFaulty (failAt PatchOp.insertStatus) sampleClock
      (sampleWorld sampleOpenTicket) sampleAdmin "7" (assignPatch "3")).2.db 7 =
      some { sampleOpenTicket with status := "ATANDI", assigned_to := some 3,
                                   updated_at := 1005 } ∧
    (sampleWorld sampleOpenTicket).db.events = [] ∧
    (patchTicketFaulty (failAt PatchOp.insertStatus) sampleClock
      (sampleWorld sampleOpenTicket) sampleAdmin "7" (assignPatch "3")).2.db.events.map
      (fun e => (e.ticket_id, e.type)) = [(7, "ASSIGN")] := by
  decide

/-- C17 as amended: nothing is rolled back when a statement of a PATCH is rejected, and the
statements that ran before it stay. With no rejection the request is the PATCH itself. A
request that a check rejects is left as it is, unless its first SELECT is rejected: then it
is answered 500; the state is unchanged either way. For a request that passes the checks,
take the statements it runs in the order of the source (`patchStatements`): if none of them
is rejected the request is the PATCH itself; otherwise, with `op` the first rejected one,
the answer is 500 SERVER_ERROR and no audit row is written; if `op` is the first SELECT or
the UPDATE the database is as before the request; if `op` comes later the tickets table is
the one the PATCH leaves, the row of the ticket carries the new assignee, status,
`resolved_at`, note and `updated_at`, and the events table is the previous one followed by
exactly the events of the INSERTs that precede `op`, of this ticket and in the order ASSIGN,
STATUS, COMMENT; the events the PATCH would have added after them are missing. -/
theorem patch_rejection_keeps_earlier_writes (fails : PatchOp → Bool) (clk : Nat → Nat)
    (w : World) (u : User) (idParam : String) (patch : PatchBody) :
    ((∀ op, fails op = false) →
      patchTicketFaulty fails clk w u idParam patch = patchTicket clk w u idParam patch) ∧
    ((patchTicket clk w u idParam patch).1.status ≠ 200 →
      (patchTicketFaulty fails clk w u idParam patch).2 = w ∧
      (patchTicketFaulty fails clk w u idParam patch = patchTicket clk w u idParam patch ∨
        (fails PatchOp.selectRow = true ∧
          (patchTicketFaulty fails clk w u idParam patch).1 =
            errorResponse 500 "SERVER_ERROR")) ∧
      (fails PatchOp.selectRow = false →
        patchTicketFaulty fails clk w u idParam patch =
          patchTicket clk w u idParam patch)) ∧
    ∀ (tid : Int) (row : TicketRow) (n0 : Next),
      stringToNumber idParam = JNum.int tid → tid ≠ 0 → getTicket w.db tid = some row →
      ¬ (u.role = "PERSONEL" ∧ row.assigned_to ≠ some u.id) → u.role ≠ "SAKIN" →
      computeNext u row patch = some n0 →
      ((patchStatements row (stampResolved clk w n0).1).find? fails = none →
        patchTicketFaulty fails clk w u idParam patch =
          patchTicket clk w u idParam patch) ∧
      ∀ op, (patchStatements row (stampResolved clk w n0).1).find? fails = some op →
        (patchTicketFaulty fails clk w u idParam patch).1 =
          errorResponse 500 "SERVER_ERROR" ∧
        (patchTicketFaulty fails clk w u idParam patch).2.db.audit_log = w.db.audit_log ∧
        (op = PatchOp.selectRow ∨ op = PatchOp.updateRow →
          (patchTicketFaulty fails clk w u idParam patch).2.db = w.db) ∧
        (op ≠ PatchOp.selectRow → op ≠ PatchOp.updateRow →
          (patchTicketFaulty fails clk w u idParam patch).2.db.tickets =
            (patchTicket clk w u idParam patch).2.db.tickets ∧
          getTicket (patchTicketFaulty fails clk w u idParam patch).2.db tid =
            some (updatedRow row (stampResolved clk w n0).1
              (clk (stampResolved clk w n0).2.tick)) ∧
          ∃ evs rest,
            (patchTicketFaulty fails clk w u idParam patch).2.db.events =
              w.db.events ++ evs ∧
            (patchTicket clk w u idParam patch).2.db.events =
              (patchTicketFaulty fails clk w u idParam patch).2.db.events ++ rest ∧
            evs.map (fun e => e.type) =
              ((patchStatements row (stampResolved clk w n0).1).takeWhile
                (fun o => decide (o ≠ op))).filterMap PatchOp.eventType ∧
            ∀ e ∈ evs, e.ticket_id = tid) := by
  refine ⟨fun hall => ?_, fun hne => ?_, ?_⟩
  · rcases patchTicketFaulty_cases fails clk w u idParam patch with
      ⟨hF, -, -⟩ | ⟨hsel, -⟩ | ⟨-, tid, row, n0, hF, hP⟩
    · exact hF
    · rw [hall] at hsel
      cases hsel
    · rw [hF, hP, patchCommitFaulty_exact]
      simp only [hall, Bool.and_false, Bool.false_eq_true, if_false]
  · rcases patchTicketFaulty_cases fails clk w u idParam patch with
      ⟨hF, hw, -⟩ | ⟨hsel, hF⟩ | ⟨-, tid, row, n0, -, hP⟩
    · exact ⟨by rw [hF, hw], Or.inl hF, fun _ => hF⟩
    · refine ⟨by rw [hF], Or.inr ⟨hsel, by rw [hF]⟩, fun h => ?_⟩
      rw [hsel] at h
      cases h
    · exact absurd (by rw [hP]; exact (patchCommit_spec clk w u tid row n0).1) hne
  · intro tid row n0 hid h0 hrow hstaff hres hnext
    have hP := @patchTicket_pass clk w u idParam patch tid row n0 hid h0 hrow hstaff hres hnext
    have hF := @patchTicketFaulty_pass fails clk w u idParam patch tid row n0 hid h0 hrow
      hstaff hres hnext
    have hdb := stampResolved_db clk w n0
    obtain ⟨ea, es, ec, hta, hts, htc, hids, he1, he2, he3, ht1, ht2, ht3, ha1, ha2, ha3⟩ :=
      patch_stages clk
        (updateTicket (nowISO clk (stampResolved clk w n0).2).2 tid (stampResolved clk w n0).1
          (nowISO clk (stampResolved clk w n0).2).1) u tid row (stampResolved clk w n0).1
    have hWe : (updateTicket (nowISO clk (stampResolved clk w n0).2).2 tid
        (stampResolved clk w n0).1 (nowISO clk (stampResolved clk w n0).2).1).db.events =
        w.db.events := by
      show (stampResolved clk w n0).2.db.events = _
      rw [hdb]
    have hWa : (updateTicket (nowISO clk (stampResolved clk w n0).2).2 tid
        (stampResolved clk w n0).1 (nowISO clk (stampResolved clk w n0).2).1).db.audit_log =
        w.db.audit_log := by
      show (stampResolved clk w n0).2.db.audit_log = _
      rw [hdb]
    rw [hWe] at he1 he2 he3
    rw [hWa] at ha1 ha2 ha3
    have hPt : (patchCommit clk w u tid row n0).2.db.tickets =
        (updateTicket (nowISO clk (stampResolved clk w n0).2).2 tid
          (stampResolved clk w n0).1 (nowISO clk (stampResolved clk w n0).2).1).db.tickets :=
      ht3
    have hPe : (patchCommit clk w u tid row n0).2.db.events =
        w.db.events ++ (ea ++ es ++ ec) := he3
    have hget : ∀ X : World, X.db.tickets = (patchCommit clk w u tid row n0).2.db.tickets →
        getTicket X.db tid = some (updatedRow row (stampResolved clk w n0).1
          (clk (stampResolved clk w n0).2.tick)) := by
      intro X hX
      rw [getTicket_of_tickets _ _ tid hX, (patchCommit_spec clk w u tid row n0).2.2.1, hrow]
      rfl
    obtain ⟨k0, k1, k2, k3, k4⟩ := taken_flags
      (strictNe (row.assigned_to.map JNum.int) (stampResolved clk w n0).1.assigned_to)
      (decide (row.status ≠ (stampResolved clk w n0).1.status))
      (noteChanged row (stampResolved clk w n0).1)
    rw [hF, hP, patchCommitFaulty_exact, patchStatements_flags, find_flags]
    by_cases c1 : fails PatchOp.selectRow = true
    · rw [if_pos c1, if_pos c1]
      refine ⟨(fun h => by cases h), fun op hop => ?_⟩
      cases hop
      exact ⟨rfl, rfl, fun _ => rfl, fun h _ => absurd rfl h⟩
    rw [if_neg c1, if_neg c1]
    by_cases c2 : fails PatchOp.updateRow = true
    · rw [if_pos c2, if_pos c2]
      refine ⟨(fun h => by cases h), fun op hop => ?_⟩
      cases hop
      exact ⟨rfl, by show (stampResolved clk w n0).2.db.audit_log = _; rw [hdb],
        fun _ => hdb, fun _ h => absurd rfl h⟩
    rw [if_neg c2, if_neg c2]
    by_cases c3 : fails PatchOp.selectUpdated = true
    · rw [if_pos c3, if_pos c3]
      refine ⟨(fun h => by cases h), fun op hop => ?_⟩
      cases hop
      refine ⟨rfl, hWa, (fun h => by rcases h with h | h <;> cases h), fun _ _ =>
        ⟨hPt.symm, hget _ hPt.symm, [], ea ++ es ++ ec, ?_, ?_, k0.symm, ?_⟩⟩
      · rw [List.append_nil]
        exact hWe
      · rw [hPe]
        show _ = (updateTicket _ _ _ _).db.events ++ _
        rw [hWe]
      · intro e he
        cases he
    rw [if_neg c3, if_neg c3]
    by_cases c4 : (strictNe (row.assigned_to.map JNum.int)
        (stampResolved clk w n0).1.assigned_to && fails PatchOp.insertAssign) = true
    · rw [if_pos c4, if_pos c4]
      refine ⟨(fun h => by cases h), fun op hop => ?_⟩
      cases hop
      refine ⟨rfl, hWa, (fun h => by rcases h with h | h <;> cases h), fun _ _ =>
        ⟨hPt.symm, hget _ hPt.symm, [], ea ++ es ++ ec, ?_, ?_,
          (k1 (Bool.and_eq_true_iff.mp c4).1).symm, ?_⟩⟩
      · rw [List.append_nil]
        exact hWe
      · rw [hPe]
        show _ = (updateTicket _ _ _ _).db.events ++ _
        rw [hWe]
      · intro e he
        cases he
    rw [if_neg c4, if_neg c4]
    by_cases c5 : (decide (row.status ≠ (stampResolved clk w n0).1.status) &&
        fails PatchOp.insertStatus) = true
    · rw [if_pos c5, if_pos c5]
      refine ⟨(fun h => by cases h), fun op hop => ?_⟩
      cases hop
      refine ⟨rfl, ha1, (fun h => by rcases h with h | h <;> cases h), fun _ _ =>
        ⟨ht1.trans hPt.symm, hget _ (ht1.trans hPt.symm), ea, es ++ ec, he1, ?_,
          hta.trans (k2 (Bool.and_eq_true_iff.mp c5).1).symm, ?_⟩⟩
      · rw [hPe]
        show _ = (assignEvent _ _ _ _ _ _).db.events ++ _
        rw [he1, List.append_assoc, List.append_assoc]
      · intro e he
        exact hids e (by simp [he])
    rw [if_neg c5, if_neg c5]
    by_cases c6 : (noteChanged row (stampResolved clk w n0).1 &&
        fails PatchOp.insertComment) = true
    · rw [if_pos c6, if_pos c6]
      refine ⟨(fun h => by cases h), fun op hop => ?_⟩
      cases hop
      refine ⟨rfl, ha2, (fun h => by rcases h with h | h <;> cases h), fun _ _ =>
        ⟨ht2.trans hPt.symm, hget _ (ht2.trans hPt.symm), ea ++ es, ec, he2, ?_, ?_, ?_⟩⟩
      · rw [hPe]
        show _ = (statusEvent _ _ _ _ _ _).db.events ++ _
        rw [he2]
        simp only [List.append_assoc]
      · rw [List.map_append, hta, hts]
        exact (k3 (Bool.and_eq_true_iff.mp c6).1).symm
      · intro e he
        exact hids e (List.mem_append_left _ he)
    rw [if_neg c6, if_neg c6]
    by_cases c7 : fails PatchOp.insertAudit = true
    · rw [if_pos c7, if_pos c7]
      refine ⟨(fun h => by cases h), fun op hop => ?_⟩
      cases hop
      refine ⟨rfl, ha3, (fun h => by rcases h with h | h <;> cases h), fun _ _ =>
        ⟨rfl, hget _ rfl, ea ++ es ++ ec, [], hPe, ?_, ?_, hids⟩⟩
      · rw [List.append_nil]
        rfl
      · rw [List.map_append, List.map_append, hta, hts, htc]
        exact k4.symm
    rw [if_neg c7, if_neg c7]
    exact ⟨fun _ => rfl, fun op hop => by cases hop⟩

/-- Witness of C17 as amended: the INSERT of the STATUS event of the sample assignment is
the first rejected statement; the answer is 500 SERVER_ERROR and the stored row is the
updated one. -/
theorem patch_rejection_keeps_earlier_writes_witness :
    (patchTicketFaulty (failAt PatchOp.insertStatus) sampleClock
      (sampleWorld sampleOpenTicket) sampleAdmin "7" (assignPatch "3")).1 =
      errorResponse 500 "SERVER_ERROR" ∧
    getTicket (patchTicketFaulty (failAt PatchOp.insertStatus) sampleClock
      (sampleWorld sampleOpenTicket) sampleAdmin "7" (assignPatch "3")).2.db 7 =
      some (updatedRow sampleOpenTicket
        (stampResolved sampleClock (sampleWorld sampleOpenTicket)
          { assigned_to := some (JNum.int 3), status := "ATANDI", resolved_at := none,
            resolved_note := none }).1
        (sampleClock (stampResolved sampleClock (sampleWorld sampleOpenTicket)
          { assigned_to := some (JNum.int 3), status := "ATANDI", resolved_at := none,
            resolved_note := none }).2.tick)) :=
  ⟨(((patch_rejection_keeps_earlier_writes (failAt PatchOp.insertStatus) sampleClock
      (sampleWorld sampleOpenTicket) sampleAdmin "7" (assignPatch "3")).2.2 7 sampleOpenTicket
      { assigned_to := some (JNum.int 3), status := "ATANDI", resolved_at := none,
        resolved_note := none }
      (by decide) (by decide) (by decide) (by decide) (by decide) (by decide)).2
      PatchOp.insertStatus (by decide)).1,
   ((((patch_rejection_keeps_earlier_writes (failAt PatchOp.insertStatus) sampleClock
      (sampleWorld sampleOpenTicket) sampleAdmin "7" (assignPatch "3")).2.2 7 sampleOpenTicket
      { assigned_to := some (JNum.int 3), status := "ATANDI", resolved_at := none,
        resolved_note := none }
      (by decide) (by decide) (by decide) (by decide) (by decide) (by decide)).2
      PatchOp.insertStatus (by decide)).2.2.2 (by decide) (by decide)).2.1⟩


/-! ## C18: the order of store writes and broadcasts -/

theorem addEvent_trace (clk : Nat → Nat) (w : World) (t a : Int) (ty m : String) :
    (addEvent clk w t a ty m).2.trace = w.trace ++ [Effect.write "events"] := rfl

theorem addAudit_trace (clk : Nat → Nat) (w : World) (a : String) (u : Int)
    (m : Option String) :
    (addAudit clk w a u m).trace = w.trace ++ [Effect.write "audit_log"] := rfl

theorem assignEvent_trace (clk : Nat → Nat) (w : World) (u : User) (t : Int)
    (row : TicketRow) (n : Next) :
    ∃ k, k ≤ 1 ∧ (assignEvent clk w u t row n).db.events.length = w.db.events.length + k ∧
      (assignEvent clk w u t row n).trace = w.trace ++
        (List.replicate k [Effect.write "events", Effect.emit "event:created"]).flatten := by
  unfold assignEvent
  split
  · exact ⟨1, le_refl 1, by simp [addEvent, nowISO, ioEmit], by simp [addEvent, nowISO, ioEmit]⟩
  · exact ⟨0, by omega, rfl, by simp⟩

theorem statusEvent_trace (clk : Nat → Nat) (w : World) (u : User) (t : Int)
    (row : TicketRow) (n : Next) :
    ∃ k, k ≤ 1 ∧ (statusEvent clk w u t row n).db.events.length = w.db.events.length + k ∧
      (statusEvent clk w u t row n).trace = w.trace ++
        (List.replicate k [Effect.write "events", Effect.emit "event:created"]).flatten := by
  unfold statusEvent
  split
  · exact ⟨1, le_refl 1, by simp [addEvent, nowISO, ioEmit], by simp [addEvent, nowISO, ioEmit]⟩
  · exact ⟨0, by omega, rfl, by simp⟩

theorem commentEvent_trace (clk : Nat → Nat) (w : World) (u : User) (t : Int)
    (row : TicketRow) (n : Next) :
    ∃ k, k ≤ 1 ∧ (commentEvent clk w u t row n).db.events.length = w.db.events.length + k ∧
      (commentEvent clk w u t row n).trace = w.trace ++
        (List.replicate k [Effect.write "events", Effect.emit "event:created"]).flatten := by
  unfold commentEvent
  split
  · exact ⟨1, le_refl 1, by simp [addEvent, nowISO, ioEmit], by simp [addEvent, nowISO, ioEmit]⟩
  · exact ⟨0, by omega, rfl, by simp⟩

theorem replicate_flatten_add {α : Type} (a b : Nat) (l : List α) :
    (List.replicate a l).flatten ++ (List.replicate b l).flatten =
      (List.replicate (a + b) l).flatten := by
  rw [List.replicate_add, List.flatten_append]

theorem patchEvents_trace (clk : Nat → Nat) (w : World) (u : User) (t : Int)
    (row : TicketRow) (n : Next) :
    ∃ k, k ≤ 3 ∧ (patchEvents clk w u t row n).db.events.length = w.db.events.length + k ∧
      (patchEvents clk w u t row n).trace = w.trace ++
        (List.replicate k [Effect.write "events", Effect.emit "event:created"]).flatten := by
  unfold patchEvents
  obtain ⟨a, ha, hla, hta⟩ := assignEvent_trace clk w u t row n
  obtain ⟨b, hb, hlb, htb⟩ := statusEvent_trace clk (assignEvent clk w u t row n) u t row n
  obtain ⟨c, hc, hlc, htc⟩ :=
    commentEvent_trace clk (statusEvent clk (assignEvent clk w u t row n) u t row n) u t row n
  refine ⟨a + b + c, by omega, by omega, ?_⟩
  rw [htc, htb, hta, List.append_assoc, List.append_assoc, replicate_flatten_add,
    replicate_flatten_add, Nat.add_assoc]

theorem patchCommit_trace (clk : Nat → Nat) (w : World) (u : User) (tid : Int)
    (row : TicketRow) (n0 : Next) :
    ∃ k, k ≤ 3 ∧
      (patchCommit clk w u tid row n0).2.db.events.length = w.db.events.length + k ∧
      (patchCommit clk w u tid row n0).2.trace = w.trace ++
        (Effect.write "tickets" ::
          (List.replicate k [Effect.write "events", Effect.emit "event:created"]).flatten ++
          [Effect.emit "ticket:updated", Effect.write "audit_log"]) := by
  obtain ⟨k, hk, hl, ht⟩ :=
    patchEvents_trace clk
      (updateTicket (nowISO clk (stampResolved clk w n0).2).2 tid (stampResolved clk w n0).1
        (nowISO clk (stampResolved clk w n0).2).1) u tid row (stampResolved clk w n0).1
  have htr : (stampResolved clk w n0).2.trace = w.trace := by
    unfold stampResolved nowISO; split <;> rfl
  have hdb := stampResolved_db clk w n0
  refine ⟨k, hk, ?_, ?_⟩
  · show (patchEvents clk _ u tid row _).db.events.length = _
    rw [hl]
    show (stampResolved clk w n0).2.db.events.length + k = _
    rw [hdb]
  · show (patchEvents clk _ u tid row _).trace ++ [Effect.emit "ticket:updated"] ++
      [Effect.write "audit_log"] = _
    rw [ht]
    show (stampResolved clk w n0).2.trace ++ [Effect.write "tickets"] ++ _ ++ _ ++ _ = _
    rw [htr]
    simp

theorem writeAfterEmit_tail (l : List Effect) (a b : String) :
    writeAfterEmit (l ++ [Effect.emit a, Effect.write b]) = true := by
  induction l with
  | nil => simp [writeAfterEmit]
  | cons e l ih =>
    cases e with
    | write t => simpa [writeAfterEmit] using ih
    | emit t =>
      rw [List.cons_append]
      unfold writeAfterEmit
      rw [ih, Bool.or_true]

theorem drop_append_self {α : Type} (l r : List α) : (l ++ r).drop l.length = r := by
  simp

/-- C18 fails as stated: an administrator assigns the open ticket 7 to staff member 3 with
status ATANDI. The request is accepted and its effects are, in order, the ticket UPDATE, the
INSERT of the ASSIGN event, a broadcast of `event:created`, the INSERT of the STATUS event,
a second `event:created`, `ticket:updated` and the audit INSERT: the first broadcast is
followed by two store writes and the last broadcast by the audit INSERT. -/
theorem patch_broadcasts_before_last_write :
    (patchTicket sampleClock (sampleWorld sampleOpenTicket) sampleAdmin "7"
      (assignPatch "3")).1.status = 200 ∧
    (sampleWorld sampleOpenTicket).trace = [] ∧
    (patchTicket sampleClock (sampleWorld sampleOpenTicket) sampleAdmin "7"
      (assignPatch "3")).2.trace =
      [Effect.write "tickets", Effect.write "events", Effect.emit "event:created",
       Effect.write "events", Effect.emit "event:created", Effect.emit "ticket:updated",
       Effect.write "audit_log"] ∧
    writeAfterEmit (patchTicket sampleClock (sampleWorld sampleOpenTicket) sampleAdmin "7"
      (assignPatch "3")).2.trace = true := by
  decide

/-- C18 as amended: a broadcast follows the write of what it announces and not the last
write of the request. An accepted creation produces, in order, the ticket INSERT, the UPDATE
of the ticket number, the event INSERT, `event:created`, `ticket:created` and the audit
INSERT. An accepted PATCH produces the ticket UPDATE, then for each of its at most three
events the event INSERT followed by `event:created`, then `ticket:updated` and the audit
INSERT. An accepted deletion produces the DELETE, `ticket:deleted` and the audit INSERT. A
request that is not accepted produces no effect. So in every accepted request a store write
(the audit INSERT) follows the broadcasts. -/
theorem broadcast_follows_own_write_only (clk : Nat → Nat) (w : World) (u : User) :
    (∀ body : CreateBody,
      ((createTicket clk w u body).1.status = 200 →
        (createTicket clk w u body).2.trace = w.trace ++
          [Effect.write "tickets", Effect.write "tickets", Effect.write "events",
           Effect.emit "event:created", Effect.emit "ticket:created",
           Effect.write "audit_log"] ∧
        writeAfterEmit ((createTicket clk w u body).2.trace.drop w.trace.length) = true) ∧
      ((createTicket clk w u body).1.status ≠ 200 →
        (createTicket clk w u body).2.trace = w.trace)) ∧
    (∀ (idParam : String) (patch : PatchBody),
      ((patchTicket clk w u idParam patch).1.status = 200 →
        (∃ k, k ≤ 3 ∧
          (patchTicket clk w u idParam patch).2.db.events.length = w.db.events.length + k ∧
          (patchTicket clk w u idParam patch).2.trace = w.trace ++
            (Effect.write "tickets" ::
              (List.replicate k
                [Effect.write "events", Effect.emit "event:created"]).flatten ++
              [Effect.emit "ticket:updated", Effect.write "audit_log"])) ∧
        writeAfterEmit ((patchTicket clk w u idParam patch).2.trace.drop w.trace.length) =
          true) ∧
      ((patchTicket clk w u idParam patch).1.status ≠ 200 →
        (patchTicket clk w u idParam patch).2.trace = w.trace)) ∧
    (∀ idParam : String,
      ((deleteTicket clk w u idParam).1.status = 200 →
        (deleteTicket clk w u idParam).2.trace = w.trace ++
          [Effect.write "tickets", Effect.emit "ticket:deleted", Effect.write "audit_log"] ∧
        writeAfterEmit ((deleteTicket clk w u idParam).2.trace.drop w.trace.length) = true) ∧
      ((deleteTicket clk w u idParam).1.status ≠ 200 →
        (deleteTicket clk w u idParam).2.trace = w.trace)) := by
  refine ⟨fun body => ?_, fun idParam patch => ?_, fun idParam => ?_⟩
  · rcases createTicket_cases clk w u body with ⟨c, code, hc, he⟩ | ⟨-, he⟩
    · rw [he]
      exact ⟨fun h => absurd h hc, fun _ => rfl⟩
    · rw [he]
      have ht : (createCommit clk w u body).2.trace = w.trace ++
          [Effect.write "tickets", Effect.write "tickets", Effect.write "events",
           Effect.emit "event:created", Effect.emit "ticket:created",
           Effect.write "audit_log"] := by
        simp [createCommit, addAudit, addEvent, nowISO, ioEmit, setTicketNo, insertTicket]
      refine ⟨fun _ => ⟨ht, ?_⟩, fun h => absurd rfl h⟩
      rw [ht, drop_append_self]
      rfl
  · rcases patchTicket_cases clk w u idParam patch with
      ⟨c, code, hc, he⟩ | ⟨tid, row, n0, -, -, -, -, -, -, he⟩
    · rw [he]
      exact ⟨fun h => absurd h hc, fun _ => rfl⟩
    · rw [he]
      obtain ⟨k, hk, hl, ht⟩ := patchCommit_trace clk w u tid row n0
      refine ⟨fun _ => ⟨⟨k, hk, hl, ht⟩, ?_⟩, fun h => absurd rfl h⟩
      rw [ht, drop_append_self]
      exact writeAfterEmit_tail (Effect.write "tickets" ::
        (List.replicate k [Effect.write "events", Effect.emit "event:created"]).flatten)
        "ticket:updated" "audit_log"
  · rcases deleteTicket_cases clk w u idParam with
      ⟨c, code, hc, he⟩ | ⟨tid, row, -, -, -, -, -, -, he⟩
    · rw [he]
      exact ⟨fun h => absurd h hc, fun _ => rfl⟩
    · rw [he]
      have ht : (deleteCommit clk w u tid).2.trace = w.trace ++
          [Effect.write "tickets", Effect.emit "ticket:deleted", Effect.write "audit_log"] := by
        simp [deleteCommit, addAudit, nowISO, ioEmit]
      refine ⟨fun _ => ⟨ht, ?_⟩, fun h => absurd rfl h⟩
      rw [ht, drop_append_self]
      rfl

/-- Witness of C18 as amended: the resident files the sample ticket in the empty state. -/
theorem broadcast_follows_own_write_only_witness :
    (createTicket sampleClock emptyWorld sampleResident sampleCreateBody).2.trace =
      emptyWorld.trace ++
        [Effect.write "tickets", Effect.write "tickets", Effect.write "events",
         Effect.emit "event:created", Effect.emit "ticket:created",
         Effect.write "audit_log"] :=
  (((broadcast_follows_own_write_only sampleClock emptyWorld sampleResident).1
    sampleCreateBody).1 (by decide)).1


/-! ## C21: NOT_FOUND before the ownership checks -/

theorem requireRole_resident (u : User) (h : u.role = "SAKIN") :
    requireRole ["SAKIN"] u = true := by
  simp [requireRole, h]

/-- C21 fails as stated: a resident posts to the attachments of ticket 99, which is not
stored, without a file. The answer is 400 NO_FILE, not NOT_FOUND: the handler looks for the
file before it reads the ticket. -/
theorem upload_without_file_not_found_skipped :
    getTicket (sampleWorld sampleOpenTicket).db 99 = none ∧
    stringToNumber "99" = JNum.int 99 ∧
    (uploadAttachment sampleClock (sampleWorld sampleOpenTicket) sampleResident "99" none).1 =
      errorResponse 400 "NO_FILE" ∧
    (uploadAttachment sampleClock (sampleWorld sampleOpenTicket) sampleResident "99" none).1 ≠
      errorResponse 404 "NOT_FOUND" := by
  decide

/-- C21 as amended: for a non-zero id `tid` that names no stored ticket, PATCH (any role),
the timeline, the attachment list and an upload that carries a file answer 404 NOT_FOUND,
and so do, for a resident, DELETE and a rating whose fields pass the checks; an upload
without a file answers 400 NO_FILE; none of them answers FORBIDDEN and the state is
unchanged. For a stored ticket, PATCH by a staff member it is not assigned to or by a
resident, the timeline, the attachment list and an upload with a file by a caller that
`canAccessTicket` refuses (role SAKIN, PERSONEL or YONETICI for the timeline), and DELETE or
a rating with valid fields by a resident who did not create it, answer 403 FORBIDDEN. -/
theorem not_found_before_ownership (clk : Nat → Nat) (w : World) (u : User)
    (idParam : String) (q : Option JVal) (tid : Int)
    (hid : stringToNumber idParam = JNum.int tid) (hq : optNumber q = JNum.int tid)
    (h0 : tid ≠ 0) :
    (getTicket w.db tid = none →
      (∀ patch, patchTicket clk w u idParam patch = (errorResponse 404 "NOT_FOUND", w)) ∧
      listEvents w u q = (errorResponse 404 "NOT_FOUND", w) ∧
      listAttachments w u idParam = (errorResponse 404 "NOT_FOUND", w) ∧
      (∀ file, uploadAttachment clk w u idParam (some file) =
        (errorResponse 404 "NOT_FOUND", w)) ∧
      uploadAttachment clk w u idParam none = (errorResponse 400 "NO_FILE", w) ∧
      (u.role = "SAKIN" →
        deleteTicket clk w u idParam = (errorResponse 404 "NOT_FOUND", w) ∧
        ∀ body : RatingBody, optNumber body.ticketId = JNum.int tid →
          optTruthy body.stars = true → (optNumber body.stars).ltInt 1 = false →
          (optNumber body.stars).gtInt 5 = false →
          rateTicket clk w u body = (errorResponse 404 "NOT_FOUND", w))) ∧
    (∀ ticket, getTicket w.db tid = some ticket →
      (u.role = "PERSONEL" ∧ ticket.assigned_to ≠ some u.id ∨ u.role = "SAKIN" →
        ∀ patch, patchTicket clk w u idParam patch = (errorResponse 403 "FORBIDDEN", w)) ∧
      (canAccessTicket (some u) (some ticket) = false →
        (u.role = "SAKIN" ∨ u.role = "PERSONEL" ∨ u.role = "YONETICI" →
          listEvents w u q = (errorResponse 403 "FORBIDDEN", w)) ∧
        listAttachments w u idParam = (errorResponse 403 "FORBIDDEN", w) ∧
        ∀ file, uploadAttachment clk w u idParam (some file) =
          (errorResponse 403 "FORBIDDEN", w)) ∧
      (u.role = "SAKIN" → ticket.created_by ≠ u.id →
        deleteTicket clk w u idParam = (errorResponse 403 "FORBIDDEN", w) ∧
        ∀ body : RatingBody, optNumber body.ticketId = JNum.int tid →
          optTruthy body.stars = true → (optNumber body.stars).ltInt 1 = false →
          (optNumber body.stars).gtInt 5 = false →
          rateTicket clk w u body = (errorResponse 403 "FORBIDDEN", w))) := by
  have hrate : ∀ body : RatingBody, u.role = "SAKIN" →
      optNumber body.ticketId = JNum.int tid →
      optTruthy body.stars = true → (optNumber body.stars).ltInt 1 = false →
      (optNumber body.stars).gtInt 5 = false →
      rateTicket clk w u body =
        (match getTicket w.db tid with
        | none => (errorResponse 404 "NOT_FOUND", w)
        | some ticket =>
          if ticket.created_by ≠ u.id then (errorResponse 403 "FORBIDDEN", w)
          else if ticket.status ∉ ["COZULDU", "KAPANDI"] then
            (errorResponse 400 "NOT_RESOLVED", w)
          else rateCommit clk w u tid (optNumber body.stars) (stringOr body.note "")) := by
    intro body hrole htid hst hlt hgt
    unfold rateTicket
    rw [if_neg (not_not.mpr (requireRole_resident u hrole)), if_neg, if_neg]
    · simp only [htid]
      try rfl
    · simp [hlt, hgt]
    · rw [htid]
      simp [JNum.truthy, h0, hst]
  have hdel : u.role = "SAKIN" → deleteTicket clk w u idParam =
      (match getTicket w.db tid with
      | none => (errorResponse 404 "NOT_FOUND", w)
      | some row =>
        if row.created_by ≠ u.id then (errorResponse 403 "FORBIDDEN", w)
        else if row.status ∈ ["COZULDU", "KAPANDI"] then
          (errorResponse 400 "CANNOT_DELETE", w)
        else deleteCommit clk w u tid) := by
    intro hrole
    unfold deleteTicket
    rw [if_neg (not_not.mpr (requireRole_resident u hrole))]
    simp only [hid, if_neg h0]
    try rfl
  constructor
  · intro hnone
    refine ⟨fun patch => ?_, ?_, ?_, fun file => ?_, ?_, fun hrole => ⟨?_, ?_⟩⟩
    · unfold patchTicket
      simp only [hid, if_neg h0, hnone]
    · unfold listEvents
      simp only [hq, if_neg h0, hnone]
    · unfold listAttachments
      simp only [hid, if_neg h0, hnone]
    · unfold uploadAttachment
      simp only [hid, if_neg h0, hnone]
    · unfold uploadAttachment
      simp only [hid, if_neg h0]
    · rw [hdel hrole, hnone]
    · intro body htid hst hlt hgt
      rw [hrate body hrole htid hst hlt hgt, hnone]
  · intro ticket hrow
    refine ⟨fun hv patch => ?_, fun hacc => ⟨fun hrole => ?_, ?_, fun file => ?_⟩,
      fun hrole hne => ⟨?_, ?_⟩⟩
    · unfold patchTicket
      simp only [hid, if_neg h0, hrow]
      rcases hv with hv | hv
      · rw [if_pos hv]
      · by_cases hs : u.role = "PERSONEL" ∧ ticket.assigned_to ≠ some u.id
        · rw [if_pos hs]
        · rw [if_neg hs, if_pos hv]
    · exact listEvents_of_no_access w u q tid ticket hq h0 hrow hrole hacc
    · unfold listAttachments
      simp only [hid, if_neg h0, hrow, hacc]
      simp
    · unfold uploadAttachment
      simp only [hid, if_neg h0, hrow, hacc]
      simp
    · rw [hdel hrole, hrow]
      simp only [if_pos hne]
    · intro body htid hst hlt hgt
      rw [hrate body hrole htid hst hlt hgt, hrow]
      simp only [if_pos hne]

/-- Witness of C21 as amended: the administrator sends a PATCH for ticket 99, which is not
stored. -/
theorem not_found_before_ownership_witness :
    patchTicket sampleClock (sampleWorld sampleOpenTicket) sampleAdmin "99" (assignPatch "3") =
      (errorResponse 404 "NOT_FOUND", sampleWorld sampleOpenTicket) :=
  ((not_found_before_ownership sampleClock (sampleWorld sampleOpenTicket) sampleAdmin "99"
    (some (JVal.str "99")) 99 (by decide) (by decide) (by decide)).1 (by decide)).1
    (assignPatch "3")


/-! ## The rows one request leaves in `tickets` -/

theorem patchCommit_stamp_lt (clk : Nat → Nat) (w : World) (u : User) (tid : Int)
    (row : TicketRow) (n0 : Next) :
    (stampResolved clk w n0).2.tick < (patchCommit clk w u tid row n0).2.tick := by
  have h2 := patchEvents_tick_le clk
      (updateTicket (nowISO clk (stampResolved clk w n0).2).2 tid (stampResolved clk w n0).1
        (nowISO clk (stampResolved clk w n0).2).1) u tid row (stampResolved clk w n0).1
  show _ < (patchEvents clk _ u tid row _).tick + 1
  have h3 : (updateTicket (nowISO clk (stampResolved clk w n0).2).2 tid
      (stampResolved clk w n0).1 (nowISO clk (stampResolved clk w n0).2).1).tick =
      (stampResolved clk w n0).2.tick + 1 := rfl
  omega

/-- Every row stored after a request was stored before it, or is the row of an accepted
creation, or is a stored row rewritten by the UPDATE of an accepted PATCH. -/
theorem serve_rows (clk : Nat → Nat) (w : World) (r : Request) :
    w.tick ≤ (serve clk w r).tick ∧
    ∀ t ∈ (serve clk w r).db.tickets,
      t ∈ w.db.tickets ∨
      (∃ u body, r = Request.create u body ∧ t = createdRow clk w u body ∧
        w.tick < (serve clk w r).tick) ∨
      (∃ u idParam patch tid row n0, r = Request.patch u idParam patch ∧
        stringToNumber idParam = JNum.int tid ∧ getTicket w.db tid = some row ∧
        computeNext u row patch = some n0 ∧
        patchTicket clk w u idParam patch = patchCommit clk w u tid row n0 ∧
        (stampResolved clk w n0).2.tick < (serve clk w r).tick ∧
        ∃ t0 ∈ w.db.tickets, t0.id = tid ∧
          t = updatedRow t0 (stampResolved clk w n0).1
            (clk (stampResolved clk w n0).2.tick)) := by
  cases r with
  | create u body =>
    rw [show serve clk w (Request.create u body) = (createTicket clk w u body).2 from rfl]
    rcases createTicket_cases clk w u body with ⟨c, code, -, he⟩ | ⟨-, he⟩
    · rw [he]
      exact ⟨Nat.le_refl _, fun t ht => Or.inl ht⟩
    · rw [he]
      have htick := (createCommit_spec clk w u body).2.1
      have htk := (createCommit_stored clk w u body).1
      refine ⟨by omega, fun t ht => ?_⟩
      rw [htk] at ht
      rcases List.mem_append.mp ht with h | h
      · exact Or.inl h
      · rw [List.mem_singleton] at h
        exact Or.inr (Or.inl ⟨u, body, rfl, h, by omega⟩)
  | patch u idParam patch =>
    rw [show serve clk w (Request.patch u idParam patch) =
      (patchTicket clk w u idParam patch).2 from rfl]
    rcases patchTicket_cases clk w u idParam patch with
      ⟨c, code, -, he⟩ | ⟨tid, row, n0, hid, -, hrow, -, -, hnext, he⟩
    · rw [he]
      exact ⟨Nat.le_refl _, fun t ht => Or.inl ht⟩
    · refine ⟨patchTicket_tick_le clk w u idParam patch, fun t ht => ?_⟩
      rw [he, (patchCommit_spec clk w u tid row n0).2.1] at ht
      obtain ⟨t0, ht0, rfl⟩ := List.mem_map.mp ht
      by_cases h : t0.id = tid
      · right; right
        refine ⟨u, idParam, patch, tid, row, n0, rfl, hid, hrow, hnext, he, ?_, t0, ht0, h, ?_⟩
        · rw [he]
          exact patchCommit_stamp_lt clk w u tid row n0
        · rw [if_pos h]
      · left
        rw [if_neg h]
        exact ht0
  | delete u idParam =>
    rw [show serve clk w (Request.delete u idParam) =
      (deleteTicket clk w u idParam).2 from rfl]
    rcases deleteTicket_cases clk w u idParam with
      ⟨c, code, -, he⟩ | ⟨tid, row, -, -, -, -, -, -, he⟩
    · rw [he]
      exact ⟨Nat.le_refl _, fun t ht => Or.inl ht⟩
    · rw [he]
      obtain ⟨-, htk, -, htick⟩ := deleteCommit_spec clk w u tid
      rw [htk, htick]
      exact ⟨by omega, fun t ht => Or.inl (List.mem_of_mem_filter ht)⟩
  | readClock =>
    exact ⟨Nat.le_succ _, fun t ht => Or.inl ht⟩
  | rate u body =>
    rw [show serve clk w (Request.rate u body) = (rateTicket clk w u body).2 from rfl]
    obtain ⟨htk, -, htick⟩ := rateTicket_frame clk w u body
    rw [htk]
    exact ⟨htick, fun t ht => Or.inl ht⟩
  | attach u idParam file =>
    rw [show serve clk w (Request.attach u idParam file) =
      (uploadAttachment clk w u idParam file).2 from rfl]
    obtain ⟨htk, -, htick⟩ := uploadAttachment_frame clk w u idParam file
    rw [htk]
    exact ⟨htick, fun t ht => Or.inl ht⟩
  | updateUser u idParam body =>
    rw [show serve clk w (Request.updateUser u idParam body) =
      (patchUser clk w u idParam body).2 from rfl]
    obtain ⟨htk, -, htick⟩ := patchUser_frame clk w u idParam body
    rw [htk]
    exact ⟨htick, fun t ht => Or.inl ht⟩


/-! ## C22: statuses and priorities -/

theorem staffFields_status (row : TicketRow) (patch : PatchBody) (n n0 : Next)
    (h : staffFields row patch n = some n0) :
    n0.status = n.status ∨ n0.status ∈ ["INCELEMEDE", "COZULDU"] := by
  unfold staffFields at h
  cases h2 : patch.status with
  | none =>
    cases h3 : patch.resolvedNote <;> simp only [h2, h3] at h <;>
      (injection h with h; rw [← h]; left; rfl)
  | some v =>
    by_cases hd : stringOr (some v) row.status ∈ ["INCELEMEDE", "COZULDU"]
    · cases h3 : patch.resolvedNote <;> simp only [h2, h3, if_pos hd] at h <;>
        (injection h with h; rw [← h]; right; exact hd)
    · simp only [h2, if_neg hd] at h
      exact absurd h (by simp)

/-- The status a PATCH is about to store is the stored one, one of the two a staff member
may set, or the text of a truthy status an administrator supplied. -/
theorem computeNext_status (u : User) (row : TicketRow) (patch : PatchBody) (n0 : Next)
    (h : computeNext u row patch = some n0) :
    n0.status = row.status ∨ n0.status ∈ ["INCELEMEDE", "COZULDU"] ∨
      (u.role = "YONETICI" ∧ ∃ v, patch.status = some v ∧ v.truthy = true ∧
        n0.status = jsString v) := by
  by_cases ha : u.role = "YONETICI"
  · rw [computeNext_admin u row patch ha] at h
    injection h with h
    rw [← h, adminFields_status]
    cases hs : patch.status with
    | none => left; rfl
    | some v =>
      cases hv : v.truthy with
      | true =>
        right; right
        exact ⟨ha, v, rfl, hv, by simp [stringOr, hv]⟩
      | false => left; simp [stringOr, hv]
  · by_cases hp : u.role = "PERSONEL"
    · rw [computeNext_staff u row patch hp] at h
      rcases staffFields_status row patch _ n0 h with h1 | h1
      · left; rw [h1]; rfl
      · right; left; exact h1
    · left
      unfold computeNext at h
      simp only [ha, hp, if_false] at h
      injection h with h
      rw [← h]; rfl

theorem serve_modelValues (clk : Nat → Nat) (w : World) (r : Request)
    (hr : r.modelValues = true)
    (hinv : ∀ t ∈ w.db.tickets, t.status ∈ ticketStatuses ∧ t.priority ∈ ticketPriorities) :
    ∀ t ∈ (serve clk w r).db.tickets,
      t.status ∈ ticketStatuses ∧ t.priority ∈ ticketPriorities := by
  intro t ht
  rcases (serve_rows clk w r).2 t ht with h | ⟨u, body, hreq, rfl, -⟩ |
    ⟨u, idParam, patch, tid, row, n0, hreq, -, hrow, hnext, -, -, t0, ht0, -, rfl⟩
  · exact hinv t h
  · rw [hreq] at hr
    refine ⟨?_, ?_⟩
    · show "ACIK" ∈ ticketStatuses
      decide
    · simpa [Request.modelValues] using hr
  · rw [hreq] at hr
    refine ⟨?_, (hinv t0 ht0).2⟩
    show (stampResolved clk w n0).1.status ∈ ticketStatuses
    rw [stampResolved_status]
    rcases computeNext_status u row patch n0 hnext with h | h | ⟨ha, v, hv, hvt, hs⟩
    · rw [h]
      exact (hinv row (mem_of_getTicket hrow).1).1
    · rcases List.mem_cons.mp h with h | h
      · rw [h]; decide
      · rw [List.mem_singleton] at h
        rw [h]; decide
    · rw [hs]
      simpa [Request.modelValues, hv, ha, hvt] using hr

theorem serveAll_modelValues (clk : Nat → Nat) (rs : List Request) (w : World)
    (hr : ∀ r ∈ rs, r.modelValues = true)
    (hinv : ∀ t ∈ w.db.tickets, t.status ∈ ticketStatuses ∧ t.priority ∈ ticketPriorities) :
    ∀ t ∈ (serveAll clk w rs).db.tickets,
      t.status ∈ ticketStatuses ∧ t.priority ∈ ticketPriorities := by
  induction rs generalizing w with
  | nil => exact hinv
  | cons r rs ih =>
    exact ih (serve clk w r) (fun r' hr' => hr r' (List.mem_cons_of_mem _ hr'))
      (serve_modelValues clk w r (hr r (List.mem_cons_self _ _)) hinv)

/-- C22 fails as stated: from the empty store a resident files a ticket with priority
"PEMBE" and an administrator sends a PATCH with status "BEKLEMEDE". Both requests are
accepted and the stored ticket has that status and that priority, neither of which is in
the sets of the data model. -/
theorem unchecked_status_and_priority_stored :
    (serveAll sampleClock emptyWorld
      [Request.create sampleResident
        { category := some (JVal.str "Su"), title := some (JVal.str "Leak"),
          description := some (JVal.str "Kitchen leak"),
          priority := some (JVal.str "PEMBE") },
       Request.patch sampleAdmin "1" { status := some (JVal.str "BEKLEMEDE") }]).db.tickets.map
      (fun t => (t.id, t.status, t.priority)) = [(1, "BEKLEMEDE", "PEMBE")] ∧
    "BEKLEMEDE" ∉ ticketStatuses ∧ "PEMBE" ∉ ticketPriorities := by
  decide

/-- C22 as amended: the server stores the priority of a creation and the status an
administrator supplies without checking them. In a state reached from the empty store by
requests in which every creation carries one of the four priorities and every truthy status
supplied by an administrator is one of the six statuses (a PATCH by another role may carry
any body), every stored ticket has one of the six statuses and one of the four
priorities. -/
theorem status_priority_in_model (clk : Nat → Nat) (rs : List Request)
    (hr : ∀ r ∈ rs, r.modelValues = true) :
    ∀ t ∈ (serveAll clk emptyWorld rs).db.tickets,
      t.status ∈ ticketStatuses ∧ t.priority ∈ ticketPriorities :=
  serveAll_modelValues clk rs emptyWorld hr (by intro t ht; cases ht)

/-- Witness of C22 as amended: the ticket stored after the requests of `sampleHistory`. -/
theorem status_priority_in_model_witness :
    ({ sampleHistoryResolved with status := "ATANDI", updated_at := 1004,
                                  resolved_at := none } : TicketRow).status ∈
      ticketStatuses ∧
    ({ sampleHistoryResolved with status := "ATANDI", updated_at := 1004,
                                  resolved_at := none } : TicketRow).priority ∈
      ticketPriorities :=
  status_priority_in_model sampleClock sampleHistory (by decide)
    { sampleHistoryResolved with status := "ATANDI", updated_at := 1004,
                                 resolved_at := none } (by decide)


/-! ## C23: fields absent from the body, and the assignee under a staff PATCH -/

theorem adminFields_note (row : TicketRow) (patch : PatchBody) (n : Next) :
    (adminFields row patch n).resolved_note =
      match patch.resolvedNote with
      | some v => some (stringOr (some v) "")
      | none => n.resolved_note := by
  unfold adminFields
  cases patch.assignedTo <;> cases patch.status <;> cases patch.resolvedNote <;> rfl

theorem staffFields_fields (row : TicketRow) (patch : PatchBody) (n n0 : Next)
    (h : staffFields row patch n = some n0) :
    n0.assigned_to = n.assigned_to ∧ (patch.status = none → n0.status = n.status) ∧
    (patch.resolvedNote = none → n0.resolved_note = n.resolved_note) := by
  unfold staffFields at h
  cases h2 : patch.status with
  | none =>
    cases h3 : patch.resolvedNote <;> simp only [h2, h3] at h <;>
      (injection h with h; rw [← h]; simp)
  | some v =>
    by_cases hd : stringOr (some v) row.status ∈ ["INCELEMEDE", "COZULDU"]
    · cases h3 : patch.resolvedNote <;> simp only [h2, h3, if_pos hd] at h <;>
        (injection h with h; rw [← h]; simp)
    · simp only [h2, if_neg hd] at h
      exact absurd h (by simp)

/-- Fields of the snapshot `next` whose key is absent from the body, or that the role may
not write, are those of the stored row. -/
theorem computeNext_defaults (u : User) (row : TicketRow) (patch : PatchBody) (n0 : Next)
    (h : computeNext u row patch = some n0) :
    (patch.assignedTo = none ∨ u.role ≠ "YONETICI" →
      n0.assigned_to = row.assigned_to.map JNum.int) ∧
    (patch.status = none → n0.status = row.status) ∧
    (patch.resolvedNote = none → n0.resolved_note = row.resolved_note) := by
  by_cases ha : u.role = "YONETICI"
  · rw [computeNext_admin u row patch ha] at h
    injection h with h
    rw [← h]
    refine ⟨fun hc => ?_, fun hc => ?_, fun hc => ?_⟩
    · rcases hc with hc | hc
      · rw [adminFields_assigned, hc]; rfl
      · exact absurd ha hc
    · rw [adminFields_status, hc]; rfl
    · rw [adminFields_note, hc]; rfl
  · by_cases hp : u.role = "PERSONEL"
    · rw [computeNext_staff u row patch hp] at h
      obtain ⟨h1, h2, h3⟩ := staffFields_fields row patch _ n0 h
      exact ⟨fun _ => h1, h2, h3⟩
    · unfold computeNext at h
      simp only [ha, hp, if_false] at h
      injection h with h
      rw [← h]
      exact ⟨fun _ => rfl, fun _ => rfl, fun _ => rfl⟩

theorem bindNumber_map (a : Option Int) : bindNumber (a.map JNum.int) = a := by
  cases a <;> rfl

theorem strictNe_self (a : Option Int) :
    strictNe (a.map JNum.int) (a.map JNum.int) = false := by
  cases a with
  | none => rfl
  | some x => simp [strictNe]

/-- C23: after a successful PATCH the stored ticket keeps the stored value of each of
`assignedTo`, `status`, `resolvedNote` whose key is absent from the body; and when the
caller is a staff member (any role other than YONETICI) the stored assignee is unchanged
whatever the body carries under `assignedTo`, and none of the events the request appends is
an ASSIGN event. -/
theorem patch_keeps_unlisted_fields (clk : Nat → Nat) (w : World) (u : User)
    (idParam : String) (patch : PatchBody) (tid : Int) (row t : TicketRow)
    (hid : stringToNumber idParam = JNum.int tid)
    (hok : (patchTicket clk w u idParam patch).1.status = 200)
    (hrow : getTicket w.db tid = some row)
    (ht : getTicket (patchTicket clk w u idParam patch).2.db tid = some t) :
    (patch.assignedTo = none → t.assigned_to = row.assigned_to) ∧
    (patch.status = none → t.status = row.status) ∧
    (patch.resolvedNote = none → t.resolved_note = row.resolved_note) ∧
    (u.role = "PERSONEL" ∨ u.role ≠ "YONETICI" →
      t.assigned_to = row.assigned_to ∧
      ∃ evs, (patchTicket clk w u idParam patch).2.db.events = w.db.events ++ evs ∧
        ∀ e ∈ evs, e.type ≠ "ASSIGN") := by
  rcases patchTicket_cases clk w u idParam patch with
    ⟨c, code, hc, he⟩ | ⟨tid', row', n0, hid', -, hrow', -, -, hnext, he⟩
  · rw [he] at hok
    exact absurd hok hc
  · rw [hid] at hid'
    cases hid'
    rw [hrow] at hrow'
    cases hrow'
    rw [he] at ht ⊢
    obtain ⟨-, -, hget, evs, hevs, hty, -⟩ := patchCommit_spec clk w u tid row n0
    rw [hget, hrow] at ht
    have ht' : t = updatedRow row (stampResolved clk w n0).1
        (clk (stampResolved clk w n0).2.tick) := by
      simpa using ht.symm
    obtain ⟨h1, h2, h3⟩ := computeNext_defaults u row patch n0 hnext
    have hassign : n0.assigned_to = row.assigned_to.map JNum.int →
        t.assigned_to = row.assigned_to := by
      intro h
      rw [ht']
      show bindNumber (stampResolved clk w n0).1.assigned_to = _
      rw [stampResolved_assigned, h, bindNumber_map]
    refine ⟨fun h => hassign (h1 (Or.inl h)), fun h => ?_, fun h => ?_, fun h => ?_⟩
    · rw [ht']
      show (stampResolved clk w n0).1.status = _
      rw [stampResolved_status, h2 h]
    · rw [ht']
      show (stampResolved clk w n0).1.resolved_note = _
      rw [stampResolved_note, h3 h]
    · have hna : u.role ≠ "YONETICI" := by
        rcases h with h | h
        · rw [h]; decide
        · exact h
      have hn := h1 (Or.inr hna)
      refine ⟨hassign hn, evs, hevs, fun e hev hty' => ?_⟩
      have hmem : "ASSIGN" ∈ evs.map (fun e => e.type) :=
        List.mem_map.mpr ⟨e, hev, hty'⟩
      rw [hty] at hmem
      unfold patchEventTypes at hmem
      rw [stampResolved_assigned, hn, strictNe_self] at hmem
      simp only [Bool.false_eq_true, if_false, List.nil_append, List.mem_append] at hmem
      rcases hmem with hmem | hmem
      · split at hmem
        · simp at hmem
        · simp at hmem
      · split at hmem
        · simp at hmem
        · simp at hmem

/-- Witness of C23: the staff member sends `assignedTo` 9 with status COZULDU for the ticket
assigned to them; the stored assignee stays 3. -/
theorem patch_keeps_unlisted_fields_witness :
    getTicket (patchTicket sampleClock (sampleWorld sampleAssignedTicket) sampleStaff "7"
      { assignedTo := some (JVal.num 9), status := some (JVal.str "COZULDU") }).2.db 7 =
      some { sampleAssignedTicket with status := "COZULDU", updated_at := 1006,
                                       resolved_at := some 1005 } ∧
    ({ sampleAssignedTicket with status := "COZULDU", updated_at := 1006,
                                 resolved_at := some 1005 } : TicketRow).assigned_to =
      sampleAssignedTicket.assigned_to :=
  ⟨by decide,
    ((patch_keeps_unlisted_fields sampleClock (sampleWorld sampleAssignedTicket) sampleStaff
      "7" { assignedTo := some (JVal.num 9), status := some (JVal.str "COZULDU") } 7
      sampleAssignedTicket
      { sampleAssignedTicket with status := "COZULDU", updated_at := 1006,
                                  resolved_at := some 1005 }
      (by decide) (by decide) (by decide) (by decide)).2.2.2 (Or.inl (by decide))).1⟩


/-! ## C24: `updated_at` -/

theorem stampResolved_tick_le_succ (clk : Nat → Nat) (w : World) (n : Next) :
    (stampResolved clk w n).2.tick ≤ w.tick + 1 := by
  unfold stampResolved nowISO; split <;> simp

/-- Every stored ticket was created and last updated at readings of the clock taken before
now, the creation not after the update. -/
theorem serve_stamps (clk : Nat → Nat) (w : World) (r : Request)
    (hinv : ∀ t ∈ w.db.tickets, ∃ j k, j ≤ k ∧ k < w.tick ∧ t.created_at = clk j ∧
      t.updated_at = clk k) :
    ∀ t ∈ (serve clk w r).db.tickets, ∃ j k, j ≤ k ∧ k < (serve clk w r).tick ∧
      t.created_at = clk j ∧ t.updated_at = clk k := by
  intro t ht
  obtain ⟨htick, hrows⟩ := serve_rows clk w r
  rcases hrows t ht with h | ⟨u, body, -, rfl, hlt⟩ |
    ⟨u, idParam, patch, tid, row, n0, -, -, -, -, -, hlt, t0, ht0, -, rfl⟩
  · obtain ⟨j, k, hjk, hk, hc, hu⟩ := hinv t h
    exact ⟨j, k, hjk, by omega, hc, hu⟩
  · exact ⟨w.tick, w.tick, Nat.le_refl _, hlt, rfl, rfl⟩
  · obtain ⟨j, k, hjk, hk, hc, -⟩ := hinv t0 ht0
    have := stampResolved_tick_le clk w n0
    exact ⟨j, (stampResolved clk w n0).2.tick, by omega, hlt, hc, rfl⟩

theorem serveAll_stamps (clk : Nat → Nat) (rs : List Request) (w : World)
    (hinv : ∀ t ∈ w.db.tickets, ∃ j k, j ≤ k ∧ k < w.tick ∧ t.created_at = clk j ∧
      t.updated_at = clk k) :
    ∀ t ∈ (serveAll clk w rs).db.tickets, ∃ j k, j ≤ k ∧ k < (serveAll clk w rs).tick ∧
      t.created_at = clk j ∧ t.updated_at = clk k := by
  induction rs generalizing w with
  | nil => exact hinv
  | cons r rs ih => exact ih (serve clk w r) (serve_stamps clk w r hinv)

/-- C24: in a state reached from the empty store, a successful PATCH, whatever its body,
stores as `updated_at` the reading `updatedAt = nowISO()` of the request, which is the first
or second reading the request takes; with a non-decreasing clock it is at least the
`updated_at` stored before and at least `created_at`. -/
theorem updatedAt_stamped (clk : Nat → Nat) (hmono : Monotone clk) (reqs : List Request)
    (u : User) (idParam : String) (patch : PatchBody) (tid : Int) (row t : TicketRow)
    (hid : stringToNumber idParam = JNum.int tid)
    (hok : (patchTicket clk (serveAll clk emptyWorld reqs) u idParam patch).1.status = 200)
    (hrow : getTicket (serveAll clk emptyWorld reqs).db tid = some row)
    (ht : getTicket (patchTicket clk (serveAll clk emptyWorld reqs) u idParam patch).2.db tid
      = some t) :
    (∃ k, (serveAll clk emptyWorld reqs).tick ≤ k ∧
      k ≤ (serveAll clk emptyWorld reqs).tick + 1 ∧
      k < (patchTicket clk (serveAll clk emptyWorld reqs) u idParam patch).2.tick ∧
      t.updated_at = clk k) ∧
    row.updated_at ≤ t.updated_at ∧ t.created_at ≤ t.updated_at := by
  have hinv := serveAll_stamps clk reqs emptyWorld (by intro t ht; cases ht)
  generalize serveAll clk emptyWorld reqs = w at hok hrow ht hinv ⊢
  rcases patchTicket_cases clk w u idParam patch with
    ⟨c, code, hc, he⟩ | ⟨tid', row', n0, hid', -, hrow', -, -, -, he⟩
  · rw [he] at hok
    exact absurd hok hc
  · rw [hid] at hid'
    cases hid'
    rw [hrow] at hrow'
    cases hrow'
    rw [he] at ht ⊢
    obtain ⟨-, -, hget, -⟩ := patchCommit_spec clk w u tid row n0
    rw [hget, hrow] at ht
    have ht' : t = updatedRow row (stampResolved clk w n0).1
        (clk (stampResolved clk w n0).2.tick) := by
      simpa using ht.symm
    have hu : t.updated_at = clk (stampResolved clk w n0).2.tick := by rw [ht']; rfl
    have hc : t.created_at = row.created_at := by rw [ht']; rfl
    have h1 := stampResolved_tick_le clk w n0
    have h2 := stampResolved_tick_le_succ clk w n0
    obtain ⟨j, k, hjk, hk, hcj, huk⟩ := hinv row (mem_of_getTicket hrow).1
    refine ⟨⟨_, h1, h2, patchCommit_stamp_lt clk w u tid row n0, hu⟩, ?_, ?_⟩
    · rw [hu, huk]
      exact hmono (by omega)
    · rw [hu, hc, hcj]
      exact hmono (by omega)

/-- Witness of C24: after `sampleHistory` the administrator sends a PATCH with an empty
body; `updated_at` moves from 1004 to 1008. -/
theorem updatedAt_stamped_witness :
    Monotone sampleClock ∧
    getTicket (serveAll sampleClock emptyWorld sampleHistory).db 1 =
      some { sampleHistoryResolved with status := "ATANDI", updated_at := 1004,
                                        resolved_at := none } ∧
    (1004 : Nat) ≤ 1008 :=
  ⟨fun _ _ h => Nat.add_le_add_left h 1000, by decide,
    (updatedAt_stamped sampleClock (fun _ _ h => Nat.add_le_add_left h 1000) sampleHistory
      sampleAdmin "1" {} 1
      { sampleHistoryResolved with status := "ATANDI", updated_at := 1004,
                                   resolved_at := none }
      { sampleHistoryResolved with status := "ATANDI", updated_at := 1008,
                                   resolved_at := none }
      (by decide) (by decide) (by decide) (by decide)).2.1⟩


/-! ## C27, C29: `resolved_at` -/

theorem find_map_same_id (l : List TicketRow) (g : TicketRow → TicketRow) (tid : Int)
    (hg : ∀ t, (g t).id = t.id) :
    (l.map g).find? (fun t => t.id = tid) = (l.find? (fun t => t.id = tid)).map g := by
  induction l with
  | nil => rfl
  | cons a l ih =>
    by_cases h : a.id = tid
    · simp [List.find?, h, hg]
    · simp [List.find?, h, hg, ih]

/-- The `resolved_at` a committed PATCH writes: the first reading of the request when the
next status is COZULDU or KAPANDI, the stored value of the row the handler read otherwise. -/
theorem updatedRow_resolved_at (clk : Nat → Nat) (w : World) (u : User) (row t0 : TicketRow)
    (patch : PatchBody) (n0 : Next) (hnext : computeNext u row patch = some n0) :
    (updatedRow t0 (stampResolved clk w n0).1 (clk (stampResolved clk w n0).2.tick)).resolved_at
      = if n0.status ∈ ["COZULDU", "KAPANDI"] then some (clk w.tick) else row.resolved_at := by
  show (stampResolved clk w n0).1.resolved_at = _
  rw [stampResolved_at, computeNext_resolved_at u row patch n0 hnext]

/-- C27: a successful PATCH, by any role and with any body, never clears `resolved_at`: for
every ticket id, if the stored row had a non-null `resolved_at` before the request, the
stored row has a non-null `resolved_at` after it, whatever the status becomes. -/
theorem resolvedAt_never_cleared (clk : Nat → Nat) (w : World) (u : User)
    (idParam : String) (patch : PatchBody) (tid : Int) (a b : TicketRow)
    (hok : (patchTicket clk w u idParam patch).1.status = 200)
    (ha : getTicket w.db tid = some a) (hra : a.resolved_at ≠ none)
    (hb : getTicket (patchTicket clk w u idParam patch).2.db tid = some b) :
    b.resolved_at ≠ none := by
  rcases patchTicket_cases clk w u idParam patch with
    ⟨c, code, hc, he⟩ | ⟨tid', row, n0, -, -, hrow, -, -, hnext, he⟩
  · rw [he] at hok
    exact absurd hok hc
  · rw [he] at hb
    unfold getTicket at hb ha hrow
    rw [(patchCommit_spec clk w u tid' row n0).2.1,
      find_map_same_id _ _ tid (by intro t; split <;> rfl), ha] at hb
    have hb' : b = if a.id = tid' then updatedRow a (stampResolved clk w n0).1
        (clk (stampResolved clk w n0).2.tick) else a := by
      simpa using hb.symm
    by_cases h : a.id = tid'
    · rw [hb', if_pos h, updatedRow_resolved_at clk w u row a patch n0 hnext]
      split
      · simp
      · have htid : tid = tid' := by
          have := List.find?_some ha
          simp only [decide_eq_true_eq] at this
          rw [← this, h]
        rw [htid, hrow] at ha
        cases ha
        exact hra
    · rw [hb', if_neg h]
      exact hra

/-- Witness of C27: an administrator moves the resolved sample ticket back to ACIK. -/
theorem resolvedAt_never_cleared_witness :
    ({ sampleResolvedTicket with status := "ACIK", updated_at := 1005 } :
      TicketRow).resolved_at ≠ none :=
  resolvedAt_never_cleared sampleClock (sampleWorld sampleResolvedTicket) sampleAdmin "7"
    { status := some (JVal.str "ACIK") } 7 sampleResolvedTicket
    { sampleResolvedTicket with status := "ACIK", updated_at := 1005 }
    (by decide) (by decide) (by decide) (by decide)

theorem everResolved_cons (clk : Nat → Nat) (w : World) (r : Request) (rs : List Request)
    (tid : Int) :
    everResolved clk w (r :: rs) tid =
      (leavesResolved clk w r tid ∨ everResolved clk (serve clk w r) rs tid) := rfl

/-- A stored COZULDU or KAPANDI ticket has a `resolved_at` after every request. -/
theorem serve_resolved_stamped (clk : Nat → Nat) (w : World) (r : Request)
    (hinv : ∀ t ∈ w.db.tickets, t.status ∈ ["COZULDU", "KAPANDI"] → t.resolved_at ≠ none) :
    ∀ t ∈ (serve clk w r).db.tickets,
      t.status ∈ ["COZULDU", "KAPANDI"] → t.resolved_at ≠ none := by
  intro t ht hst
  rcases (serve_rows clk w r).2 t ht with h | ⟨u, body, -, rfl, -⟩ |
    ⟨u, idParam, patch, tid, row, n0, -, -, -, hnext, -, -, t0, ht0, -, rfl⟩
  · exact hinv t h hst
  · have hne : "ACIK" ∉ ["COZULDU", "KAPANDI"] := by decide
    exact absurd hst hne
  · have hs : n0.status ∈ ["COZULDU", "KAPANDI"] := by
      rw [← stampResolved_status clk w n0]
      exact hst
    rw [updatedRow_resolved_at clk w u row t0 patch n0 hnext, if_pos hs]
    simp

theorem serveAll_resolved_stamped (clk : Nat → Nat) (rs : List Request) (w : World)
    (hinv : ∀ t ∈ w.db.tickets, t.status ∈ ["COZULDU", "KAPANDI"] → t.resolved_at ≠ none) :
    ∀ t ∈ (serveAll clk w rs).db.tickets,
      t.status ∈ ["COZULDU", "KAPANDI"] → t.resolved_at ≠ none := by
  induction rs generalizing w with
  | nil => exact hinv
  | cons r rs ih => exact ih (serve clk w r) (serve_resolved_stamped clk w r hinv)

/-- A `resolved_at` stored after a request was stored before it under the same id, or the
request is a PATCH that leaves that ticket COZULDU or KAPANDI. -/
theorem serve_resolved_origin (clk : Nat → Nat) (w : World) (r : Request) :
    ∀ t ∈ (serve clk w r).db.tickets, t.resolved_at ≠ none →
      (∃ t0 ∈ w.db.tickets, t0.id = t.id ∧ t0.resolved_at ≠ none) ∨
      leavesResolved clk w r t.id := by
  intro t ht hra
  rcases (serve_rows clk w r).2 t ht with h | ⟨u, body, -, rfl, -⟩ |
    ⟨u, idParam, patch, tid, row, n0, hreq, hid, hrow, hnext, he, -, t0, ht0, hid0, rfl⟩
  · exact Or.inl ⟨t, h, rfl, hra⟩
  · exact absurd rfl hra
  · rw [updatedRow_resolved_at clk w u row t0 patch n0 hnext] at hra
    by_cases hs : n0.status ∈ ["COZULDU", "KAPANDI"]
    · right
      rw [hreq]
      have hidt : (updatedRow t0 (stampResolved clk w n0).1
          (clk (stampResolved clk w n0).2.tick)).id = tid := hid0
      rw [hidt]
      refine ⟨hid, ?_, _, ?_, hidt, ?_⟩
      · rw [he]; exact (patchCommit_spec clk w u tid row n0).1
      · rw [hreq] at ht
        exact ht
      · show (stampResolved clk w n0).1.status ∈ _
        rw [stampResolved_status]
        exact hs
    · left
      rw [if_neg hs] at hra
      exact ⟨row, (mem_of_getTicket hrow).1, (mem_of_getTicket hrow).2.trans hid0.symm, hra⟩

theorem serveAll_resolved_origin (clk : Nat → Nat) (rs : List Request) (w : World) :
    ∀ t ∈ (serveAll clk w rs).db.tickets, t.resolved_at ≠ none →
      (∃ t0 ∈ w.db.tickets, t0.id = t.id ∧ t0.resolved_at ≠ none) ∨
      everResolved clk w rs t.id := by
  induction rs generalizing w with
  | nil => exact fun t ht hra => Or.inl ⟨t, ht, rfl, hra⟩
  | cons r rs ih =>
    intro t ht hra
    rw [everResolved_cons]
    rcases ih (serve clk w r) t ht hra with ⟨t1, ht1, hid1, hra1⟩ | h
    · rcases serve_resolved_origin clk w r t1 ht1 hra1 with ⟨t0, ht0, hid0, hra0⟩ | h
      · exact Or.inl ⟨t0, ht0, hid0.trans hid1, hra0⟩
      · rw [hid1] at h
        exact Or.inr (Or.inl h)
    · exact Or.inr (Or.inr h)

/-- C29: in a state reached from the empty store by requests (creations, PATCHes, deletions
and the others), every stored ticket whose status is COZULDU or KAPANDI has a non-null
`resolved_at`, and every stored ticket that no PATCH of the history has left COZULDU or
KAPANDI has a null `resolved_at`. -/
theorem resolvedAt_iff_ever_resolved (clk : Nat → Nat) (rs : List Request) :
    ∀ t ∈ (serveAll clk emptyWorld rs).db.tickets,
      (t.status ∈ ["COZULDU", "KAPANDI"] → t.resolved_at ≠ none) ∧
      (¬ everResolved clk emptyWorld rs t.id → t.resolved_at = none) := by
  intro t ht
  refine ⟨serveAll_resolved_stamped clk rs emptyWorld (by intro t ht; cases ht) t ht, ?_⟩
  intro hnever
  by_contra hra
  rcases serveAll_resolved_origin clk rs emptyWorld t ht hra with ⟨t0, ht0, -, -⟩ | h
  · cases ht0
  · exact hnever h

/-- Witness of C29: after `sampleHistory` ticket 1 is ATANDI, no PATCH has left it COZULDU
or KAPANDI, and its `resolved_at` is null. -/
theorem resolvedAt_iff_ever_resolved_witness :
    ({ sampleHistoryResolved with status := "ATANDI", updated_at := 1004,
                                  resolved_at := none } : TicketRow).resolved_at = none :=
  (resolvedAt_iff_ever_resolved sampleClock sampleHistory
    { sampleHistoryResolved with status := "ATANDI", updated_at := 1004,
                                 resolved_at := none } (by decide)).2
    (by simp only [sampleHistory, everResolved, leavesResolved]; decide)


/-! ## C28: deletion leaves the events of the ticket behind -/

/-- No stored key exceeds the key sequence, after every request. -/
theorem serve_ids_le_seq (clk : Nat → Nat) (w : World) (r : Request)
    (hinv : ∀ t ∈ w.db.tickets, t.id ≤ w.db.ticketSeq) :
    ∀ t ∈ (serve clk w r).db.tickets, t.id ≤ (serve clk w r).db.ticketSeq := by
  rcases serve_tickets clk w r with
    ⟨⟨f, hf, htk⟩, hs⟩ | ⟨row, hlt, htk, hs⟩ | ⟨-, p, htk, hs⟩
  · rw [htk, hs]
    intro t ht
    obtain ⟨t0, ht0, rfl⟩ := List.mem_map.mp ht
    rw [← (hf t0).1]
    exact hinv t0 ht0
  · rw [htk, hs]
    intro t ht
    rcases List.mem_append.mp ht with h | h
    · exact Int.le_of_lt (Int.lt_of_le_of_lt (hinv t h) hlt)
    · rw [List.mem_singleton] at h
      rw [h]
  · rw [htk, hs]
    intro t ht
    exact hinv t (List.mem_of_mem_filter ht)

theorem serveAll_ids_le_seq (clk : Nat → Nat) (rs : List Request) (w : World)
    (hinv : ∀ t ∈ w.db.tickets, t.id ≤ w.db.ticketSeq) :
    ∀ t ∈ (serveAll clk w rs).db.tickets, t.id ≤ (serveAll clk w rs).db.ticketSeq := by
  induction rs generalizing w with
  | nil => exact hinv
  | cons r rs ih => exact ih (serve clk w r) (serve_ids_le_seq clk w r hinv)

/-- A key that has been handed out and is not stored is not stored after a request. -/
theorem serve_absent (clk : Nat → Nat) (w : World) (r : Request) (tid : Int)
    (hseq : tid ≤ w.db.ticketSeq) (habs : ∀ t ∈ w.db.tickets, t.id ≠ tid) :
    tid ≤ (serve clk w r).db.ticketSeq ∧ ∀ t ∈ (serve clk w r).db.tickets, t.id ≠ tid := by
  rcases serve_tickets clk w r with
    ⟨⟨f, hf, htk⟩, hs⟩ | ⟨row, hlt, htk, hs⟩ | ⟨-, p, htk, hs⟩
  · rw [htk, hs]
    refine ⟨hseq, fun t ht => ?_⟩
    obtain ⟨t0, ht0, rfl⟩ := List.mem_map.mp ht
    rw [← (hf t0).1]
    exact habs t0 ht0
  · rw [htk, hs]
    refine ⟨Int.le_of_lt (Int.lt_of_le_of_lt hseq hlt), fun t ht => ?_⟩
    rcases List.mem_append.mp ht with h | h
    · exact habs t h
    · rw [List.mem_singleton] at h
      rw [h]
      exact fun heq => absurd (heq ▸ hlt) (not_lt.mpr hseq)
  · rw [htk, hs]
    exact ⟨hseq, fun t ht => habs t (List.mem_of_mem_filter ht)⟩

theorem serveAll_absent (clk : Nat → Nat) (rs : List Request) (w : World) (tid : Int)
    (hseq : tid ≤ w.db.ticketSeq) (habs : ∀ t ∈ w.db.tickets, t.id ≠ tid) :
    ∀ t ∈ (serveAll clk w rs).db.tickets, t.id ≠ tid := by
  induction rs generalizing w with
  | nil => exact habs
  | cons r rs ih =>
    obtain ⟨h1, h2⟩ := serve_absent clk w r tid hseq habs
    exact ih (serve clk w r) h1 h2

theorem getTicket_none_of_absent {db : Store} {tid : Int}
    (h : ∀ t ∈ db.tickets, t.id ≠ tid) : getTicket db tid = none := by
  unfold getTicket
  rw [List.find?_eq_none]
  intro t ht
  simpa using h t ht

/-- C28: in a state reached from the empty store, a successful DELETE of ticket `tid`
leaves the events, attachments and ratings tables as they were, so every event of the
ticket is still stored, while the ticket row is gone; and after any further requests the
timeline of `tid` answers 404 NOT_FOUND for every caller. -/
theorem delete_orphans_events (clk : Nat → Nat) (rs0 : List Request) (u : User)
    (idParam : String) (tid : Int) (hid : stringToNumber idParam = JNum.int tid)
    (hok : (deleteTicket clk (serveAll clk emptyWorld rs0) u idParam).1.status = 200) :
    (deleteTicket clk (serveAll clk emptyWorld rs0) u idParam).2.db.events =
      (serveAll clk emptyWorld rs0).db.events ∧
    (deleteTicket clk (serveAll clk emptyWorld rs0) u idParam).2.db.attachments =
      (serveAll clk emptyWorld rs0).db.attachments ∧
    (deleteTicket clk (serveAll clk emptyWorld rs0) u idParam).2.db.ratings =
      (serveAll clk emptyWorld rs0).db.ratings ∧
    (∀ e ∈ (serveAll clk emptyWorld rs0).db.events, e.ticket_id = tid →
      e ∈ (deleteTicket clk (serveAll clk emptyWorld rs0) u idParam).2.db.events) ∧
    getTicket (deleteTicket clk (serveAll clk emptyWorld rs0) u idParam).2.db tid = none ∧
    (∀ (rs : List Request) (caller : User) (q : Option JVal), optNumber q = JNum.int tid →
      listEvents (serveAll clk (deleteTicket clk (serveAll clk emptyWorld rs0) u idParam).2 rs)
        caller q =
      (errorResponse 404 "NOT_FOUND",
        serveAll clk (deleteTicket clk (serveAll clk emptyWorld rs0) u idParam).2 rs)) := by
  have hinv := serveAll_ids_le_seq clk rs0 emptyWorld (by intro t ht; cases ht)
  generalize serveAll clk emptyWorld rs0 = w at hok hinv ⊢
  rcases deleteTicket_cases clk w u idParam with
    ⟨c, code, hc, he⟩ | ⟨tid', row, hid', h0, hrow, -, -, -, he⟩
  · rw [he] at hok
    exact absurd hok hc
  · rw [hid] at hid'
    cases hid'
    rw [he]
    have hev : (deleteCommit clk w u tid).2.db.events = w.db.events := rfl
    have habs : ∀ t ∈ (deleteCommit clk w u tid).2.db.tickets, t.id ≠ tid := by
      rw [(deleteCommit_spec clk w u tid).2.1]
      intro t ht
      simpa using (List.mem_filter.mp ht).2
    have hseq : tid ≤ (deleteCommit clk w u tid).2.db.ticketSeq := by
      show tid ≤ w.db.ticketSeq
      have := hinv row (mem_of_getTicket hrow).1
      rw [(mem_of_getTicket hrow).2] at this
      exact this
    refine ⟨hev, rfl, rfl, fun e he _ => by rw [hev]; exact he,
      getTicket_none_of_absent habs, fun rs caller q hq => ?_⟩
    have hnone := getTicket_none_of_absent
      (serveAll_absent clk rs (deleteCommit clk w u tid).2 tid hseq habs)
    unfold listEvents
    simp only [hq, if_neg h0, hnone]

/-- Witness of C28: the resident files the sample ticket and deletes it; its creation event
stays in the events table. -/
theorem delete_orphans_events_witness :
    (deleteTicket sampleClock (serveAll sampleClock emptyWorld
      [Request.create sampleResident sampleCreateBody]) sampleResident "1").2.db.events.map
      (fun e => (e.ticket_id, e.type)) = [(1, "STATUS")] ∧
    getTicket (deleteTicket sampleClock (serveAll sampleClock emptyWorld
      [Request.create sampleResident sampleCreateBody]) sampleResident "1").2.db 1 = none :=
  ⟨by decide,
    (delete_orphans_events sampleClock [Request.create sampleResident sampleCreateBody]
      sampleResident "1" 1 (by decide) (by decide)).2.2.2.2.1⟩


/-! ## C25: sessions live seven days from issuance and are not renewed -/

/-- Outcomes of `getUserBySession`: nothing happens, or the session row at the head of the
join is found expired and the rows of the token are deleted, or it is found live. -/
theorem getUserBySession_cases (clk : Nat → Nat) (w : World) (o : Option String) :
    getUserBySession clk w o = (none, w) ∨
    ∃ sid s u, o = some sid ∧ s ∈ w.db.sessions ∧ s.sid = sid ∧
      ((s.expires_at < clk w.tick ∧
          getUserBySession clk w o = (none, deleteSession (nowISO clk w).2 sid)) ∨
        (¬ s.expires_at < clk w.tick ∧
          getUserBySession clk w o = (some (mapUser u), (nowISO clk w).2))) := by
  cases o with
  | none => left; rfl
  | some sid =>
    by_cases hsid : sid = ""
    · left
      unfold getUserBySession
      simp only [hsid, if_true]
    · cases hhead : (sessionJoin w.db sid).head? with
      | none =>
        left
        unfold getUserBySession
        simp only [hsid, if_false, hhead]
      | some p =>
        obtain ⟨s, u⟩ := p
        have hm := mem_sessionJoin.mp (List.mem_of_mem_head? hhead)
        right
        refine ⟨sid, s, u, rfl, hm.1, hm.2.1, ?_⟩
        by_cases hexp : s.expires_at < clk w.tick
        · left
          refine ⟨hexp, ?_⟩
          unfold getUserBySession
          simp only [hsid, if_false, hhead]
          show (if s.expires_at < clk w.tick then _ else _) = _
          rw [if_pos hexp]
        · right
          refine ⟨hexp, ?_⟩
          unfold getUserBySession
          simp only [hsid, if_false, hhead]
          show (if s.expires_at < clk w.tick then _ else _) = _
          rw [if_neg hexp]

/-- What resolving one cookie keeps of a session row `s` whose token is unique: the users
table, no new or rewritten session row, and the row itself unless the clock has passed its
expiry for good. -/
theorem getUserBySession_keeps (clk : Nat → Nat) (hmono : Monotone clk) (w0 w : World)
    (o : Option String) (s : SessionRow)
    (huniq : ∀ x ∈ w0.db.sessions, x.sid = s.sid → x = s)
    (husers : w.db.users = w0.db.users)
    (hsub : ∀ x ∈ w.db.sessions, x ∈ w0.db.sessions)
    (hrow : s ∈ w.db.sessions ∨ ∀ k, w.tick ≤ k → s.expires_at < clk k) :
    (getUserBySession clk w o).2.db.users = w0.db.users ∧
    (∀ x ∈ (getUserBySession clk w o).2.db.sessions, x ∈ w0.db.sessions) ∧
    (s ∈ (getUserBySession clk w o).2.db.sessions ∨
      ∀ k, (getUserBySession clk w o).2.tick ≤ k → s.expires_at < clk k) := by
  rcases getUserBySession_cases clk w o with he | ⟨sid, s1, u1, -, hs1, hsid1, h⟩
  · rw [he]
    exact ⟨husers, hsub, hrow⟩
  · rcases h with ⟨hexp, he⟩ | ⟨-, he⟩
    · rw [he]
      refine ⟨husers, fun x hx => hsub x (List.mem_of_mem_filter hx), ?_⟩
      rcases hrow with hin | hout
      · by_cases hsame : s.sid = sid
        · right
          have hs1s : s1 = s := huniq s1 (hsub s1 hs1) (hsid1.trans hsame.symm)
          rw [hs1s] at hexp
          intro k hk
          have hk' : w.tick ≤ k := Nat.le_of_succ_le hk
          exact Nat.lt_of_lt_of_le hexp (hmono hk')
        · left
          show s ∈ w.db.sessions.filter _
          rw [List.mem_filter]
          exact ⟨hin, by simpa using hsame⟩
      · right
        intro k hk
        exact hout k (Nat.le_of_succ_le hk)
    · rw [he]
      refine ⟨husers, hsub, ?_⟩
      rcases hrow with hin | hout
      · left; exact hin
      · right
        intro k hk
        exact hout k (Nat.le_of_succ_le hk)

theorem resolveAll_keeps (clk : Nat → Nat) (hmono : Monotone clk) (w0 : World)
    (s : SessionRow) (huniq : ∀ x ∈ w0.db.sessions, x.sid = s.sid → x = s)
    (sids : List (Option String)) (w : World)
    (husers : w.db.users = w0.db.users)
    (hsub : ∀ x ∈ w.db.sessions, x ∈ w0.db.sessions)
    (hrow : s ∈ w.db.sessions ∨ ∀ k, w.tick ≤ k → s.expires_at < clk k) :
    (resolveAll clk w sids).db.users = w0.db.users ∧
    (∀ x ∈ (resolveAll clk w sids).db.sessions, x ∈ w0.db.sessions) ∧
    (s ∈ (resolveAll clk w sids).db.sessions ∨
      ∀ k, (resolveAll clk w sids).tick ≤ k → s.expires_at < clk k) := by
  induction sids generalizing w with
  | nil => exact ⟨husers, hsub, hrow⟩
  | cons o rest ih =>
    obtain ⟨h1, h2, h3⟩ := getUserBySession_keeps clk hmono w0 w o s huniq husers hsub hrow
    exact ih (getUserBySession clk w o).2 h1 h2 h3

/-- A token whose session row is unique and whose user row is present and unique is
accepted exactly when the clock has not passed the expiry of the row; once the row has been
deleted for expiry the token is refused. -/
theorem accepted_iff_not_expired (clk : Nat → Nat) (w : World) (sid : String)
    (s : SessionRow) (u : UserRow) (hsid : sid ≠ "") (hs' : s.sid = sid)
    (huniq : ∀ x ∈ w.db.sessions, x.sid = sid → x = s)
    (hu : u ∈ w.db.users) (huid : u.id = s.user_id)
    (huniqU : ∀ u' ∈ w.db.users, u'.id = s.user_id → u' = u)
    (hrow : s ∈ w.db.sessions ∨ ∀ k, w.tick ≤ k → s.expires_at < clk k) :
    ((getUserBySession clk w (some sid)).1 = some (mapUser u) ↔
      clk w.tick ≤ s.expires_at) ∧
    ((getUserBySession clk w (some sid)).1 = none ↔ s.expires_at < clk w.tick) := by
  by_cases hin : s ∈ w.db.sessions
  · by_cases hexp : s.expires_at < clk w.tick
    · rw [getUserBySession_expired clk w sid s hsid hin hs' huniq ⟨u, hu, huid⟩ hexp]
      exact ⟨⟨(fun h => by cases h), fun h => absurd hexp (not_lt.mpr h)⟩,
        ⟨fun _ => hexp, fun _ => rfl⟩⟩
    · rw [getUserBySession_live clk w sid s u hsid hin hs' huniq hu huid huniqU hexp]
      exact ⟨⟨fun _ => not_lt.mp hexp, fun _ => rfl⟩,
        ⟨(fun h => by cases h), fun h => absurd h hexp⟩⟩
  · have hexp : s.expires_at < clk w.tick := by
      rcases hrow with h | h
      · exact absurd h hin
      · exact h w.tick (Nat.le_refl _)
    have hno : ∀ x ∈ w.db.sessions, some x.sid ≠ some sid := by
      intro x hx hxs
      injection hxs with hxs
      exact hin (huniq x hx hxs ▸ hx)
    rw [getUserBySession_no_row clk w (some sid) hno]
    exact ⟨⟨(fun h => by cases h), fun h => absurd hexp (not_lt.mpr h)⟩,
      ⟨fun _ => hexp, fun _ => rfl⟩⟩

theorem createSession_fresh (clk : Nat → Nat) (w : World) (sid : String) (userId : Int)
    (hfresh : ∀ s ∈ w.db.sessions, s.sid ≠ sid) :
    createSession clk w sid userId =
      (some (sid, clk (w.tick + 1) + SESSION_TTL_MS),
        { (nowISO clk (nowISO clk w).2).2 with
          db := { w.db with
            sessions := w.db.sessions ++
              [{ id := nextRowId (w.db.sessions.map (fun s => s.id)) w.db.sessionSeq,
                 sid := sid, user_id := userId, created_at := clk w.tick,
                 expires_at := clk (w.tick + 1) + SESSION_TTL_MS }],
            sessionSeq := nextRowId (w.db.sessions.map (fun s => s.id)) w.db.sessionSeq },
          trace := w.trace ++ [Effect.write "sessions"] }) := by
  have hany : ((nowISO clk (nowISO clk w).2).2.db.sessions.any
      (fun s => decide (s.sid = sid))) = false := by
    show (w.db.sessions.any (fun s => decide (s.sid = sid))) = false
    rw [List.any_eq_false]
    intro x hx
    simpa using hfresh x hx
  unfold createSession
  simp only [hany, Bool.false_eq_true, if_false]
  rfl

theorem createSession_spec (clk : Nat → Nat) (w : World) (sid : String) (userId : Int)
    (hfresh : ∀ s ∈ w.db.sessions, s.sid ≠ sid) :
    ∃ s : SessionRow,
      (createSession clk w sid userId).1 = some (sid, s.expires_at) ∧
      (createSession clk w sid userId).2.db.sessions = w.db.sessions ++ [s] ∧
      (createSession clk w sid userId).2.db.users = w.db.users ∧
      s.sid = sid ∧ s.user_id = userId ∧ s.created_at = clk w.tick ∧
      s.expires_at = clk (w.tick + 1) + SESSION_TTL_MS := by
  rw [createSession_fresh clk w sid userId hfresh]
  exact ⟨_, rfl, rfl, rfl, rfl, rfl, rfl, rfl⟩

/-- C25: `createSession` with a token that is not stored yet, for a user whose row is
stored, stores a session whose `expires_at` is the `Date.now()` reading of the issuance plus
`SESSION_TTL_MS`, which is 604800000 ms (7 days); `created_at` is the `nowISO()` reading
taken just before. Resolving cookies with `getUserBySession` any number of times stores no
other row for the token and rewrites none: a stored row of the token is the issued one, with
its `created_at` and `expires_at`. With a non-decreasing clock, after any such resolutions
the token is accepted exactly when the clock reads at most issuance + 7 days, and refused
exactly when it reads more. -/
theorem session_fixed_ttl (clk : Nat → Nat) (hmono : Monotone clk) (w : World)
    (sid : String) (userId : Int) (u : UserRow) (hsid : sid ≠ "")
    (hfresh : ∀ s ∈ w.db.sessions, s.sid ≠ sid)
    (hu : u ∈ w.db.users) (huid : u.id = userId)
    (huniqU : ∀ u' ∈ w.db.users, u'.id = userId → u' = u) :
    SESSION_TTL_MS = 604800000 ∧
    ∃ s : SessionRow,
      (createSession clk w sid userId).1 = some (sid, s.expires_at) ∧
      s ∈ (createSession clk w sid userId).2.db.sessions ∧
      s.sid = sid ∧ s.user_id = userId ∧ s.created_at = clk w.tick ∧
      s.expires_at = clk (w.tick + 1) + SESSION_TTL_MS ∧
      ∀ sids : List (Option String),
        (∀ x ∈ (resolveAll clk (createSession clk w sid userId).2 sids).db.sessions,
          x.sid = sid → x = s) ∧
        ((getUserBySession clk (resolveAll clk (createSession clk w sid userId).2 sids)
            (some sid)).1 = some (mapUser u) ↔
          clk (resolveAll clk (createSession clk w sid userId).2 sids).tick ≤
            clk (w.tick + 1) + SESSION_TTL_MS) ∧
        ((getUserBySession clk (resolveAll clk (createSession clk w sid userId).2 sids)
            (some sid)).1 = none ↔
          clk (w.tick + 1) + SESSION_TTL_MS <
            clk (resolveAll clk (createSession clk w sid userId).2 sids).tick) := by
  refine ⟨by decide, ?_⟩
  obtain ⟨s, hres, hsess, husers, hssid, hsuid, hscr, hsexp⟩ :=
    createSession_spec clk w sid userId hfresh
  refine ⟨s, hres, ?_, hssid, hsuid, hscr, hsexp, ?_⟩
  · rw [hsess]
    exact List.mem_append_right _ (List.mem_singleton.mpr rfl)
  · intro sids
    generalize (createSession clk w sid userId).2 = w1 at hsess husers ⊢
    have hin : s ∈ w1.db.sessions := by
      rw [hsess]
      exact List.mem_append_right _ (List.mem_singleton.mpr rfl)
    have huniq : ∀ x ∈ w1.db.sessions, x.sid = s.sid → x = s := by
      intro x hx hxs
      rw [hsess] at hx
      rcases List.mem_append.mp hx with h | h
      · exact absurd (hxs.trans hssid) (hfresh x h)
      · exact List.mem_singleton.mp h
    obtain ⟨h1, h2, h3⟩ := resolveAll_keeps clk hmono w1 s huniq sids w1 rfl
      (fun x hx => hx) (Or.inl hin)
    have huniq2 : ∀ x ∈ (resolveAll clk w1 sids).db.sessions, x.sid = sid → x = s :=
      fun x hx hxs => huniq x (h2 x hx) (hxs.trans hssid.symm)
    have hacc := accepted_iff_not_expired clk (resolveAll clk w1 sids) sid s u hsid hssid
      huniq2 (by rw [h1, husers]; exact hu) (by rw [hsuid]; exact huid)
      (by rw [h1, husers, hsuid]; exact huniqU) h3
    rw [hsexp] at hacc
    exact ⟨huniq2, hacc.1, hacc.2⟩

/-- Witness of C25: a second session is issued to the staff member at time 1005; its
expiry is 1006 + 604800000. -/
theorem session_fixed_ttl_witness :
    Monotone sampleClock ∧
    (createSession sampleClock sampleSessionWorld "77aa" 3).1 =
      some ("77aa", 604801006) ∧
    SESSION_TTL_MS = 604800000 :=
  ⟨fun _ _ h => Nat.add_le_add_left h 1000, by decide,
    (session_fixed_ttl sampleClock (fun _ _ h => Nat.add_le_add_left h 1000)
      sampleSessionWorld "77aa" 3 sampleStaffRow (by decide) (by decide) (by decide)
      (by decide) (by decide)).1⟩


/-! ## C26: emails are unique up to case and surrounding white space -/

theorem upper_range (n : Nat) (h1 : 65 ≤ n) (h2 : n ≤ 90) :
    isJsSpace (Char.ofNat (n + 32)) = false ∧ isJsSpace (Char.ofNat n) = false ∧
    (Char.ofNat (n + 32)).toLower = Char.ofNat (n + 32) := by
  interval_cases n <;> decide

theorem toLower_of_upper (c : Char) (h : c.toNat ≥ 65 ∧ c.toNat ≤ 90) :
    c.toLower = Char.ofNat (c.toNat + 32) := by
  unfold Char.toLower
  simp only [h, and_self, if_true]

theorem toLower_of_not_upper (c : Char) (h : ¬ (c.toNat ≥ 65 ∧ c.toNat ≤ 90)) :
    c.toLower = c := by
  unfold Char.toLower
  simp only [h, if_false]

theorem isJsSpace_toLower (c : Char) : isJsSpace c.toLower = isJsSpace c := by
  by_cases h : c.toNat ≥ 65 ∧ c.toNat ≤ 90
  · obtain ⟨a1, a2, -⟩ := upper_range c.toNat h.1 h.2
    rw [toLower_of_upper c h, a1]
    rw [Char.ofNat_toNat] at a2
    rw [a2]
  · rw [toLower_of_not_upper c h]

theorem toLower_toLower (c : Char) : c.toLower.toLower = c.toLower := by
  by_cases h : c.toNat ≥ 65 ∧ c.toNat ≤ 90
  · rw [toLower_of_upper c h]
    exact (upper_range c.toNat h.1 h.2).2.2
  · rw [toLower_of_not_upper c h, toLower_of_not_upper c h]

theorem dropSpaces_map (l : List Char) :
    dropSpaces (l.map Char.toLower) = (dropSpaces l).map Char.toLower := by
  induction l with
  | nil => rfl
  | cons c l ih =>
    rw [List.map_cons]
    unfold dropSpaces
    rw [isJsSpace_toLower]
    split
    · exact ih
    · rfl

theorem trimChars_map (l : List Char) :
    trimChars (l.map Char.toLower) = (trimChars l).map Char.toLower := by
  unfold trimChars
  rw [dropSpaces_map, ← List.map_reverse, dropSpaces_map, List.map_reverse]

theorem dropSpaces_head (l : List Char) :
    dropSpaces l = [] ∨ ∃ c cs, dropSpaces l = c :: cs ∧ isJsSpace c = false := by
  induction l with
  | nil => left; rfl
  | cons c l ih =>
    unfold dropSpaces
    split
    · exact ih
    · right
      exact ⟨c, l, rfl, by simpa using ‹¬ isJsSpace c = true›⟩

theorem dropSpaces_idem (l : List Char) : dropSpaces (dropSpaces l) = dropSpaces l := by
  rcases dropSpaces_head l with h | ⟨c, cs, h, hc⟩
  · rw [h]; rfl
  · rw [h]; exact dropSpaces_of_head c cs hc

theorem dropSpaces_suffix (l : List Char) : ∃ pre, l = pre ++ dropSpaces l := by
  induction l with
  | nil => exact ⟨[], rfl⟩
  | cons c l ih =>
    unfold dropSpaces
    split
    · obtain ⟨pre, hpre⟩ := ih
      exact ⟨c :: pre, by rw [List.cons_append, ← hpre]⟩
    · exact ⟨[], rfl⟩

theorem trimChars_idem (l : List Char) : trimChars (trimChars l) = trimChars l := by
  unfold trimChars
  obtain ⟨pre, hpre⟩ := dropSpaces_suffix (dropSpaces l).reverse
  have ht : dropSpaces l =
      (dropSpaces (dropSpaces l).reverse).reverse ++ pre.reverse := by
    have := congrArg List.reverse hpre
    rw [List.reverse_reverse, List.reverse_append] at this
    exact this
  have h1 : dropSpaces (dropSpaces (dropSpaces l).reverse).reverse =
      (dropSpaces (dropSpaces l).reverse).reverse := by
    cases hr : (dropSpaces (dropSpaces l).reverse).reverse with
    | nil => rfl
    | cons c r =>
      rw [hr, List.cons_append] at ht
      rcases dropSpaces_head l with h | ⟨c', cs, h, hc⟩
      · rw [h] at ht
        cases ht
      · rw [h] at ht
        injection ht with hcc _
        rw [← hcc]
        exact dropSpaces_of_head c' r hc
  rw [h1, List.reverse_reverse, dropSpaces_idem]

/-- Trimming and lower-casing twice is trimming and lower-casing once, for the lower-casing
of the letters A to Z. -/
theorem asciiLower_trim_idem (s : String) :
    asciiLower (jsTrim (asciiLower (jsTrim s))) = asciiLower (jsTrim s) := by
  unfold asciiLower jsTrim
  apply String.ext
  show (trimChars ((trimChars s.data).map Char.toLower)).map Char.toLower =
    (trimChars s.data).map Char.toLower
  rw [trimChars_map, trimChars_idem, List.map_map]
  apply List.map_congr_left
  intro c _
  exact toLower_toLower c

theorem createSession_users (clk : Nat → Nat) (w : World) (sid : String) (userId : Int) :
    (createSession clk w sid userId).2.db.users = w.db.users := by
  unfold createSession
  simp only []
  split <;> rfl

theorem registerCommit_users (lower upper : String → String) (clk : Nat → Nat) (w : World)
    (body : RegisterBody) (passwordHash sid : String) :
    ∃ row : UserRow, row.email = normalizedEmail lower body ∧
      (registerCommit lower upper clk w body passwordHash sid).2.db.users =
        w.db.users ++ [row] := by
  refine ⟨{ id := nextRowId (w.db.users.map (fun u => u.id)) w.db.userSeq,
            full_name := bindText body.full_name, email := normalizedEmail lower body,
            password_hash := passwordHash, role := normalizedRole upper body, is_active := 1,
            created_at := clk w.tick }, rfl, ?_⟩
  unfold registerCommit
  simp only []
  split
  · rw [createSession_users]
    rfl
  · split
    · rw [createSession_users]
      rfl
    · show (createSession clk _ sid _).2.db.users = _
      rw [createSession_users]
      rfl

/-- The tables a registration that is refused at a gate, or finds the email stored, leaves:
all of them. The users table after any registration: unchanged, or one more row whose email
is the normalised email of the body, which is not empty and is the email of no stored row. -/
theorem register_users (lower upper : String → String) (clk : Nat → Nat) (w : World)
    (body : RegisterBody) (passwordHash sid : String) :
    (register lower upper clk w body passwordHash sid).2.db.users = w.db.users ∨
    ∃ row : UserRow, row.email = normalizedEmail lower body ∧
      normalizedEmail lower body ≠ "" ∧
      (∀ u ∈ w.db.users, u.email ≠ normalizedEmail lower body) ∧
      (register lower upper clk w body passwordHash sid).2.db.users = w.db.users ++ [row] := by
  unfold register
  split
  · left; rfl
  · rename_i hm
    split
    · left; rfl
    · split
      · left; rfl
      · split
        · left; rfl
        · rename_i hfind
          right
          obtain ⟨row, hrow, husers⟩ :=
            registerCommit_users lower upper clk w body passwordHash sid
          refine ⟨row, hrow, ?_, ?_, husers⟩
          · intro he
            exact hm (Or.inr (Or.inl he))
          · intro u hu he
            rw [List.find?_eq_none] at hfind
            exact hfind u hu (by simpa using he)

/-- Stored emails are normalised, not empty and pairwise different, after a registration. -/
theorem register_emails (lower upper : String → String)
    (hidem : ∀ s, lower (jsTrim (lower (jsTrim s))) = lower (jsTrim s))
    (clk : Nat → Nat) (w : World) (body : RegisterBody) (passwordHash sid : String)
    (hinv : (∀ u ∈ w.db.users, normalizeEmail lower u.email = u.email ∧ u.email ≠ "") ∧
      (w.db.users.map (fun u => u.email)).Nodup) :
    (∀ u ∈ (register lower upper clk w body passwordHash sid).2.db.users,
      normalizeEmail lower u.email = u.email ∧ u.email ≠ "") ∧
    ((register lower upper clk w body passwordHash sid).2.db.users.map
      (fun u => u.email)).Nodup := by
  rcases register_users lower upper clk w body passwordHash sid with
    h | ⟨row, hrow, hne, hnew, h⟩
  · rw [h]; exact hinv
  · rw [h]
    constructor
    · intro u hu
      rcases List.mem_append.mp hu with hu | hu
      · exact hinv.1 u hu
      · rw [List.mem_singleton] at hu
        rw [hu, hrow]
        exact ⟨hidem _, hne⟩
    · rw [List.map_append, List.nodup_append]
      refine ⟨hinv.2, List.nodup_singleton _, ?_⟩
      intro e he1 he2
      obtain ⟨u, hu, rfl⟩ := List.mem_map.mp he1
      simp only [List.map_cons, List.map_nil, List.mem_singleton] at he2
      exact hnew u hu (he2.trans hrow)

theorem registerAll_emails (lower upper : String → String)
    (hidem : ∀ s, lower (jsTrim (lower (jsTrim s))) = lower (jsTrim s))
    (clk : Nat → Nat) (rs : List Registration) (w : World)
    (hinv : (∀ u ∈ w.db.users, normalizeEmail lower u.email = u.email ∧ u.email ≠ "") ∧
      (w.db.users.map (fun u => u.email)).Nodup) :
    (∀ u ∈ (registerAll lower upper clk w rs).db.users,
      normalizeEmail lower u.email = u.email ∧ u.email ≠ "") ∧
    ((registerAll lower upper clk w rs).db.users.map (fun u => u.email)).Nodup := by
  induction rs generalizing w with
  | nil => exact hinv
  | cons r rs ih =>
    exact ih (register lower upper clk w r.body r.passwordHash r.sid).2
      (register_emails lower upper hidem clk w r.body r.passwordHash r.sid hinv)

/-- C26: `toLowerCase` and `toUpperCase` stand for the built-in case conversions of all
letters, of which only this is used: trimming and lower-casing a text twice gives what doing
it once gives. In a state reached from the empty store by registration requests, the emails
of the stored users are pairwise different after trimming and lower-casing; and a
registration whose email, trimmed and lower-cased, equals that of a stored user, with a
truthy `full_name`, a password of at least 6 UTF-16 code units and a role that is absent or
one of the three up to case and surrounding white space, is answered 409 EMAIL_EXISTS and
leaves the state as it was: no user and no session is created. -/
theorem email_unique_case_insensitive (toLowerCase toUpperCase : String → String)
    (hidem : ∀ s, toLowerCase (jsTrim (toLowerCase (jsTrim s))) = toLowerCase (jsTrim s))
    (clk : Nat → Nat) (rs : List Registration) :
    ((registerAll toLowerCase toUpperCase clk emptyWorld rs).db.users.map
      (fun u => normalizeEmail toLowerCase u.email)).Nodup ∧
    ∀ (body : RegisterBody) (passwordHash sid : String),
      (∃ u ∈ (registerAll toLowerCase toUpperCase clk emptyWorld rs).db.users,
        normalizeEmail toLowerCase (stringOr body.email "") =
          normalizeEmail toLowerCase u.email) →
      optTruthy body.full_name = true → optTruthy body.password = true →
      6 ≤ jsLength (stringOr body.password "") →
      normalizedRole toUpperCase body ∈ ["SAKIN", "PERSONEL", "YONETICI"] →
      register toLowerCase toUpperCase clk
          (registerAll toLowerCase toUpperCase clk emptyWorld rs) body passwordHash sid =
        (errorResponse 409 "EMAIL_EXISTS",
          registerAll toLowerCase toUpperCase clk emptyWorld rs) := by
  obtain ⟨hnorm, hnodup⟩ := registerAll_emails toLowerCase toUpperCase hidem clk rs emptyWorld
    ⟨(by intro u hu; cases hu), List.nodup_nil⟩
  generalize registerAll toLowerCase toUpperCase clk emptyWorld rs = w at hnorm hnodup ⊢
  constructor
  · have hmap : w.db.users.map (fun u => normalizeEmail toLowerCase u.email) =
        w.db.users.map (fun u => u.email) :=
      List.map_congr_left (fun u hu => (hnorm u hu).1)
    rw [hmap]
    exact hnodup
  · rintro body passwordHash sid ⟨u, hu, heq⟩ hname hpw hlen hrole
    have hemail : normalizedEmail toLowerCase body = u.email := by
      show normalizeEmail toLowerCase (stringOr body.email "") = u.email
      rw [heq, (hnorm u hu).1]
    have hfind : ∃ x, w.db.users.find?
        (fun x => decide (x.email = normalizedEmail toLowerCase body)) = some x := by
      cases hf : w.db.users.find?
          (fun x => decide (x.email = normalizedEmail toLowerCase body)) with
      | some x => exact ⟨x, rfl⟩
      | none =>
        rw [List.find?_eq_none] at hf
        exact absurd (by simpa using hemail.symm) (hf u hu)
    obtain ⟨x, hx⟩ := hfind
    unfold register
    rw [if_neg, if_neg (by omega), if_neg (not_not.mpr hrole)]
    · simp only [hx]
    · rw [hemail]
      simp [hname, hpw, (hnorm u hu).2]

/-- Witness of C26: with the case conversions of ASCII, after `a@site` has registered, a
registration with ` A@Site ` is refused. -/
theorem email_unique_case_insensitive_witness :
    register asciiLower asciiUpper sampleClock
      (registerAll asciiLower asciiUpper sampleClock emptyWorld
        [{ body := { full_name := some (JVal.str "Ada"), email := some (JVal.str "a@site"),
                     password := some (JVal.str "secret1") },
           passwordHash := "hash", sid := "77aa" }])
      { full_name := some (JVal.str "Eve"), email := some (JVal.str " A@Site "),
        password := some (JVal.str "secret2") } "hash2" "88bb" =
    (errorResponse 409 "EMAIL_EXISTS",
      registerAll asciiLower asciiUpper sampleClock emptyWorld
        [{ body := { full_name := some (JVal.str "Ada"), email := some (JVal.str "a@site"),
                     password := some (JVal.str "secret1") },
           passwordHash := "hash", sid := "77aa" }]) :=
  (email_unique_case_insensitive asciiLower asciiUpper asciiLower_trim_idem sampleClock
    [{ body := { full_name := some (JVal.str "Ada"), email := some (JVal.str "a@site"),
                 password := some (JVal.str "secret1") },
       passwordHash := "hash", sid := "77aa" }]).2
    { full_name := some (JVal.str "Eve"), email := some (JVal.str " A@Site "),
      password := some (JVal.str "secret2") } "hash2" "88bb"
    ⟨{ id := 1, full_name := "Ada", email := "a@site", password_hash := "hash",
       role := "SAKIN", is_active := 1, created_at := 1000 }, by decide, by decide⟩
    (by decide) (by decide) (by decide) (by decide)


/-! ## C30: `escapeHtml` -/

theorem replaceAll_data (s : String) (c : Char) (r : String) :
    (replaceAll s c r).data = s.data.flatMap (fun x => if x = c then r.data else [x]) := rfl

/-- The five replacements in sequence are one pass that writes each special character as
its entity. -/
theorem escapeHtml_data (s : Option JVal) :
    (escapeHtml s).data = (stringOrEmpty s).data.flatMap (fun c =>
      if c = '&' then "&amp;".data
      else if c = '<' then "&lt;".data
      else if c = '>' then "&gt;".data
      else if c = Char.ofNat 34 then "&quot;".data
      else if c = Char.ofNat 39 then "&#039;".data
      else [c]) := by
  unfold escapeHtml
  simp only [replaceAll_data, List.flatMap_assoc]
  congr 1
  funext c
  by_cases h1 : c = '&'
  · subst h1; decide
  by_cases h2 : c = '<'
  · subst h2; decide
  by_cases h3 : c = '>'
  · subst h3; decide
  by_cases h4 : c = Char.ofNat 34
  · subst h4; decide
  by_cases h5 : c = Char.ofNat 39
  · subst h5; decide
  simp [h1, h2, h3, h4, h5]

theorem ampersandsEscaped_flatMap (l : List Char) :
    ampersandsEscaped (l.flatMap (fun c =>
      if c = '&' then "&amp;".data
      else if c = '<' then "&lt;".data
      else if c = '>' then "&gt;".data
      else if c = Char.ofNat 34 then "&quot;".data
      else if c = Char.ofNat 39 then "&#039;".data
      else [c])) = true := by
  induction l with
  | nil => rfl
  | cons c l ih =>
    rw [List.flatMap_cons]
    by_cases h1 : c = '&'
    · subst h1
      simp [ampersandsEscaped, htmlEntities, List.isPrefixOf, ih]
    by_cases h2 : c = '<'
    · subst h2
      simp [ampersandsEscaped, htmlEntities, List.isPrefixOf, ih]
    by_cases h3 : c = '>'
    · subst h3
      simp [ampersandsEscaped, htmlEntities, List.isPrefixOf, ih]
    by_cases h4 : c = Char.ofNat 34
    · subst h4
      simp [ampersandsEscaped, htmlEntities, List.isPrefixOf, ih]
    by_cases h5 : c = Char.ofNat 39
    · subst h5
      simp [ampersandsEscaped, htmlEntities, List.isPrefixOf, ih]
    simp [ampersandsEscaped, h1, h2, h3, h4, h5, ih]

theorem ampersandsEscaped_spec (l : List Char) (h : ampersandsEscaped l = true) :
    ∀ pre post, l = pre ++ '&' :: post →
      ∃ e ∈ htmlEntities, e.data <+: '&' :: post := by
  intro pre
  induction pre generalizing l with
  | nil =>
    intro post hl
    subst hl
    simp only [List.nil_append, ampersandsEscaped, bne_self_eq_false, Bool.false_or,
      Bool.and_eq_true, List.any_eq_true] at h
    obtain ⟨⟨e, he, hp⟩, -⟩ := h
    exact ⟨e, he, List.isPrefixOf_iff_prefix.mp hp⟩
  | cons a pre ih =>
    intro post hl
    subst hl
    simp only [List.cons_append, ampersandsEscaped, Bool.and_eq_true] at h
    exact ih _ h.2 post rfl

theorem flatMap_id_of_not_special (l : List Char) (h : ∀ c ∈ l, c ∉ htmlSpecial) :
    l.flatMap (fun c =>
      if c = '&' then "&amp;".data
      else if c = '<' then "&lt;".data
      else if c = '>' then "&gt;".data
      else if c = Char.ofNat 34 then "&quot;".data
      else if c = Char.ofNat 39 then "&#039;".data
      else [c]) = l := by
  induction l with
  | nil => rfl
  | cons c l ih =>
    have hc := h c (List.mem_cons_self _ _)
    simp only [htmlSpecial, List.mem_cons, List.mem_singleton, List.not_mem_nil, or_false,
      not_or] at hc
    obtain ⟨h1, h2, h3, h4, h5⟩ := hc
    rw [List.flatMap_cons, ih (fun x hx => h x (List.mem_cons_of_mem _ hx))]
    simp [h1, h2, h3, h4, h5]

/-- C30: for every input, `escapeHtml` writes no `<`, `>`, double quote or apostrophe; every
`&` of the output starts one of `&amp;`, `&lt;`, `&gt;`, `&quot;`, `&#039;`; for `null` or
`undefined` the output is the empty string; and when `String(s)` has none of the five
special characters the output is `String(s)`. -/
theorem escapeHtml_safe (s : Option JVal) :
    (∀ c ∈ (escapeHtml s).data,
      c ≠ '<' ∧ c ≠ '>' ∧ c ≠ Char.ofNat 34 ∧ c ≠ Char.ofNat 39) ∧
    (∀ pre post, (escapeHtml s).data = pre ++ '&' :: post →
      ∃ e ∈ htmlEntities, e.data <+: '&' :: post) ∧
    escapeHtml none = "" ∧ escapeHtml (some JVal.null) = "" ∧
    ((∀ c ∈ (stringOrEmpty s).data, c ∉ htmlSpecial) → escapeHtml s = stringOrEmpty s) := by
  refine ⟨?_, ?_, rfl, rfl, ?_⟩
  · intro c hc
    rw [escapeHtml_data, List.mem_flatMap] at hc
    obtain ⟨x, -, hx⟩ := hc
    by_cases h1 : x = '&'
    · rw [if_pos h1] at hx
      revert c
      decide
    by_cases h2 : x = '<'
    · rw [if_neg h1, if_pos h2] at hx
      revert c
      decide
    by_cases h3 : x = '>'
    · rw [if_neg h1, if_neg h2, if_pos h3] at hx
      revert c
      decide
    by_cases h4 : x = Char.ofNat 34
    · rw [if_neg h1, if_neg h2, if_neg h3, if_pos h4] at hx
      revert c
      decide
    by_cases h5 : x = Char.ofNat 39
    · rw [if_neg h1, if_neg h2, if_neg h3, if_neg h4, if_pos h5] at hx
      revert c
      decide
    rw [if_neg h1, if_neg h2, if_neg h3, if_neg h4, if_neg h5, List.mem_singleton] at hx
    rw [hx]
    exact ⟨h2, h3, h4, h5⟩
  · refine ampersandsEscaped_spec _ ?_
    rw [escapeHtml_data]
    exact ampersandsEscaped_flatMap _
  · intro h
    have hd := escapeHtml_data s
    rw [flatMap_id_of_not_special _ h] at hd
    exact String.ext hd

/-- Witness of C30: the text `a<b & "c"` is written with four entities, and a text without
special characters is returned as it is. -/
theorem escapeHtml_safe_witness :
    escapeHtml (some (JVal.str "a<b & \"c\"")) = "a&lt;b &amp; &quot;c&quot;" ∧
    escapeHtml (some (JVal.str "Leak 7")) = stringOrEmpty (some (JVal.str "Leak 7")) :=
  ⟨by decide, (escapeHtml_safe (some (JVal.str "Leak 7"))).2.2.2.2 (by decide)⟩

end SSY
